import Mathlib

/-!
# soliloque-server: control packet handlers

A shallow embedding of `src/control_packets/ctl_create_delete_channel.c`,
`src/control_packets/ctl_change_player.c` and the macros of `src/compat.h`.

Conventions of the embedding.

* A buffer (`char *`) is a list of bytes.  Multi-byte stores write the value
  little-endian (the handlers store host-order integers and the protocol is
  little-endian); reading past the end of a request yields zero bytes.
* C pointers into the domain model are resolved through stable ids: a player
  is named by its `public_id`, a channel by its `id`, and a pointer
  dereference is a lookup of the first entry carrying the id.
* The headers and the helper functions the handlers call are not part of the
  sources at hand.  Constants, the privilege engine, the checksum, the channel
  codec and the answers of the persistence layer are parameters (`Env`);
  the domain helpers are modelled from the specification and marked so.
* Everything a handler hands to the outside (acknowledgements, packets given
  to `send_to`, calls of the persistence layer) is appended to an ordered log.
* Allocation is taken to succeed; the calls of `logger` and `print_channel`
  are left out.  Where the C code leaves defined behaviour by writing outside
  a buffer or reading through NULL, a handler ends in `Except.error` with the
  state reached; an out-of-range shift count yields a value the platform
  chooses (`Env.shl_out_of_range`).
-/

namespace Soliloque

/-! ## Bytes and integers -/

/-- A buffer of bytes. -/
abbrev Bytes := List Nat

/-- `MIN(a, b)` of compat.h: `(((a) < (b)) ? (a) : (b))`. -/
def MIN (a b : Int) : Int := if a < b then a else b

/-- The two bytes of a 16-bit store, low byte first. -/
def le16 (v : Nat) : Bytes := [v % 256, v / 256 % 256]

/-- The four bytes of a 32-bit store, low byte first. -/
def le32 (v : Nat) : Bytes :=
  [v % 256, v / 256 % 256, v / 65536 % 256, v / 16777216 % 256]

/-- Store `src` into `buf` at offset `off` (`*(T *)(buf + off) = v`, `memcpy`). -/
def poke (buf : Bytes) (off : Nat) (src : Bytes) : Bytes :=
  buf.take off ++ src ++ buf.drop (off + src.length)

/-- Byte `i` of a buffer as an unsigned value; zero past the end. -/
def peek (buf : Bytes) (i : Nat) : Nat := buf.getD i 0 % 256

/-- A 16-bit load at offset `off` (`memcpy(&v, buf + off, 2)`). -/
def rd16 (buf : Bytes) (off : Nat) : Nat := peek buf off + 256 * peek buf (off + 1)

/-- A 32-bit load at offset `off` (`memcpy(&v, buf + off, 4)`). -/
def rd32 (buf : Bytes) (off : Nat) : Nat :=
  peek buf off + 256 * peek buf (off + 1) + 65536 * peek buf (off + 2)
    + 16777216 * peek buf (off + 3)

/-- `calloc(n, 1)`: a zeroed buffer. -/
def calloc (n : Nat) : Bytes := List.replicate n 0

/-- The C string held in a buffer: the bytes before the first NUL. -/
def cstr (buf : Bytes) : Bytes := buf.takeWhile (fun b => b != 0)

/-- `strcmp(a, b) == 0`. -/
def strcmp_eq (a b : Bytes) : Bool := cstr a == cstr b

/-- `strncpy(dest, src, n)` for `n` within `dest`: the bytes of the string at
`src` (at most `n` of them), NUL-padded to `n` bytes, stored at the start of
`dest`. -/
def strncpy (dest src : Bytes) (n : Nat) : Bytes :=
  let s := cstr (src.take n)
  poke dest 0 (s ++ List.replicate (n - s.length) 0)

/-- `strncpy(dest, src, n)` where the count `n` is a signed expression that C
converts to `size_t`: a negative count becomes a huge one, and `strncpy`
writes `n` bytes whatever the length of the source, so any count above the
size of `dest` writes outside it; that is `none`. -/
def strncpy_checked (dest src : Bytes) (n : Int) : Option Bytes :=
  if 0 ≤ n ∧ n ≤ dest.length then some (strncpy dest src n.toNat) else none

/-! ## Data model -/

/-- The privilege identifiers (`SP_*`) the handlers ask the engine for. -/
inductive privilege
  | SP_CHA_DELETE
  | SP_CHA_JOIN_WO_PASS
  | SP_CHA_CREATE_UNREGISTERED
  | SP_CHA_CREATE_REGISTERED
  | SP_CHA_CREATE_DEFAULT
  | SP_CHA_CREATE_MODERATED
  | SP_CHA_CREATE_SUBCHANNELED
  | SP_PL_GRANT_CA
  | SP_PL_REVOKE_CA
  | SP_PL_GRANT_OP
  | SP_PL_REVOKE_OP
  | SP_PL_GRANT_VOICE
  | SP_PL_REVOKE_VOICE
  | SP_PL_GRANT_AUTOOP
  | SP_PL_REVOKE_AUTOOP
  | SP_PL_GRANT_AUTOVOICE
  | SP_PL_REVOKE_AUTOVOICE
  | SP_PL_GRANT_SA
  | SP_PL_REVOKE_SA
  | SP_PL_GRANT_ALLOWREG
  | SP_PL_REVOKE_ALLOWREG
  | SP_PL_ALLOW_SELF_REG
  | SP_PL_DEL_REGISTRATION
deriving DecidableEq, Repr

/-- The discriminant of a privilege record (`priv->reg`). -/
inductive priv_binding
  | PL_CH_PRIV_REGISTERED
  | PL_CH_PRIV_UNREGISTERED
deriving DecidableEq, Repr

/-- `struct player_channel_privilege`: channel rights bound to a registration
(`pl_or_reg` is the registration id) or to a live player (`pl_or_reg` is the
player's public id). -/
structure player_channel_privilege where
  reg : priv_binding
  pl_or_reg : Nat
  flags : Nat
deriving DecidableEq, Repr

/-- `struct player`, the fields the handlers touch. -/
structure player where
  public_id : Nat
  private_id : Nat
  f0_s_counter : Nat
  in_chan : Nat
  global_flags : Nat
  player_attributes : Nat
  reg : Option Nat
deriving DecidableEq, Repr

/-- `struct channel`, the fields the handlers touch.  `players` holds the
public ids of the members (`players->used_slots` is its length), `password`
is the `char password[30]` array. -/
structure channel where
  id : Nat
  parent_id : Nat
  flags : Nat
  name : Bytes
  password : Bytes
  max_users : Nat
  players : List Nat
  subchannels : List Nat
  pl_privileges : List player_channel_privilege
deriving DecidableEq, Repr

/-- `struct server`: the channel collection and the connected players. -/
structure server where
  chans : List channel
  players : List player
deriving DecidableEq, Repr

/-- A call of the persistence layer (`database.h`). -/
inductive db_call
  | db_unregister_channel (ch : channel)
  | db_register_channel (ch : channel)
  | db_del_registration (reg : Option Nat)
deriving DecidableEq, Repr

/-- What a handler hands to the outside, in order. -/
inductive Event
  | ack (pl : Nat)
  | send (pl : Nat) (data : Bytes)
  | db (call : db_call) (ok : Bool)
deriving DecidableEq, Repr

/-- The state a handler runs against: the in-memory server and the log of
what has left the handlers so far. -/
structure World where
  s : server
  log : List Event
deriving DecidableEq, Repr

/-- What the sources at hand leave open: the constants of the missing headers,
the privilege engine, the checksum, the channel codec, the status the
persistence layer reports, and the platform. -/
structure Env where
  PKT_TYPE_CTL : Nat
  CTL_CHANDELETE : Nat
  CTL_CHANDELETE_ERROR : Nat
  CTL_CREATE_CH : Nat
  CTL_SWITCHCHAN : Nat
  CTL_CHANGE_PL_CHPRIV : Nat
  CTL_CHANGE_PL_SVPRIV : Nat
  CTL_CHANGE_PL_STATUS : Nat
  CHANNEL_FLAG_UNREGISTERED : Nat
  CHANNEL_FLAG_MODERATED : Nat
  CHANNEL_FLAG_PASSWORD : Nat
  CHANNEL_FLAG_SUBCHANNELS : Nat
  CHANNEL_FLAG_DEFAULT : Nat
  CHANNEL_PRIV_CHANADMIN : Nat
  CHANNEL_PRIV_OP : Nat
  CHANNEL_PRIV_VOICE : Nat
  CHANNEL_PRIV_AUTOOP : Nat
  CHANNEL_PRIV_AUTOVOICE : Nat
  GLOBAL_FLAG_SERVERADMIN : Nat
  GLOBAL_FLAG_ALLOWREG : Nat
  GLOBAL_FLAG_REGISTERED : Nat
  /-- The privilege engine: `player_has_privilege(pl, priv, context)`. -/
  player_has_privilege : server → Nat → privilege → Option channel → Bool
  /-- The checksum `packet_add_crc_d` computes over a packet. -/
  crc32 : Bytes → Nat
  /-- The status a persistence call reports (the handlers discard it). -/
  db_status : World → db_call → Bool
  /-- The codec `channel_from_data(ptr, len, &ch)`: the channel read and the
  number of bytes consumed. -/
  channel_from_data : Bytes → Int → channel × Nat
  /-- The codec `channel_to_data`; `channel_to_data_size` is its length. -/
  channel_to_data : channel → Bytes
  /-- The id under which `add_channel` stores a channel. -/
  add_channel_id : server → channel → Nat
  /-- Whether plain `char` is signed on the platform. -/
  char_signed : Bool
  /-- Whether `ptrdiff_t` is wider than `unsigned int` (LP64). -/
  ptrdiff_wide : Bool
  /-- The value of `1 << n` for a count outside `0 .. 30`, where C leaves the
  shift undefined. -/
  shl_out_of_range : Nat → Nat

/-! ## Helpers that are not in the sources at hand -/

/-- Modelled from the spec: `get_channel_by_id` is not in the sources at hand;
channel lookup by `id`. -/
def get_channel_by_id (s : server) (id : Nat) : Option channel :=
  s.chans.find? (fun c => c.id == id)

/-- Modelled from the spec: `get_player_by_public_id` is not in the sources at
hand; player lookup by `public_id`. -/
def get_player_by_public_id (s : server) (id : Nat) : Option player :=
  s.players.find? (fun p => p.public_id == id)

/-- A store through a pointer into a collection: `f` is applied to the first
entry whose key is `id`. -/
def update_first {α : Type} (key : α → Nat) (f : α → α) (id : Nat) : List α → List α
  | [] => []
  | x :: xs => if key x = id then f x :: xs else x :: update_first key f id xs

/-- A store through a player pointer: the first player carrying the id. -/
def update_player (f : player → player) (id : Nat) (ps : List player) : List player :=
  update_first (fun p => p.public_id) f id ps

/-- A store through a channel pointer: the first channel carrying the id. -/
def update_channel (f : channel → channel) (id : Nat) (cs : List channel) : List channel :=
  update_first (fun c => c.id) f id cs

/-- Modelled from the spec: `send_acknowledge` is not in the sources at hand;
the ACK handed to the reliability layer is recorded in the log. -/
def send_acknowledge (w : World) (pl : Nat) : World :=
  { w with log := w.log ++ [Event.ack pl] }

/-- Modelled from the spec: `packet_add_crc_d` is not in the sources at hand;
the checksum is computed over the packet with the CRC field (offset 20)
zeroed, then spliced into that field. -/
def packet_add_crc_d (env : Env) (data : Bytes) : Bytes :=
  poke data 20 (le32 (env.crc32 (poke data 20 [0, 0, 0, 0])))

/-- A call of the persistence layer: recorded with the status it reported. -/
def db_do (env : Env) (w : World) (call : db_call) : World :=
  { w with log := w.log ++ [Event.db call (env.db_status w call)] }

/-- Modelled from the spec: `destroy_channel_by_id` is not in the sources at
hand; the channel carrying the id leaves the server's channel collection. -/
def destroy_channel_by_id (w : World) (id : Nat) : World :=
  { w with s := { w.s with chans := w.s.chans.filter (fun c => c.id != id) } }

/-- Modelled from the spec: `ch_getflags` is not in the sources at hand; it
yields the flags bitfield of the channel. -/
@[reducible]
def ch_getflags (c : channel) : Nat := c.flags

/-! ## ctl_create_delete_channel.c -/

/-- One turn of the loop that ends every notification routine: the buffer
gets the recipient's private id at offset 4, its public id at offset 8 and its
counter at offset 12, then the checksum. -/
def personalise (env : Env) (data : Bytes) (p : player) : Bytes :=
  let d1 := poke data 4 (le32 p.private_id)
  let d2 := poke d1 8 (le32 p.public_id)
  let d3 := poke d2 12 (le32 p.f0_s_counter)
  packet_add_crc_d env d3

/-- The statement `tmp_pl->f0_s_counter++` on an unsigned 32-bit counter. -/
def bump (p : player) : player :=
  { p with f0_s_counter := (p.f0_s_counter + 1) % 4294967296 }

/-- The loop `ar_each(struct player *, tmp_pl, iter, s->players) ... ar_end_each`
that ends every notification routine: the one buffer is personalised for each
player in turn, handed to `send_to`, and the player's counter is incremented;
the next turn works on the buffer the previous one left. -/
def notify_each (env : Env) : Bytes → List player → List player × List Event
  | _, [] => ([], [])
  | data, p :: ps =>
    let d := personalise env data p
    let rest := notify_each env d ps
    (bump p :: rest.1, Event.send p.public_id d :: rest.2)

/-- Run the notification loop of a routine over the players of the server. -/
def broadcast (env : Env) (w : World) (data : Bytes) : World :=
  let r := notify_each env data w.s.players
  { s := { w.s with players := r.1 }, log := w.log ++ r.2 }

/-- The buffer `s_notify_channel_deleted` builds before its loop. -/
def channel_deleted_template (env : Env) (del_id : Nat) : Bytes :=
  let data := calloc 30
  let data := poke data 0 (le16 env.PKT_TYPE_CTL)
  let data := poke data 2 (le16 env.CTL_CHANDELETE)
  let data := poke data 24 (le32 del_id)
  poke data 26 (le32 1)

/-- `s_notify_channel_deleted(s, del_id)`. -/
def s_notify_channel_deleted (env : Env) (w : World) (del_id : Nat) : World :=
  broadcast env w (channel_deleted_template env del_id)

/-- The packet `s_resp_cannot_delete_channel` sends to player `p`. -/
def cannot_delete_channel_packet (env : Env) (p : player) (pkt_cnt : Nat) : Bytes :=
  let data := calloc 30
  let data := poke data 0 (le16 env.PKT_TYPE_CTL)
  let data := poke data 2 (le16 env.CTL_CHANDELETE_ERROR)
  let data := poke data 4 (le32 p.private_id)
  let data := poke data 8 (le32 p.public_id)
  let data := poke data 12 (le32 p.f0_s_counter)
  let data := poke data 24 (le16 0x00d1)
  let data := poke data 26 (le32 pkt_cnt)
  packet_add_crc_d env data

/-- `s_resp_cannot_delete_channel(pl, pkt_cnt)`. -/
def s_resp_cannot_delete_channel (env : Env) (w : World) (pl : Nat) (pkt_cnt : Nat) : World :=
  match get_player_by_public_id w.s pl with
  | none => w
  | some p =>
    let pkt := cannot_delete_channel_packet env p pkt_cnt
    let ps := update_player bump pl w.s.players
    { s := { w.s with players := ps }, log := w.log ++ [Event.send pl pkt] }

/-- `c_req_delete_channel(data, len, pl)`. -/
def c_req_delete_channel (env : Env) (data : Bytes) (_len : Nat) (pl : Nat) (w : World) : World :=
  let pkt_cnt := rd32 data 12
  let del_id := rd32 data 24
  let del := get_channel_by_id w.s del_id
  let w := send_acknowledge w pl
  if env.player_has_privilege w.s pl privilege.SP_CHA_DELETE del then
    match del with
    | none => s_resp_cannot_delete_channel env w pl pkt_cnt
    | some d =>
      if d.players.length > 0 then
        s_resp_cannot_delete_channel env w pl pkt_cnt
      else
        let w := if ch_getflags d &&& env.CHANNEL_FLAG_UNREGISTERED = 0
          then db_do env w (db_call.db_unregister_channel d) else w
        let w := s_notify_channel_deleted env w del_id
        destroy_channel_by_id w d.id
  else w

/-- Modelled from the spec: `add_channel` is not in the sources at hand; the
channel joins the server's channel collection, under the id the server gives
it. -/
def add_channel (env : Env) (w : World) (ch : channel) : World :=
  { w with s := { w.s with chans := w.s.chans ++ [{ ch with id := env.add_channel_id w.s ch }] } }

/-- Modelled from the spec: `channel_add_subchannel` is not in the sources at
hand; the child joins the parent's child set. -/
def channel_add_subchannel (w : World) (parent : Nat) (child : Nat) : World :=
  let chans := update_channel (fun c => { c with subchannels := c.subchannels ++ [child] })
    parent w.s.chans
  { w with s := { w.s with chans := chans } }

/-- The buffer `s_notify_channel_created` builds before its loop. -/
def channel_created_template (env : Env) (ch : channel) (creator : Nat) : Bytes :=
  let data := calloc (24 + 4 + (env.channel_to_data ch).length)
  let data := poke data 0 (le16 env.PKT_TYPE_CTL)
  let data := poke data 2 (le16 env.CTL_CREATE_CH)
  let data := poke data 24 (le32 creator)
  poke data 28 (env.channel_to_data ch)

/-- `s_notify_channel_created(ch, creator)`. -/
def s_notify_channel_created (env : Env) (w : World) (ch : channel) (creator : Nat) : World :=
  broadcast env w (channel_created_template env ch creator)

/-- The count `MIN(29, len - (ptr - data) - 1)` that `c_req_create_channel`
passes to `strncpy`, after `ptr - data` bytes have been consumed.  With a
`ptrdiff_t` wider than `unsigned int` the subtraction is signed; otherwise it
is done modulo 2^32. -/
def create_password_count (env : Env) (len : Nat) (consumed : Nat) : Int :=
  if env.ptrdiff_wide then MIN 29 ((len : Int) - (consumed : Int) - 1)
  else MIN 29 (((len : Int) - (consumed : Int) - 1) % 4294967296)

/-- The number of privileges `c_req_create_channel` finds missing
(`priv_nok`). -/
def create_priv_nok (env : Env) (s : server) (pl : Nat) (flags : Nat) : Nat :=
  (if flags &&& env.CHANNEL_FLAG_UNREGISTERED ≠ 0 then
      (if env.player_has_privilege s pl privilege.SP_CHA_CREATE_UNREGISTERED none then 0 else 1)
    else
      (if env.player_has_privilege s pl privilege.SP_CHA_CREATE_REGISTERED none then 0 else 1))
  + (if flags &&& env.CHANNEL_FLAG_DEFAULT ≠ 0
        ∧ env.player_has_privilege s pl privilege.SP_CHA_CREATE_DEFAULT none = false then 1 else 0)
  + (if flags &&& env.CHANNEL_FLAG_MODERATED ≠ 0
        ∧ env.player_has_privilege s pl privilege.SP_CHA_CREATE_MODERATED none = false then 1 else 0)
  + (if flags &&& env.CHANNEL_FLAG_SUBCHANNELS ≠ 0
        ∧ env.player_has_privilege s pl privilege.SP_CHA_CREATE_SUBCHANNELED none = false then 1 else 0)

/-- The tail of `c_req_create_channel` once the privileges are in order
(`priv_nok == 0`): the channel is added, attached to its parent, registered
and announced.  The pointer `ch` is the channel `add_channel` stored, the last
of the collection.  With a parent id that names no channel the code passes
NULL to `channel_add_subchannel` and reads the flags through it; that is
`Except.error`, with the state reached. -/
def create_channel_accepted (env : Env) (w : World) (ch : channel) (pl : Nat) :
    Except World World :=
  let w := add_channel env w ch
  let ch1 := (w.s.chans.getLast?).getD ch
  let step : Except World World :=
    if ch1.parent_id ≠ 0 then
      match get_channel_by_id w.s ch1.parent_id with
      | none => Except.error w
      | some parent =>
        let w := channel_add_subchannel w parent.id ch1.id
        let ch2 := (w.s.chans.getLast?).getD ch1
        if ch_getflags parent &&& env.CHANNEL_FLAG_UNREGISTERED = 0 then
          Except.ok (db_do env w (db_call.db_register_channel ch2))
        else Except.ok w
    else Except.ok w
  match step with
  | Except.error e => Except.error e
  | Except.ok w =>
    let ch3 := (w.s.chans.getLast?).getD ch1
    let w := if ch_getflags ch3 &&& env.CHANNEL_FLAG_UNREGISTERED = 0
      then db_do env w (db_call.db_register_channel ch3) else w
    Except.ok (s_notify_channel_created env w ch3 pl)

/-- `c_req_create_channel(data, len, pl)`.  `Except.error` carries the state
reached when the C code leaves defined behaviour (the password copy writes
outside `ch->password`, or the parent pointer is NULL). -/
def c_req_create_channel (env : Env) (data : Bytes) (len : Nat) (pl : Nat) (w : World) :
    Except World World :=
  let w := send_acknowledge w pl
  let r := env.channel_from_data (data.drop 24) ((len : Int) - 24)
  let consumed := 24 + r.2
  match strncpy_checked r.1.password (data.drop consumed)
      (create_password_count env len consumed) with
  | none => Except.error w
  | some pw =>
    let ch := { r.1 with password := pw }
    if create_priv_nok env w.s pl (ch_getflags ch) = 0 then create_channel_accepted env w ch pl
    else Except.ok w

/-! ## ctl_change_player.c -/

/-- The member set of a channel without player `pl`. -/
def member_leave (pl : Nat) (c : channel) : channel :=
  { c with players := c.players.erase pl }

/-- The member set of a channel with player `pl` added. -/
def member_join (pl : Nat) (c : channel) : channel :=
  { c with players := c.players ++ [pl] }

/-- The assignment `p->in_chan = to`. -/
def set_in_chan (to_id : Nat) (p : player) : player :=
  { p with in_chan := to_id }

/-- Modelled from the spec: `move_player` is not in the sources at hand.  It
removes the player from the members of its channel, sets its channel to `to`
and inserts it into the members of `to`; it fails when `to` is full
(`max_users > 0` and as many members). -/
def move_player (s : server) (pl : Nat) (to_id : Nat) : Option server :=
  match get_player_by_public_id s pl, get_channel_by_id s to_id with
  | some p, some t =>
    if t.max_users > 0 ∧ t.players.length = t.max_users then none
    else
      let chans := update_channel (member_leave pl) p.in_chan s.chans
      let chans := update_channel (member_join pl) to_id chans
      some { chans := chans, players := update_player (set_in_chan to_id) pl s.players }
  | _, _ => none

/-- Whether a privilege record is the one of player `p`: bound to the
registration of `p`, or to `p` itself. -/
def priv_of_player (p : player) (r : player_channel_privilege) : Bool :=
  match r.reg with
  | priv_binding.PL_CH_PRIV_REGISTERED => p.reg == some r.pl_or_reg
  | priv_binding.PL_CH_PRIV_UNREGISTERED => r.pl_or_reg == p.public_id

/-- Modelled from the spec: `get_player_channel_privilege` and
`player_get_channel_privileges` are not in the sources at hand; the rights of
the player in the channel are the flags of the record bound to the player or
its registration, no bits when there is none. -/
def player_get_channel_privileges (p : player) (ch : channel) : Nat :=
  match ch.pl_privileges.find? (priv_of_player p) with
  | some r => r.flags
  | none => 0

/-- The buffer `s_notify_switch_channel` builds before its loop. -/
def switch_channel_template (env : Env) (pl from_id to_id flags : Nat) : Bytes :=
  let data := calloc 38
  let data := poke data 0 (le16 env.PKT_TYPE_CTL)
  let data := poke data 2 (le16 env.CTL_SWITCHCHAN)
  let data := poke data 24 (le32 pl)
  let data := poke data 28 (le32 from_id)
  let data := poke data 32 (le32 to_id)
  poke data 36 (le16 flags)

/-- `s_notify_switch_channel(pl, from, to)`; the channels are given by id. -/
def s_notify_switch_channel (env : Env) (w : World) (pl from_id to_id : Nat) : World :=
  let flags := match get_player_by_public_id w.s pl, get_channel_by_id w.s to_id with
    | some p, some t => player_get_channel_privileges p t
    | _, _ => 0
  broadcast env w (switch_channel_template env pl from_id to_id flags)

/-- The buffer `s_notify_switch_channel` builds for player `p` who left its
channel for `dst`: the player's public id, the id of the channel it was in,
the id of `dst`, and the player's rights in `dst`. -/
def switch_notification (env : Env) (p : player) (dst : channel) : Bytes :=
  switch_channel_template env p.public_id p.in_chan dst.id (player_get_channel_privileges p dst)

/-- The value of a `char` holding byte `b`, promoted to `int`. -/
def char_val (env : Env) (b : Nat) : Int :=
  if env.char_signed ∧ 128 ≤ b % 256 then (b % 256 : Int) - 256 else (b % 256 : Int)

/-- The test of `c_req_switch_channel` that lets the player in: no password
on the channel, or the privilege to join without one, or the right password. -/
def switch_admitted (env : Env) (s : server) (pl : Nat) (dst : channel) (pass : Bytes) : Bool :=
  (ch_getflags dst &&& env.CHANNEL_FLAG_PASSWORD == 0)
    || env.player_has_privilege s pl privilege.SP_CHA_JOIN_WO_PASS (some dst)
    || strcmp_eq pass dst.password

/-- `c_req_switch_channel(data, len, pl)`.  `Except.error` carries the state
reached when the copy into `pass` writes outside it. -/
def c_req_switch_channel (env : Env) (data : Bytes) (_len : Nat) (pl : Nat) (w : World) :
    Except World World :=
  let to_id := rd32 data 24
  let dst := get_channel_by_id w.s to_id
  match strncpy_checked (calloc 30) (data.drop 29) (MIN 29 (char_val env (peek data 28))) with
  | none => Except.error w
  | some pass =>
    match dst with
    | none => Except.ok w
    | some dst =>
      let w := send_acknowledge w pl
      if switch_admitted env w.s pl dst pass then
        let from_id := match get_player_by_public_id w.s pl with
          | some p => p.in_chan
          | none => 0
        match move_player w.s pl dst.id with
        | some s1 => Except.ok (s_notify_switch_channel env { w with s := s1 } pl from_id dst.id)
        | none => Except.ok w
      else Except.ok w

/-- The value of `1 << right` for the byte `right` of a request. -/
def shl1 (env : Env) (right : Nat) : Nat :=
  if right < 31 then 2 ^ right else env.shl_out_of_range right

/-- The `switch (1 << right)` of `c_req_change_player_ch_priv`: the privilege
required, `none` for the `default:` label. -/
def ch_priv_required (env : Env) (bit : Nat) (on_off : Nat) : Option privilege :=
  if bit = env.CHANNEL_PRIV_CHANADMIN then
    some (if on_off = 0 then privilege.SP_PL_GRANT_CA else privilege.SP_PL_REVOKE_CA)
  else if bit = env.CHANNEL_PRIV_OP then
    some (if on_off = 0 then privilege.SP_PL_GRANT_OP else privilege.SP_PL_REVOKE_OP)
  else if bit = env.CHANNEL_PRIV_VOICE then
    some (if on_off = 0 then privilege.SP_PL_GRANT_VOICE else privilege.SP_PL_REVOKE_VOICE)
  else if bit = env.CHANNEL_PRIV_AUTOOP then
    some (if on_off = 0 then privilege.SP_PL_GRANT_AUTOOP else privilege.SP_PL_REVOKE_AUTOOP)
  else if bit = env.CHANNEL_PRIV_AUTOVOICE then
    some (if on_off = 0 then privilege.SP_PL_GRANT_AUTOVOICE
      else privilege.SP_PL_REVOKE_AUTOVOICE)
  else none

/-- Apply `f` to the flags of the record of player `p` in a list of privilege
records; a record is created (bound to the registration of a registered
player, to the player otherwise) when there is none. -/
def modify_priv (f : Nat → Nat) (p : player) :
    List player_channel_privilege → List player_channel_privilege
  | [] =>
    match p.reg with
    | some r => [{ reg := priv_binding.PL_CH_PRIV_REGISTERED, pl_or_reg := r, flags := f 0 }]
    | none =>
      [{ reg := priv_binding.PL_CH_PRIV_UNREGISTERED, pl_or_reg := p.public_id, flags := f 0 }]
  | r :: rs =>
    if priv_of_player p r then { r with flags := f r.flags } :: rs
    else r :: modify_priv f p rs

/-- Modelled from the spec: `player_set_channel_privilege` is not in the
sources at hand; the bit is set in the record of the player in the channel. -/
def player_set_channel_privilege (s : server) (tgt : player) (ch : Nat) (bit : Nat) : server :=
  let set_bit := fun (c : channel) =>
    { c with pl_privileges := modify_priv (fun x => x ||| bit) tgt c.pl_privileges }
  { s with chans := update_channel set_bit ch s.chans }

/-- Modelled from the spec: `player_clr_channel_privilege` is not in the
sources at hand; the bit is cleared in the record of the player in the
channel. -/
def player_clr_channel_privilege (s : server) (tgt : player) (ch : Nat) (bit : Nat) : server :=
  let clr_bit := fun (c : channel) =>
    { c with pl_privileges := modify_priv (fun x => x ^^^ (x &&& bit)) tgt c.pl_privileges }
  { s with chans := update_channel clr_bit ch s.chans }

/-- The buffer `s_notify_player_ch_priv_changed` builds before its loop. -/
def player_ch_priv_changed_template (env : Env) (pl tgt right on_off : Nat) : Bytes :=
  let data := calloc 34
  let data := poke data 0 (le16 env.PKT_TYPE_CTL)
  let data := poke data 2 (le16 env.CTL_CHANGE_PL_CHPRIV)
  let data := poke data 24 (le32 tgt)
  let data := poke data 28 [on_off % 256]
  let data := poke data 29 [right % 256]
  poke data 30 (le32 pl)

/-- `s_notify_player_ch_priv_changed(pl, tgt, right, on_off)`. -/
def s_notify_player_ch_priv_changed (env : Env) (w : World) (pl tgt right on_off : Nat) :
    World :=
  broadcast env w (player_ch_priv_changed_template env pl tgt right on_off)

/-- `c_req_change_player_ch_priv(data, len, pl)`. -/
def c_req_change_player_ch_priv (env : Env) (data : Bytes) (_len : Nat) (pl : Nat)
    (w : World) : World :=
  let w := send_acknowledge w pl
  let tgt_id := rd32 data 24
  let on_off := peek data 28
  let right := peek data 29
  let tgt := get_player_by_public_id w.s tgt_id
  match ch_priv_required env (shl1 env right) on_off with
  | none => w
  | some priv_required =>
    match tgt with
    | none => w
    | some t =>
      if env.player_has_privilege w.s pl priv_required (get_channel_by_id w.s t.in_chan) then
        let s1 :=
          if on_off = 2 then player_clr_channel_privilege w.s t t.in_chan (shl1 env right)
          else if on_off = 0 then player_set_channel_privilege w.s t t.in_chan (shl1 env right)
          else w.s
        s_notify_player_ch_priv_changed env { w with s := s1 } pl t.public_id right on_off
      else w

/-- The buffer `s_notify_player_sv_right_changed` builds before its loop;
`pl` is `none` for a NULL pointer. -/
def player_sv_right_changed_template (env : Env) (pl : Option Nat) (tgt right on_off : Nat) :
    Bytes :=
  let data := calloc 34
  let data := poke data 0 (le16 env.PKT_TYPE_CTL)
  let data := poke data 2 (le16 env.CTL_CHANGE_PL_SVPRIV)
  let data := poke data 24 (le32 tgt)
  let data := poke data 28 [on_off % 256]
  let data := poke data 29 [right % 256]
  match pl with
  | some id => poke data 30 (le32 id)
  | none => poke data 30 (le32 0)

/-- `s_notify_player_sv_right_changed(pl, tgt, right, on_off)`. -/
def s_notify_player_sv_right_changed (env : Env) (w : World) (pl : Option Nat)
    (tgt right on_off : Nat) : World :=
  broadcast env w (player_sv_right_changed_template env pl tgt right on_off)

/-- The `switch (1 << right)` of `c_req_change_player_sv_right`: the privilege
required, `none` for the `default:` label. -/
def sv_priv_required (env : Env) (bit : Nat) (on_off : Nat) : Option privilege :=
  if bit = env.GLOBAL_FLAG_SERVERADMIN then
    some (if on_off = 0 then privilege.SP_PL_GRANT_SA else privilege.SP_PL_REVOKE_SA)
  else if bit = env.GLOBAL_FLAG_ALLOWREG then
    some (if on_off = 0 then privilege.SP_PL_GRANT_ALLOWREG
      else privilege.SP_PL_REVOKE_ALLOWREG)
  else if bit = env.GLOBAL_FLAG_REGISTERED then
    some (if on_off = 0 then privilege.SP_PL_ALLOW_SELF_REG
      else privilege.SP_PL_DEL_REGISTRATION)
  else none

/-- The two nested `ar_each` loops of `c_req_change_player_sv_right`: every
privilege record bound to the registration of the target is bound to the
target itself. -/
def rebind_privileges (tgt : player) (chans : List channel) : List channel :=
  chans.map (fun c => { c with pl_privileges := c.pl_privileges.map (fun r =>
    if r.reg = priv_binding.PL_CH_PRIV_REGISTERED ∧ tgt.reg = some r.pl_or_reg then
      { r with reg := priv_binding.PL_CH_PRIV_UNREGISTERED, pl_or_reg := tgt.public_id }
    else r) })

/-- The body of `if (on_off == 2) ... else if (on_off == 0) ...` in
`c_req_change_player_sv_right`, for target `t`; `global_flags` is 8 bits
wide. -/
def sv_right_apply (env : Env) (w : World) (t : player) (bit on_off : Nat) : World :=
  if on_off = 2 then
    let clr := fun (q : player) =>
      { q with global_flags := (q.global_flags &&& (0xFF ^^^ bit)) % 256 }
    let w1 : World :=
      { w with s := { w.s with players := update_player clr t.public_id w.s.players } }
    if bit = env.GLOBAL_FLAG_REGISTERED then
      let w2 := db_do env w1 (db_call.db_del_registration t.reg)
      let chans := rebind_privileges t w2.s.chans
      let players := update_player (fun q => { q with reg := none }) t.public_id w2.s.players
      { w2 with s := { chans := chans, players := players } }
    else w1
  else if on_off = 0 then
    let set := fun (q : player) => { q with global_flags := (q.global_flags ||| bit) % 256 }
    { w with s := { w.s with players := update_player set t.public_id w.s.players } }
  else w

/-- `c_req_change_player_sv_right(data, len, pl)`. -/
def c_req_change_player_sv_right (env : Env) (data : Bytes) (_len : Nat) (pl : Nat)
    (w : World) : World :=
  let w := send_acknowledge w pl
  let tgt_id := rd32 data 24
  let on_off := peek data 28
  let right := peek data 29
  let tgt := get_player_by_public_id w.s tgt_id
  match sv_priv_required env (shl1 env right) on_off with
  | none => w
  | some priv_required =>
    match tgt with
    | none => w
    | some t =>
      if env.player_has_privilege w.s pl priv_required (get_channel_by_id w.s t.in_chan) then
        let w1 := sv_right_apply env w t (shl1 env right) on_off
        s_notify_player_sv_right_changed env w1 (some pl) t.public_id right on_off
      else w

/-- The buffer `s_notify_player_attr_changed` builds before its loop. -/
def player_attr_changed_template (env : Env) (pl new_attr : Nat) : Bytes :=
  let data := calloc 30
  let data := poke data 0 (le16 env.PKT_TYPE_CTL)
  let data := poke data 2 (le16 env.CTL_CHANGE_PL_STATUS)
  let data := poke data 24 (le32 pl)
  poke data 28 (le16 new_attr)

/-- `s_notify_player_attr_changed(pl, new_attr)`. -/
def s_notify_player_attr_changed (env : Env) (w : World) (pl new_attr : Nat) : World :=
  broadcast env w (player_attr_changed_template env pl new_attr)

/-- `c_req_change_player_attr(data, len, pl)`. -/
def c_req_change_player_attr (env : Env) (data : Bytes) (_len : Nat) (pl : Nat) (w : World) :
    World :=
  let w := send_acknowledge w pl
  let attributes := rd16 data 24
  let players := update_player (fun q => { q with player_attributes := attributes }) pl
    w.s.players
  s_notify_player_attr_changed env { w with s := { w.s with players := players } } pl attributes


/-- The packet a recipient gets, spelled out: the template with the
recipient's ids and counter at offsets 4 to 15 and the checksum, computed with
its field zeroed, at offsets 20 to 23. -/
def personalised (env : Env) (data : Bytes) (p : player) : Bytes :=
  data.take 4 ++ le32 p.private_id ++ le32 p.public_id ++ le32 p.f0_s_counter
    ++ (data.drop 16).take 4
    ++ le32 (env.crc32 (data.take 4 ++ le32 p.private_id ++ le32 p.public_id
        ++ le32 p.f0_s_counter ++ (data.drop 16).take 4 ++ [0, 0, 0, 0] ++ data.drop 24))
    ++ data.drop 24

/-- A player with its counter blanked: what a notification leaves untouched. -/
def forget_counter (p : player) : player := { p with f0_s_counter := 0 }

deriving instance DecidableEq for Except

/-- The state a handler leaves, whether it returned or left defined
behaviour. -/
def world_of (r : Except World World) : World :=
  match r with
  | Except.ok w => w
  | Except.error w => w

/-- Whether a handler returned. -/
def returned (r : Except World World) : Bool :=
  match r with
  | Except.ok _ => true
  | Except.error _ => false

/-- The table of the specification (section 4.E), written from its words: a
channel right, the op that grants it, the op that revokes it. -/
def spec_channel_right_ops (env : Env) : List (Nat × privilege × privilege) :=
  [(env.CHANNEL_PRIV_CHANADMIN, privilege.SP_PL_GRANT_CA, privilege.SP_PL_REVOKE_CA),
   (env.CHANNEL_PRIV_OP, privilege.SP_PL_GRANT_OP, privilege.SP_PL_REVOKE_OP),
   (env.CHANNEL_PRIV_VOICE, privilege.SP_PL_GRANT_VOICE, privilege.SP_PL_REVOKE_VOICE),
   (env.CHANNEL_PRIV_AUTOOP, privilege.SP_PL_GRANT_AUTOOP, privilege.SP_PL_REVOKE_AUTOOP),
   (env.CHANNEL_PRIV_AUTOVOICE, privilege.SP_PL_GRANT_AUTOVOICE,
     privilege.SP_PL_REVOKE_AUTOVOICE)]

/-- Whether an event is an acknowledgement. -/
def is_ack : Event → Bool
  | Event.ack _ => true
  | _ => false

/-- A handler run for player `pl` has acknowledged once, before anything else:
the log `after` is the log `before`, then the ACK to `pl`, then events that
are not acknowledgements. -/
def acked_once (pl : Nat) (before after : List Event) : Prop :=
  ∃ rest, after = before ++ Event.ack pl :: rest ∧ ∀ e ∈ rest, is_ack e = false

/-- A channel with its privilege records blanked: what a change of rights
leaves untouched. -/
def forget_privileges (c : channel) : channel := { c with pl_privileges := [] }

/-- The change `player_set_channel_privilege` and
`player_clr_channel_privilege` make to a channel: `f` is applied to the flags
of the record of player `t`. -/
def with_priv (f : Nat → Nat) (t : player) (c : channel) : channel :=
  { c with pl_privileges := modify_priv f t c.pl_privileges }

/-- The rebinding of the specification, written from its words: a record
bound to the registration `R` is bound to the live player `pid` (discriminant
UNREGISTERED) with the same bits; any other record is unchanged. -/
def spec_rebind (R pid : Nat) (r : player_channel_privilege) : player_channel_privilege :=
  if r.reg = priv_binding.PL_CH_PRIV_REGISTERED ∧ r.pl_or_reg = R then
    { reg := priv_binding.PL_CH_PRIV_UNREGISTERED, pl_or_reg := pid, flags := r.flags }
  else r

/-- The assignment `tgt->global_flags &= (0xFF ^ bit)` on 8-bit flags. -/
def clear_global_flag (bit : Nat) (q : player) : player :=
  { q with global_flags := (q.global_flags &&& (0xFF ^^^ bit)) % 256 }

/-- The assignment `tgt->global_flags |= bit` on 8-bit flags. -/
def set_global_flag (bit : Nat) (q : player) : player :=
  { q with global_flags := (q.global_flags ||| bit) % 256 }

/-- The assignment `tgt->reg = NULL`. -/
def drop_registration (q : player) : player := { q with reg := none }

/-- A world with the list of players replaced. -/
def with_players (w : World) (ps : List player) : World :=
  { w with s := { w.s with players := ps } }

/-- The privileges the specification asks of the creator of a channel, written
from its words: CREATE_UNREGISTERED for a channel with the UNREGISTERED flag
and CREATE_REGISTERED for one without, and CREATE_DEFAULT, CREATE_MODERATED,
CREATE_SUBCHANNELED for each of the flags DEFAULT, MODERATED, SUBCHANNELS that
is set. -/
def spec_create_required (env : Env) (flags : Nat) : List privilege :=
  [if flags &&& env.CHANNEL_FLAG_UNREGISTERED ≠ 0 then privilege.SP_CHA_CREATE_UNREGISTERED
    else privilege.SP_CHA_CREATE_REGISTERED]
  ++ (if flags &&& env.CHANNEL_FLAG_DEFAULT ≠ 0 then [privilege.SP_CHA_CREATE_DEFAULT] else [])
  ++ (if flags &&& env.CHANNEL_FLAG_MODERATED ≠ 0 then [privilege.SP_CHA_CREATE_MODERATED]
      else [])
  ++ (if flags &&& env.CHANNEL_FLAG_SUBCHANNELS ≠ 0 then [privilege.SP_CHA_CREATE_SUBCHANNELED]
      else [])

/-- A channel with its child set blanked: what attaching a child leaves
untouched. -/
def forget_subchannels (c : channel) : channel := { c with subchannels := [] }

/-- The channel `add_channel` stores for `ch`: `ch` under the id the server
gives it. -/
def stored_channel (env : Env) (w : World) (ch : channel) : channel :=
  { ch with id := env.add_channel_id w.s ch }

/-- The child set of a channel with `child` added. -/
def with_child (child : Nat) (c : channel) : channel :=
  { c with subchannels := c.subchannels ++ [child] }

/-- A player with its attributes and counter blanked: what CHANGE_PL_STATUS
leaves untouched. -/
def forget_attributes (p : player) : player :=
  { p with player_attributes := 0, f0_s_counter := 0 }

/-- The assignment `pl->player_attributes = attributes`. -/
def set_attributes (v : Nat) (p : player) : player := { p with player_attributes := v }

/-- A broadcast as the specification describes it: the log grows by one packet
per connected player, in their order, the template personalised for the
recipient; in the packet for `p` the bytes 4 to 15 are the little-endian
private id, public id and counter of `p` as they were before. -/
def personalised_for_all (env : Env) (w w' : World) (T : Bytes) : Prop :=
  w'.log = w.log ++ w.s.players.map (fun p => Event.send p.public_id (personalise env T p))
  ∧ ∀ p : player, ((personalise env T p).drop 4).take 12
      = le32 p.private_id ++ le32 p.public_id ++ le32 p.f0_s_counter

/-- The counters carried by the packets of a log that went to player `k`, in
the order they were sent: the 32-bit field at offset 12 of each. -/
def sent_counters (log : List Event) (k : Nat) : List Nat :=
  log.filterMap (fun e => match e with
    | Event.send dst d => if dst = k then some (rd32 d 12) else none
    | _ => none)

/-- What a broadcast does to the counters: the players are the ones of before,
in order, each with its counter incremented as an unsigned 32-bit value. -/
def counters_advanced (w w' : World) : Prop :=
  w'.s.players = w.s.players.map bump

/-- Two packets that show the same event: equal length, and equal bytes
everywhere outside the offsets 4 to 15 (ids and counter) and 20 to 23
(checksum), that is at offsets 0 to 3, 16 to 19 and from 24 on. -/
def same_outside_header (a b : Bytes) : Prop :=
  a.length = b.length
  ∧ a.take 4 = b.take 4
  ∧ (a.drop 16).take 4 = (b.drop 16).take 4
  ∧ a.drop 24 = b.drop 24

/-- What the specification asks of a broadcast that led from `w` to `w1`: the
log has grown by packets only, and any two of them show the same event. -/
def identical_to_all (w w1 : World) : Prop :=
  ∃ sent : List Event, w1.log = w.log ++ sent
    ∧ (∀ e ∈ sent, ∃ k d, e = Event.send k d)
    ∧ ∀ k1 d1 k2 d2, Event.send k1 d1 ∈ sent → Event.send k2 d2 ∈ sent →
        same_outside_header d1 d2

/-- Whether an event is a call of `db_register_channel`. -/
def is_register : Event → Bool
  | Event.db (db_call.db_register_channel _) _ => true
  | _ => false

/-- The number of calls of `db_register_channel` in a log. -/
def register_calls (log : List Event) : Nat := log.countP is_register

/-- The value the statements `tgt->global_flags &= (0xFF ^ bit)` (for
`on_off == 2`) and `tgt->global_flags |= bit` (for `on_off == 0`) of
`c_req_change_player_sv_right` leave in 8-bit flags that held `old`. -/
def sv_flags_after (bit on_off old : Nat) : Nat :=
  if on_off = 2 then (old &&& (0xFF ^^^ bit)) % 256
  else if on_off = 0 then (old ||| bit) % 256
  else old

/-- A player with `f` applied to its global flags. -/
def with_global_flags (f : Nat → Nat) (q : player) : player :=
  { q with global_flags := f q.global_flags }

/-- What `c_req_change_player_sv_right` does to its target: the flags change,
and the registration reference is dropped with the REGISTERED flag. -/
def sv_right_change (env : Env) (bit on_off : Nat) (q : player) : player :=
  if on_off = 2 ∧ bit = env.GLOBAL_FLAG_REGISTERED then
    drop_registration (with_global_flags (sv_flags_after bit on_off) q)
  else with_global_flags (sv_flags_after bit on_off) q

/-- The global flags of the specification, written from its words: a flag,
the op that grants it, the op that revokes it. -/
def spec_global_flag_ops (env : Env) : List (Nat × privilege × privilege) :=
  [(env.GLOBAL_FLAG_SERVERADMIN, privilege.SP_PL_GRANT_SA, privilege.SP_PL_REVOKE_SA),
   (env.GLOBAL_FLAG_ALLOWREG, privilege.SP_PL_GRANT_ALLOWREG, privilege.SP_PL_REVOKE_ALLOWREG),
   (env.GLOBAL_FLAG_REGISTERED, privilege.SP_PL_ALLOW_SELF_REG,
     privilege.SP_PL_DEL_REGISTRATION)]

/-! ## compat.h: the byte-order macros

The casts to `uint16_t` and `uint32_t` are reductions modulo 2^16 and 2^32.
`BYTE_ORDER == LITTLE_ENDIAN` is the parameter `little_endian`.  Of the
definitions of `GUINT16_SWAP_LE_BE` and `GUINT32_SWAP_LE_BE` the generic one
is taken, which expands to the `_CONSTANT` macros; the others are inline
assembly. -/

/-- The macro `GUINT16_SWAP_LE_BE_CONSTANT(val)`:
`(uint16_t) ((uint16_t) ((uint16_t) (val) >> 8) | (uint16_t) ((uint16_t) (val) << 8))`. -/
def GUINT16_SWAP_LE_BE_CONSTANT (val : Nat) : Nat :=
  ((((val % 65536) >>> 8) % 65536) ||| (((val % 65536) <<< 8) % 65536)) % 65536

/-- The macro `GUINT32_SWAP_LE_BE_CONSTANT(val)`: the four masked bytes of
`(uint32_t) (val)`, shifted by 24 and 8 to the left and by 8 and 24 to the
right in 32-bit arithmetic, or-ed together. -/
def GUINT32_SWAP_LE_BE_CONSTANT (val : Nat) : Nat :=
  (((((val % 4294967296) &&& 0x000000ff) <<< 24) % 4294967296)
    ||| ((((val % 4294967296) &&& 0x0000ff00) <<< 8) % 4294967296)
    ||| (((val % 4294967296) &&& 0x00ff0000) >>> 8)
    ||| (((val % 4294967296) &&& 0xff000000) >>> 24)) % 4294967296

/-- The macro `GUINT16_SWAP_LE_BE(val)`, generic definition. -/
def GUINT16_SWAP_LE_BE (val : Nat) : Nat := GUINT16_SWAP_LE_BE_CONSTANT val

/-- The macro `GUINT32_SWAP_LE_BE(val)`, generic definition. -/
def GUINT32_SWAP_LE_BE (val : Nat) : Nat := GUINT32_SWAP_LE_BE_CONSTANT val

/-- The macro `GUINT16_TO_LE(val)`. -/
def GUINT16_TO_LE (little_endian : Bool) (val : Nat) : Nat :=
  if little_endian then val % 65536 else GUINT16_SWAP_LE_BE val

/-- The macro `GUINT16_TO_BE(val)`. -/
def GUINT16_TO_BE (little_endian : Bool) (val : Nat) : Nat :=
  if little_endian then GUINT16_SWAP_LE_BE val else val % 65536

/-- The macro `GUINT32_TO_LE(val)`. -/
def GUINT32_TO_LE (little_endian : Bool) (val : Nat) : Nat :=
  if little_endian then val % 4294967296 else GUINT32_SWAP_LE_BE val

/-- The macro `GUINT32_TO_BE(val)`. -/
def GUINT32_TO_BE (little_endian : Bool) (val : Nat) : Nat :=
  if little_endian then GUINT32_SWAP_LE_BE val else val % 4294967296

/-- The macro `GUINT16_FROM_LE(val)`: `(GUINT16_TO_LE (val))`. -/
def GUINT16_FROM_LE (little_endian : Bool) (val : Nat) : Nat := GUINT16_TO_LE little_endian val

/-- The macro `GUINT16_FROM_BE(val)`: `(GUINT16_TO_BE (val))`. -/
def GUINT16_FROM_BE (little_endian : Bool) (val : Nat) : Nat := GUINT16_TO_BE little_endian val

/-- The macro `GUINT32_FROM_LE(val)`: `(GUINT32_TO_LE (val))`. -/
def GUINT32_FROM_LE (little_endian : Bool) (val : Nat) : Nat := GUINT32_TO_LE little_endian val

/-- The macro `GUINT32_FROM_BE(val)`: `(GUINT32_TO_BE (val))`. -/
def GUINT32_FROM_BE (little_endian : Bool) (val : Nat) : Nat := GUINT32_TO_BE little_endian val

/-- A channel descriptor codec for the examples: four bytes of id (ignored),
two of flags, four of parent id. -/
def sample_channel_from_data (d : Bytes) (_len : Int) : channel × Nat :=
  ({ id := 0, parent_id := rd32 d 6, flags := rd16 d 4, name := [], password := calloc 30,
     max_users := 0, players := [], subchannels := [], pl_privileges := [] }, 10)

/-- The inverse codec for the examples. -/
def sample_channel_to_data (c : channel) : Bytes :=
  le32 c.id ++ le16 c.flags ++ le32 c.parent_id

/-- An environment for the examples: `may` is the answer of the privilege
engine for a player and a privilege, `db_ok` the status every persistence call
reports. -/
def sampleEnv (may : Nat → privilege → Bool) (db_ok : Bool) : Env :=
  { PKT_TYPE_CTL := 0xbef0
    CTL_CHANDELETE := 0x0073
    CTL_CHANDELETE_ERROR := 0xff93
    CTL_CREATE_CH := 0x006e
    CTL_SWITCHCHAN := 0x0067
    CTL_CHANGE_PL_CHPRIV := 0x006a
    CTL_CHANGE_PL_SVPRIV := 0x006b
    CTL_CHANGE_PL_STATUS := 0x0068
    CHANNEL_FLAG_UNREGISTERED := 1
    CHANNEL_FLAG_MODERATED := 2
    CHANNEL_FLAG_PASSWORD := 4
    CHANNEL_FLAG_SUBCHANNELS := 8
    CHANNEL_FLAG_DEFAULT := 16
    CHANNEL_PRIV_CHANADMIN := 1
    CHANNEL_PRIV_OP := 2
    CHANNEL_PRIV_VOICE := 4
    CHANNEL_PRIV_AUTOOP := 8
    CHANNEL_PRIV_AUTOVOICE := 16
    GLOBAL_FLAG_SERVERADMIN := 1
    GLOBAL_FLAG_ALLOWREG := 2
    GLOBAL_FLAG_REGISTERED := 4
    player_has_privilege := fun _ pl priv _ => may pl priv
    crc32 := fun data => data.sum % 4294967296
    db_status := fun _ _ => db_ok
    channel_from_data := sample_channel_from_data
    channel_to_data := sample_channel_to_data
    add_channel_id := fun s _ => (s.chans.map (fun c => c.id)).foldl max 0 + 1
    char_signed := true
    ptrdiff_wide := true
    shl_out_of_range := fun _ => 0 }

/-- The privilege engine of the examples: player 1 may do everything, the
others nothing. -/
def admin_only (pl : Nat) (_priv : privilege) : Bool := pl == 1

/-- A channel of the examples. -/
def sample_channel (id parent_id flags max_users : Nat) (password : Bytes)
    (players subchannels : List Nat) : channel :=
  { id := id, parent_id := parent_id, flags := flags, name := [],
    password := password ++ List.replicate (30 - password.length) 0, max_users := max_users,
    players := players, subchannels := subchannels, pl_privileges := [] }

/-- A player of the examples. -/
def sample_player (public_id private_id counter in_chan : Nat) : player :=
  { public_id := public_id, private_id := private_id, f0_s_counter := counter,
    in_chan := in_chan, global_flags := 0, player_attributes := 0, reg := none }

/-- The server of the examples: the admin (1) and Bob (2) sit in the default
channel 1, Carol (3) in "chatter" (2, one seat only); "vip" (3) has the
password "hunter2"; the unregistered channel 4 is empty and has the child 5;
the registered channel 6 is empty. -/
def sampleWorld : World :=
  { s := { chans := [sample_channel 1 0 16 0 [] [1, 2] [],
                     sample_channel 2 0 0 1 [] [3] [],
                     sample_channel 3 0 4 0 [104, 117, 110, 116, 101, 114, 50] [] [],
                     sample_channel 4 0 1 0 [] [] [5],
                     sample_channel 5 4 1 0 [] [] [],
                     sample_channel 6 0 0 0 [] [] []],
           players := [sample_player 1 1001 7 1, sample_player 2 1002 3 1,
                       sample_player 3 1003 0 2] },
    log := [] }

/-- A request of the examples: a 24-byte header carrying the sender's packet
counter at offset 12, then the payload. -/
def sample_request (counter : Nat) (payload : Bytes) : Bytes :=
  [0xf0, 0xbe, 0, 0, 0, 0, 0, 0, 0, 0, 0, 0] ++ le32 counter ++ [0, 0, 0, 0, 0, 0, 0, 0]
    ++ payload

/-- Dave (4) of the examples: bound to registration 77, with the REGISTERED
flag, in channel 1. -/
def sample_dave : player :=
  { sample_player 4 1004 5 1 with global_flags := 4, reg := some 77 }

/-- A second server for the examples: the admin (1) and Dave (4), who is bound
to registration 77 and carries the REGISTERED flag, sit in channel 1; channel
1 has records for registration 77, for the live player 2 and for registration
88, channel 2 has a record for registration 77. -/
def sampleWorldReg : World :=
  { s := { chans := [{ sample_channel 1 0 16 0 [] [1, 4] [] with
                       pl_privileges :=
                         [{ reg := priv_binding.PL_CH_PRIV_REGISTERED, pl_or_reg := 77, flags := 2 },
                          { reg := priv_binding.PL_CH_PRIV_UNREGISTERED, pl_or_reg := 2, flags := 4 },
                          { reg := priv_binding.PL_CH_PRIV_REGISTERED, pl_or_reg := 88, flags := 1 }] },
                     { sample_channel 2 0 0 0 [] [] [] with
                       pl_privileges :=
                         [{ reg := priv_binding.PL_CH_PRIV_REGISTERED, pl_or_reg := 77, flags := 8 }] }],
           players := [sample_player 1 1001 7 1, sample_dave] },
    log := [] }

/-! ## Lemmas on buffers -/

theorem cons_of_length_succ_le {α : Type} (l : List α) (n : Nat) (h : n + 1 ≤ l.length) :
    ∃ x xs, l = x :: xs ∧ n ≤ xs.length := by
  cases l with
  | nil => simp at h
  | cons x xs => exact ⟨x, xs, rfl, by simpa using h⟩

/-- A buffer of at least 24 bytes, split into its header bytes and the rest. -/
theorem header_split (data : Bytes) (h : 24 ≤ data.length) :
    ∃ a0 a1 a2 a3 b0 b1 b2 b3 c0 c1 c2 c3 d0 d1 d2 d3 e0 e1 e2 e3 f0 f1 f2 f3 rest,
      data = a0 :: a1 :: a2 :: a3 :: b0 :: b1 :: b2 :: b3 :: c0 :: c1 :: c2 :: c3 :: d0 :: d1
        :: d2 :: d3 :: e0 :: e1 :: e2 :: e3 :: f0 :: f1 :: f2 :: f3 :: rest := by
  obtain ⟨a0, l0, rfl, h0⟩ := cons_of_length_succ_le data 23 h
  obtain ⟨a1, l1, rfl, h1⟩ := cons_of_length_succ_le l0 22 h0
  obtain ⟨a2, l2, rfl, h2⟩ := cons_of_length_succ_le l1 21 h1
  obtain ⟨a3, l3, rfl, h3⟩ := cons_of_length_succ_le l2 20 h2
  obtain ⟨b0, l4, rfl, h4⟩ := cons_of_length_succ_le l3 19 h3
  obtain ⟨b1, l5, rfl, h5⟩ := cons_of_length_succ_le l4 18 h4
  obtain ⟨b2, l6, rfl, h6⟩ := cons_of_length_succ_le l5 17 h5
  obtain ⟨b3, l7, rfl, h7⟩ := cons_of_length_succ_le l6 16 h6
  obtain ⟨c0, l8, rfl, h8⟩ := cons_of_length_succ_le l7 15 h7
  obtain ⟨c1, l9, rfl, h9⟩ := cons_of_length_succ_le l8 14 h8
  obtain ⟨c2, l10, rfl, h10⟩ := cons_of_length_succ_le l9 13 h9
  obtain ⟨c3, l11, rfl, h11⟩ := cons_of_length_succ_le l10 12 h10
  obtain ⟨d0, l12, rfl, h12⟩ := cons_of_length_succ_le l11 11 h11
  obtain ⟨d1, l13, rfl, h13⟩ := cons_of_length_succ_le l12 10 h12
  obtain ⟨d2, l14, rfl, h14⟩ := cons_of_length_succ_le l13 9 h13
  obtain ⟨d3, l15, rfl, h15⟩ := cons_of_length_succ_le l14 8 h14
  obtain ⟨e0, l16, rfl, h16⟩ := cons_of_length_succ_le l15 7 h15
  obtain ⟨e1, l17, rfl, h17⟩ := cons_of_length_succ_le l16 6 h16
  obtain ⟨e2, l18, rfl, h18⟩ := cons_of_length_succ_le l17 5 h17
  obtain ⟨e3, l19, rfl, h19⟩ := cons_of_length_succ_le l18 4 h18
  obtain ⟨f0, l20, rfl, h20⟩ := cons_of_length_succ_le l19 3 h19
  obtain ⟨f1, l21, rfl, h21⟩ := cons_of_length_succ_le l20 2 h20
  obtain ⟨f2, l22, rfl, h22⟩ := cons_of_length_succ_le l21 1 h21
  obtain ⟨f3, l23, rfl, h23⟩ := cons_of_length_succ_le l22 0 h22
  exact ⟨a0, a1, a2, a3, b0, b1, b2, b3, c0, c1, c2, c3, d0, d1, d2, d3, e0, e1, e2, e3,
    f0, f1, f2, f3, l23, rfl⟩

theorem personalise_eq (env : Env) (data : Bytes) (p : player) (h : 24 ≤ data.length) :
    personalise env data p = personalised env data p := by
  obtain ⟨a0, a1, a2, a3, b0, b1, b2, b3, c0, c1, c2, c3, d0, d1, d2, d3, e0, e1, e2, e3,
    f0, f1, f2, f3, rest, rfl⟩ := header_split data h
  simp [personalise, personalised, packet_add_crc_d, poke, le32]

theorem personalise_length (env : Env) (data : Bytes) (p : player) (h : 24 ≤ data.length) :
    (personalise env data p).length = data.length := by
  obtain ⟨a0, a1, a2, a3, b0, b1, b2, b3, c0, c1, c2, c3, d0, d1, d2, d3, e0, e1, e2, e3,
    f0, f1, f2, f3, rest, rfl⟩ := header_split data h
  simp [personalise, packet_add_crc_d, poke, le32]

theorem personalise_idem (env : Env) (data : Bytes) (p q : player) (h : 24 ≤ data.length) :
    personalise env (personalise env data q) p = personalise env data p := by
  obtain ⟨a0, a1, a2, a3, b0, b1, b2, b3, c0, c1, c2, c3, d0, d1, d2, d3, e0, e1, e2, e3,
    f0, f1, f2, f3, rest, rfl⟩ := header_split data h
  simp [personalise, personalised, packet_add_crc_d, poke, le32]

/-- The notification loop, turn by turn: every player gets the template
personalised for it, and its counter is incremented. -/
theorem notify_each_eq (env : Env) (ps : List player) :
    ∀ data : Bytes, 24 ≤ data.length →
      notify_each env data ps
        = (ps.map bump, ps.map (fun p => Event.send p.public_id (personalise env data p))) := by
  induction ps with
  | nil => intro data _; rfl
  | cons p ps ih =>
    intro data h
    have h2 : 24 ≤ (personalise env data p).length := by
      rw [personalise_length env data p h]; exact h
    have hm : ps.map (fun q => Event.send q.public_id
          (personalise env (personalise env data p) q))
        = ps.map (fun q => Event.send q.public_id (personalise env data q)) :=
      List.map_congr_left (fun q _ => by rw [personalise_idem env data q p h])
    rw [notify_each, ih _ h2, hm]
    rfl



/-! ## Lemmas on the domain helpers -/

theorem map_forget_counter_bump (ps : List player) :
    (ps.map bump).map forget_counter = ps.map forget_counter := by
  induction ps with
  | nil => rfl
  | cons p ps ih => simp [bump, forget_counter]

/-- A function that does not see what `f` changes does not see the update. -/
theorem map_update_first {α β : Type} (key : α → Nat) (f : α → α) (g : α → β)
    (hg : ∀ x, g (f x) = g x) (id : Nat) (xs : List α) :
    (update_first key f id xs).map g = xs.map g := by
  induction xs with
  | nil => rfl
  | cons x xs ih =>
    by_cases h : key x = id
    · simp [update_first, h, hg]
    · simp [update_first, h, ih]

/-- Looking up a key after an update that keeps the keys. -/
theorem find_update_first {α : Type} (key : α → Nat) (f : α → α)
    (hf : ∀ x, key (f x) = key x) (id k : Nat) (xs : List α) :
    (update_first key f id xs).find? (fun x => key x == k)
      = (xs.find? (fun x => key x == k)).map (fun x => if key x = id then f x else x) := by
  induction xs with
  | nil => rfl
  | cons x xs ih =>
    by_cases h1 : key x = id
    · by_cases h2 : key x = k
      · have h3 : (key x == k) = true := by simpa using h2
        have h4 : (key (f x) == k) = true := by rw [hf]; exact h3
        rw [update_first, if_pos h1, List.find?_cons, List.find?_cons]
        simp only [h3, h4, Option.map_some', if_pos h1]
      · have h3 : (key x == k) = false := by simpa using h2
        have h4 : (key (f x) == k) = false := by rw [hf]; exact h3
        rw [update_first, if_pos h1, List.find?_cons, List.find?_cons]
        simp only [h3, h4]
        cases hq : xs.find? (fun x => key x == k) with
        | none => rfl
        | some q =>
          have hk : key q = k := by simpa using List.find?_some hq
          have hne : key q ≠ id := by rw [hk, ← h1]; exact fun e => h2 e.symm
          simp only [Option.map_some', if_neg hne]
    · by_cases h2 : key x = k
      · have h3 : (key x == k) = true := by simpa using h2
        rw [update_first, if_neg h1, List.find?_cons, List.find?_cons]
        simp only [h3, Option.map_some', if_neg h1]
      · have h3 : (key x == k) = false := by simpa using h2
        rw [update_first, if_neg h1, List.find?_cons, List.find?_cons]
        simp only [h3, ih]

/-- A projection that `f` keeps is the same on the entry found before and
after the update. -/
theorem find_update_first_proj {α β : Type} (key : α → Nat) (f : α → α) (g : α → β)
    (hf : ∀ x, key (f x) = key x) (hg : ∀ x, g (f x) = g x) (id k : Nat) (xs : List α) :
    ((update_first key f id xs).find? (fun x => key x == k)).map g
      = (xs.find? (fun x => key x == k)).map g := by
  rw [find_update_first key f hf id k xs, Option.map_map]
  congr 1
  funext x
  simp only [Function.comp]
  split
  · exact hg x
  · rfl

theorem map_forget_counter_update_bump (id : Nat) (ps : List player) :
    (update_player bump id ps).map forget_counter = ps.map forget_counter :=
  map_update_first _ bump forget_counter (fun _ => rfl) id ps

/-- A broadcast of a template of at least 24 bytes: every connected player is
sent the template personalised for it, every counter is incremented, the
channels are left alone. -/
theorem broadcast_eq (env : Env) (w : World) (data : Bytes) (h : 24 ≤ data.length) :
    broadcast env w data
      = { s := { chans := w.s.chans, players := w.s.players.map bump },
          log := w.log
            ++ w.s.players.map (fun p => Event.send p.public_id (personalise env data p)) } := by
  simp [broadcast, notify_each_eq env w.s.players data h]

theorem channel_deleted_template_length (env : Env) (del_id : Nat) :
    (channel_deleted_template env del_id).length = 30 := by
  simp [channel_deleted_template, calloc, poke, le16, le32]

theorem cannot_delete_channel_packet_layout (env : Env) (p : player) (cnt : Nat) :
    (cannot_delete_channel_packet env p cnt).length = 30
    ∧ (cannot_delete_channel_packet env p cnt).take 4
        = le16 env.PKT_TYPE_CTL ++ le16 env.CTL_CHANDELETE_ERROR
    ∧ ((cannot_delete_channel_packet env p cnt).drop 4).take 12
        = le32 p.private_id ++ le32 p.public_id ++ le32 p.f0_s_counter
    ∧ (cannot_delete_channel_packet env p cnt).drop 24 = le16 0x00d1 ++ le32 cnt := by
  simp [cannot_delete_channel_packet, packet_add_crc_d, calloc, poke, le16, le32]

/-! ## Deleting a channel -/

/-- C1. Deletion safety: when a player holding the delete privilege asks to
delete a channel that still has a member, the channels (collection, member
sets, privilege records) are unchanged, every player keeps all its fields but
the counter, the log grows by the ACK and one 30-byte CHANDELETE_ERROR packet
to the requester and by nothing else (no broadcast, no persistence call), and
the packet's payload is the code 0x00d1 followed by the counter read from
bytes 12 to 15 of the request. -/
theorem c_req_delete_channel_non_empty (env : Env) (data : Bytes) (len pl : Nat) (w : World)
    (p : player) (d : channel)
    (hp : get_player_by_public_id w.s pl = some p)
    (hd : get_channel_by_id w.s (rd32 data 24) = some d)
    (hpriv : env.player_has_privilege w.s pl privilege.SP_CHA_DELETE (some d) = true)
    (hmem : 0 < d.players.length) :
    (c_req_delete_channel env data len pl w).s.chans = w.s.chans
    ∧ (c_req_delete_channel env data len pl w).s.players.map forget_counter
        = w.s.players.map forget_counter
    ∧ (c_req_delete_channel env data len pl w).log
        = w.log ++ [Event.ack pl,
            Event.send pl (cannot_delete_channel_packet env p (rd32 data 12))]
    ∧ (cannot_delete_channel_packet env p (rd32 data 12)).length = 30
    ∧ (cannot_delete_channel_packet env p (rd32 data 12)).take 4
        = le16 env.PKT_TYPE_CTL ++ le16 env.CTL_CHANDELETE_ERROR
    ∧ (cannot_delete_channel_packet env p (rd32 data 12)).drop 24
        = le16 0x00d1 ++ le32 (rd32 data 12) := by
  have hw : c_req_delete_channel env data len pl w
      = s_resp_cannot_delete_channel env (send_acknowledge w pl) pl (rd32 data 12) := by
    have hs : (send_acknowledge w pl).s = w.s := rfl
    simp only [c_req_delete_channel, hs, hd, hpriv, if_true, if_pos hmem]
  have hp2 : get_player_by_public_id (send_acknowledge w pl).s pl = some p := hp
  have hl := cannot_delete_channel_packet_layout env p (rd32 data 12)
  rw [hw]
  simp only [s_resp_cannot_delete_channel, hp2]
  refine ⟨rfl, ?_, ?_, hl.1, hl.2.1, hl.2.2.2⟩
  · exact map_forget_counter_update_bump pl w.s.players
  · simp [send_acknowledge]

/-- The hypotheses of C1 hold on the server of the examples, for the admin
asking to delete "chatter" (2) while Carol sits in it. -/
theorem c_req_delete_channel_non_empty_witness :
    get_player_by_public_id sampleWorld.s 1 = some (sample_player 1 1001 7 1)
    ∧ get_channel_by_id sampleWorld.s (rd32 (sample_request 42 (le32 2)) 24)
        = some (sample_channel 2 0 0 1 [] [3] [])
    ∧ (c_req_delete_channel (sampleEnv admin_only true) (sample_request 42 (le32 2)) 28 1
        sampleWorld).log
      = [Event.ack 1, Event.send 1 [240, 190, 147, 255, 233, 3, 0, 0, 1, 0, 0, 0, 7, 0, 0, 0,
          0, 0, 0, 0, 47, 5, 0, 0, 209, 0, 42, 0, 0, 0]] :=
  ⟨by decide, by decide,
    (c_req_delete_channel_non_empty (sampleEnv admin_only true) (sample_request 42 (le32 2)) 28
      1 sampleWorld (sample_player 1 1001 7 1) (sample_channel 2 0 0 1 [] [3] [])
      (by decide) (by decide) (by decide) (by decide)).2.2.1.trans (by decide)⟩

/-- What a personalised packet keeps of its template, and where the
recipient's ids and counter are. -/
theorem personalise_layout (env : Env) (data : Bytes) (p : player) (h : 24 ≤ data.length) :
    (personalise env data p).length = data.length
    ∧ (personalise env data p).take 4 = data.take 4
    ∧ ((personalise env data p).drop 4).take 12
        = le32 p.private_id ++ le32 p.public_id ++ le32 p.f0_s_counter
    ∧ (personalise env data p).drop 24 = data.drop 24 := by
  obtain ⟨a0, a1, a2, a3, b0, b1, b2, b3, c0, c1, c2, c3, d0, d1, d2, d3, e0, e1, e2, e3,
    f0, f1, f2, f3, rest, rfl⟩ := header_split data h
  simp [personalise, packet_add_crc_d, poke, le32]

theorem get_channel_by_id_id (s : server) (id : Nat) (d : channel)
    (h : get_channel_by_id s id = some d) : d.id = id := by
  have := List.find?_some h
  simpa using this

theorem get_channel_by_id_mem (s : server) (id : Nat) (d : channel)
    (h : get_channel_by_id s id = some d) : d ∈ s.chans :=
  List.mem_of_find?_eq_some h

theorem le16_inj (a b : Nat) (h : le16 a = le16 b) : a % 65536 = b % 65536 := by
  simp only [le16, List.cons.injEq, and_true] at h
  omega

/-- The three ways `c_req_delete_channel` ends when the privilege is there and
the channel exists: with members, the reply of
`s_resp_cannot_delete_channel`. -/
theorem delete_refused_eq (env : Env) (data : Bytes) (len pl : Nat) (w : World) (d : channel)
    (hd : get_channel_by_id w.s (rd32 data 24) = some d)
    (hpriv : env.player_has_privilege w.s pl privilege.SP_CHA_DELETE (some d) = true)
    (hmem : 0 < d.players.length) :
    c_req_delete_channel env data len pl w
      = s_resp_cannot_delete_channel env (send_acknowledge w pl) pl (rd32 data 12) := by
  have hs : (send_acknowledge w pl).s = w.s := rfl
  simp only [c_req_delete_channel, hs, hd, hpriv, if_true, if_pos hmem]

/-- Without the privilege `c_req_delete_channel` stops after the ACK. -/
theorem delete_denied_eq (env : Env) (data : Bytes) (len pl : Nat) (w : World)
    (hpriv : env.player_has_privilege w.s pl privilege.SP_CHA_DELETE
      (get_channel_by_id w.s (rd32 data 24)) = false) :
    c_req_delete_channel env data len pl w = send_acknowledge w pl := by
  have hs : (send_acknowledge w pl).s = w.s := rfl
  simp [c_req_delete_channel, hs, hpriv]

/-- With the privilege and no member, `c_req_delete_channel` unregisters a
registered channel, broadcasts and destroys, in this order. -/
theorem delete_done_eq (env : Env) (data : Bytes) (len pl : Nat) (w : World) (d : channel)
    (hd : get_channel_by_id w.s (rd32 data 24) = some d)
    (hpriv : env.player_has_privilege w.s pl privilege.SP_CHA_DELETE (some d) = true)
    (hmem : d.players = []) :
    (c_req_delete_channel env data len pl w).s
        = { chans := w.s.chans.filter (fun c => c.id != rd32 data 24),
            players := w.s.players.map bump }
    ∧ (c_req_delete_channel env data len pl w).log
        = w.log ++ [Event.ack pl]
          ++ (if d.flags &&& env.CHANNEL_FLAG_UNREGISTERED = 0 then
                [Event.db (db_call.db_unregister_channel d)
                  (env.db_status (send_acknowledge w pl) (db_call.db_unregister_channel d))]
              else [])
          ++ w.s.players.map (fun q => Event.send q.public_id
              (personalise env (channel_deleted_template env (rd32 data 24)) q)) := by
  have hs : (send_acknowledge w pl).s = w.s := rfl
  have hid := get_channel_by_id_id w.s _ d hd
  have hlen : 24 ≤ (channel_deleted_template env (rd32 data 24)).length := by
    rw [channel_deleted_template_length]; decide
  have hw : c_req_delete_channel env data len pl w
      = destroy_channel_by_id (s_notify_channel_deleted env
          (if d.flags &&& env.CHANNEL_FLAG_UNREGISTERED = 0
            then db_do env (send_acknowledge w pl) (db_call.db_unregister_channel d)
            else send_acknowledge w pl) (rd32 data 24)) d.id := by
    simp only [c_req_delete_channel, hs, hd, hpriv, if_true, hmem, List.length_nil,
      gt_iff_lt, lt_self_iff_false, if_false]
  rw [hw, s_notify_channel_deleted, broadcast_eq env _ _ hlen, hid]
  by_cases hreg : d.flags &&& env.CHANNEL_FLAG_UNREGISTERED = 0
  · simp [hreg, destroy_channel_by_id, db_do, send_acknowledge]
  · simp [hreg, destroy_channel_by_id, send_acknowledge]

/-- C2, counterexample. On the server of the examples channel 4 has no
member and the child 5; the admin's CHANDELETE removes it and the CHANDELETE
notification goes to the three players. -/
theorem c_req_delete_channel_ignores_subchannels :
    get_channel_by_id sampleWorld.s 4 = some (sample_channel 4 0 1 0 [] [] [5])
    ∧ get_channel_by_id (c_req_delete_channel (sampleEnv admin_only true)
        (sample_request 42 (le32 4)) 28 1 sampleWorld).s 4 = none
    ∧ (c_req_delete_channel (sampleEnv admin_only true)
        (sample_request 42 (le32 4)) 28 1 sampleWorld).log
      = [Event.ack 1,
         Event.send 1 [240, 190, 115, 0, 233, 3, 0, 0, 1, 0, 0, 0, 7, 0, 0, 0, 0, 0, 0, 0,
           26, 3, 0, 0, 4, 0, 1, 0, 0, 0],
         Event.send 2 [240, 190, 115, 0, 234, 3, 0, 0, 2, 0, 0, 0, 3, 0, 0, 0, 0, 0, 0, 0,
           24, 3, 0, 0, 4, 0, 1, 0, 0, 0],
         Event.send 3 [240, 190, 115, 0, 235, 3, 0, 0, 3, 0, 0, 0, 0, 0, 0, 0, 0, 0, 0, 0,
           23, 3, 0, 0, 4, 0, 1, 0, 0, 0]] := by
  decide

/-- C2, as the code has it. If `c_req_delete_channel` removes the target
channel, or sends anyone a packet with the CHANDELETE code, then before the
request the channel had no member and the requester held the delete
privilege on it.  The child channels are not looked at.  (The codes of
CHANDELETE and CHANDELETE_ERROR are distinct 16-bit values.) -/
theorem c_req_delete_channel_only_without_members (env : Env) (data : Bytes) (len pl : Nat)
    (w : World) (d : channel)
    (hcodes : env.CTL_CHANDELETE % 65536 ≠ env.CTL_CHANDELETE_ERROR % 65536)
    (hd : get_channel_by_id w.s (rd32 data 24) = some d)
    (h : get_channel_by_id (c_req_delete_channel env data len pl w).s (rd32 data 24) = none
      ∨ ∃ q pkt, Event.send q pkt ∈ (c_req_delete_channel env data len pl w).log.drop w.log.length
          ∧ pkt.take 4 = le16 env.PKT_TYPE_CTL ++ le16 env.CTL_CHANDELETE) :
    d.players = []
    ∧ env.player_has_privilege w.s pl privilege.SP_CHA_DELETE (some d) = true := by
  by_cases hpriv : env.player_has_privilege w.s pl privilege.SP_CHA_DELETE (some d) = true
  · by_cases hmem : d.players = []
    · exact ⟨hmem, hpriv⟩
    · exfalso
      have hpos : 0 < d.players.length := List.length_pos.mpr hmem
      rw [delete_refused_eq env data len pl w d hd hpriv hpos] at h
      have hs : (send_acknowledge w pl).s = w.s := rfl
      unfold s_resp_cannot_delete_channel at h
      cases hp : get_player_by_public_id (send_acknowledge w pl).s pl with
      | none =>
        simp only [hp] at h
        rcases h with h | ⟨q, pkt, hmemq, _⟩
        · rw [hs, hd] at h; exact Option.noConfusion h
        · simp [send_acknowledge] at hmemq
      | some p =>
        simp only [hp] at h
        rcases h with h | ⟨q, pkt, hmemq, htake⟩
        · have : get_channel_by_id w.s (rd32 data 24) = none := h
          rw [hd] at this; exact Option.noConfusion this
        · simp [send_acknowledge] at hmemq
          obtain ⟨_, rfl⟩ := hmemq
          rw [(cannot_delete_channel_packet_layout env p (rd32 data 12)).2.1] at htake
          have h2 := List.append_cancel_left htake
          exact hcodes (le16_inj _ _ h2).symm
  · exfalso
    have hpriv2 : env.player_has_privilege w.s pl privilege.SP_CHA_DELETE
        (get_channel_by_id w.s (rd32 data 24)) = false := by
      rw [hd]; simpa using hpriv
    rw [delete_denied_eq env data len pl w hpriv2] at h
    rcases h with h | ⟨q, pkt, hmemq, _⟩
    · have : get_channel_by_id w.s (rd32 data 24) = none := h
      rw [hd] at this; exact Option.noConfusion this
    · simp [send_acknowledge] at hmemq

/-- The hypotheses of the amended C2 hold on the server of the examples, for
the admin deleting the empty channel 6. -/
theorem c_req_delete_channel_only_without_members_witness :
    get_channel_by_id sampleWorld.s (rd32 (sample_request 42 (le32 6)) 24)
        = some (sample_channel 6 0 0 0 [] [] [])
    ∧ get_channel_by_id (c_req_delete_channel (sampleEnv admin_only true)
        (sample_request 42 (le32 6)) 28 1 sampleWorld).s (rd32 (sample_request 42 (le32 6)) 24)
        = none
    ∧ (sample_channel 6 0 0 0 [] [] []).players = []
    ∧ (sampleEnv admin_only true).player_has_privilege sampleWorld.s 1 privilege.SP_CHA_DELETE
        (some (sample_channel 6 0 0 0 [] [] [])) = true :=
  ⟨by decide, by decide,
    c_req_delete_channel_only_without_members (sampleEnv admin_only true)
      (sample_request 42 (le32 6)) 28 1 sampleWorld (sample_channel 6 0 0 0 [] [] [])
      (by decide) (by decide) (Or.inl (by decide))⟩

/-- C3. A successful CHANDELETE: a player holding the delete privilege names
an existing channel without members.  Afterwards no channel carries the id,
the other channels are as before, the log has grown by the ACK, by one call of
`db_unregister_channel` exactly when the channel lacked the UNREGISTERED flag,
and by one packet per connected player, each 30 bytes long and carrying the
CHANDELETE code. -/
theorem c_req_delete_channel_empty (env : Env) (data : Bytes) (len pl : Nat) (w : World)
    (d : channel)
    (hd : get_channel_by_id w.s (rd32 data 24) = some d)
    (hpriv : env.player_has_privilege w.s pl privilege.SP_CHA_DELETE (some d) = true)
    (hmem : d.players = []) :
    get_channel_by_id (c_req_delete_channel env data len pl w).s (rd32 data 24) = none
    ∧ (c_req_delete_channel env data len pl w).s.chans
        = w.s.chans.filter (fun c => c.id != rd32 data 24)
    ∧ (c_req_delete_channel env data len pl w).log
        = w.log ++ [Event.ack pl]
          ++ (if d.flags &&& env.CHANNEL_FLAG_UNREGISTERED = 0 then
                [Event.db (db_call.db_unregister_channel d)
                  (env.db_status (send_acknowledge w pl) (db_call.db_unregister_channel d))]
              else [])
          ++ w.s.players.map (fun q => Event.send q.public_id
              (personalise env (channel_deleted_template env (rd32 data 24)) q))
    ∧ ∀ q : player,
        (personalise env (channel_deleted_template env (rd32 data 24)) q).length = 30
        ∧ (personalise env (channel_deleted_template env (rd32 data 24)) q).take 4
            = le16 env.PKT_TYPE_CTL ++ le16 env.CTL_CHANDELETE := by
  obtain ⟨hs, hlog⟩ := delete_done_eq env data len pl w d hd hpriv hmem
  have hlen : 24 ≤ (channel_deleted_template env (rd32 data 24)).length := by
    rw [channel_deleted_template_length]; decide
  refine ⟨?_, ?_, hlog, ?_⟩
  · rw [hs]
    simp [get_channel_by_id, List.find?_eq_none]
  · rw [hs]
  · intro q
    have hl := personalise_layout env _ q hlen
    refine ⟨by rw [hl.1, channel_deleted_template_length], ?_⟩
    rw [hl.2.1]
    simp [channel_deleted_template, calloc, poke, le16, le32]

/-- The hypotheses of C3 hold on the server of the examples, for the admin
deleting the empty registered channel 6: the store is asked to unregister it
and the three players are notified. -/
theorem c_req_delete_channel_empty_witness :
    get_channel_by_id sampleWorld.s (rd32 (sample_request 42 (le32 6)) 24)
        = some (sample_channel 6 0 0 0 [] [] [])
    ∧ (c_req_delete_channel (sampleEnv admin_only true)
        (sample_request 42 (le32 6)) 28 1 sampleWorld).s.chans
      = [sample_channel 1 0 16 0 [] [1, 2] [], sample_channel 2 0 0 1 [] [3] [],
         sample_channel 3 0 4 0 [104, 117, 110, 116, 101, 114, 50] [] [],
         sample_channel 4 0 1 0 [] [] [5], sample_channel 5 4 1 0 [] [] []] :=
  ⟨by decide,
    (c_req_delete_channel_empty (sampleEnv admin_only true) (sample_request 42 (le32 6)) 28 1
      sampleWorld (sample_channel 6 0 0 0 [] [] []) (by decide) (by decide)
      (by decide)).2.1.trans (by decide)⟩

/-- C4, counterexample. On the server of the examples the store reports
failure for every call; the admin's CHANDELETE of the empty registered
channel 6 still removes the channel and notifies the three players, and no
CHANDELETE_ERROR is sent. -/
theorem c_req_delete_channel_no_rollback :
    get_channel_by_id sampleWorld.s 6 = some (sample_channel 6 0 0 0 [] [] [])
    ∧ get_channel_by_id (c_req_delete_channel (sampleEnv admin_only false)
        (sample_request 42 (le32 6)) 28 1 sampleWorld).s 6 = none
    ∧ (c_req_delete_channel (sampleEnv admin_only false)
        (sample_request 42 (le32 6)) 28 1 sampleWorld).log
      = [Event.ack 1,
         Event.db (db_call.db_unregister_channel (sample_channel 6 0 0 0 [] [] [])) false,
         Event.send 1 [240, 190, 115, 0, 233, 3, 0, 0, 1, 0, 0, 0, 7, 0, 0, 0, 0, 0, 0, 0,
           28, 3, 0, 0, 6, 0, 1, 0, 0, 0],
         Event.send 2 [240, 190, 115, 0, 234, 3, 0, 0, 2, 0, 0, 0, 3, 0, 0, 0, 0, 0, 0, 0,
           26, 3, 0, 0, 6, 0, 1, 0, 0, 0],
         Event.send 3 [240, 190, 115, 0, 235, 3, 0, 0, 3, 0, 0, 0, 0, 0, 0, 0, 0, 0, 0, 0,
           25, 3, 0, 0, 6, 0, 1, 0, 0, 0]] := by
  decide

/-- C4, as the code has it. The status `db_unregister_channel` reports is not
looked at: when it reports failure for an empty registered channel that a
privileged player deletes, the channel leaves the collection all the same and
the log grows by the ACK, the failed call and the CHANDELETE notification to
every connected player; nothing else is sent to the requester. -/
theorem c_req_delete_channel_store_failure (env : Env) (data : Bytes) (len pl : Nat)
    (w : World) (d : channel)
    (hd : get_channel_by_id w.s (rd32 data 24) = some d)
    (hpriv : env.player_has_privilege w.s pl privilege.SP_CHA_DELETE (some d) = true)
    (hmem : d.players = [])
    (hreg : d.flags &&& env.CHANNEL_FLAG_UNREGISTERED = 0)
    (hfail : env.db_status (send_acknowledge w pl) (db_call.db_unregister_channel d) = false) :
    get_channel_by_id (c_req_delete_channel env data len pl w).s (rd32 data 24) = none
    ∧ (c_req_delete_channel env data len pl w).log
        = w.log ++ [Event.ack pl, Event.db (db_call.db_unregister_channel d) false]
          ++ w.s.players.map (fun q => Event.send q.public_id
              (personalise env (channel_deleted_template env (rd32 data 24)) q)) := by
  obtain ⟨hs, hlog⟩ := delete_done_eq env data len pl w d hd hpriv hmem
  refine ⟨?_, ?_⟩
  · rw [hs]
    simp [get_channel_by_id, List.find?_eq_none]
  · rw [hlog, if_pos hreg, hfail]
    simp

/-- The hypotheses of the amended C4 hold on the server of the examples with a
store that reports failure. -/
theorem c_req_delete_channel_store_failure_witness :
    get_channel_by_id sampleWorld.s (rd32 (sample_request 42 (le32 6)) 24)
        = some (sample_channel 6 0 0 0 [] [] [])
    ∧ (sampleEnv admin_only false).db_status (send_acknowledge sampleWorld 1)
        (db_call.db_unregister_channel (sample_channel 6 0 0 0 [] [] [])) = false
    ∧ get_channel_by_id (c_req_delete_channel (sampleEnv admin_only false)
        (sample_request 42 (le32 6)) 28 1 sampleWorld).s (rd32 (sample_request 42 (le32 6)) 24)
        = none :=
  ⟨by decide, by decide,
    (c_req_delete_channel_store_failure (sampleEnv admin_only false)
      (sample_request 42 (le32 6)) 28 1 sampleWorld (sample_channel 6 0 0 0 [] [] [])
      (by decide) (by decide) (by decide) (by decide) (by decide)).1⟩

/-! ## Switching channel -/

/-- C5, the failing request evaluated. Bob (2) asks to switch to channel 99,
which does not exist: `c_req_switch_channel` returns with the log still empty,
no ACK has been sent. -/
theorem c_req_switch_channel_unknown_channel_no_ack :
    get_channel_by_id sampleWorld.s (rd32 (sample_request 42 (le32 99 ++ [0])) 24) = none
    ∧ sampleWorld.log = []
    ∧ c_req_switch_channel (sampleEnv admin_only true) (sample_request 42 (le32 99 ++ [0])) 29 2
        sampleWorld = Except.ok sampleWorld := by
  refine ⟨by decide, rfl, ?_⟩
  rfl

theorem cstr_no_nul (buf : Bytes) : ∀ b ∈ cstr buf, b ≠ 0 := by
  intro b hb
  have := List.mem_takeWhile_imp hb
  simpa using this

theorem cstr_append_zeros (s : Bytes) (k : Nat) (h : ∀ b ∈ s, b ≠ 0) :
    cstr (s ++ List.replicate k 0) = s := by
  induction s with
  | nil => cases k <;> simp [cstr, List.replicate]
  | cons a s ih =>
    have ha : a ≠ 0 := h a (List.mem_cons_self a s)
    have ih2 := ih (fun b hb => h b (List.mem_cons_of_mem a hb))
    simp only [cstr] at ih2
    have ha2 : (a != 0) = true := by simpa using ha
    show List.takeWhile (fun b => b != 0) (a :: (s ++ List.replicate k 0)) = a :: s
    simp only [List.takeWhile_cons, ha2, if_true, ih2]

theorem cstr_length_le (buf : Bytes) : (cstr buf).length ≤ buf.length := by
  simp only [cstr]
  exact (List.takeWhile_sublist _).length_le

/-- The string `strncpy` leaves in a zeroed buffer that is longer than the
count: the string at the source, cut at the count. -/
theorem cstr_strncpy_calloc (m n : Nat) (src : Bytes) (h : n ≤ m) :
    cstr (strncpy (calloc m) src n) = cstr (src.take n) := by
  have hl : (cstr (src.take n)).length ≤ n :=
    le_trans (cstr_length_le _) (by simp)
  have e : strncpy (calloc m) src n
      = cstr (src.take n) ++ List.replicate (m - (cstr (src.take n)).length) 0 := by
    simp only [strncpy, poke, calloc, List.take_zero, List.nil_append, Nat.zero_add,
      List.length_append, List.length_replicate, List.drop_replicate, List.append_assoc]
    rw [← List.replicate_add]
    congr 2
    omega
  rw [e]
  exact cstr_append_zeros _ _ (cstr_no_nul _)

/-- The count `MIN(29, data[28])` when the length byte is not negative as a
`char`. -/
theorem switch_count_of_nonneg (env : Env) (b : Nat) (h : 0 ≤ char_val env b) :
    0 ≤ MIN 29 (char_val env b) ∧ MIN 29 (char_val env b) ≤ 29
    ∧ (MIN 29 (char_val env b)).toNat = min 29 (b % 256) := by
  have hb : b % 256 < 256 := Nat.mod_lt _ (by decide)
  have hv : char_val env b = (b % 256 : Nat) := by
    unfold char_val at h ⊢
    split
    · rename_i hc
      rw [if_pos hc] at h
      omega
    · simp
  rw [hv]
  unfold MIN
  split <;> omega

/-- The copy into `pass` of `c_req_switch_channel`, when the length byte is
not negative as a `char`: it is within the buffer and leaves the first
`MIN(29, L)` bytes of the password field, up to a NUL. -/
theorem switch_pass_defined (env : Env) (data : Bytes) (h : 0 ≤ char_val env (peek data 28)) :
    ∃ pass, strncpy_checked (calloc 30) (data.drop 29) (MIN 29 (char_val env (peek data 28)))
        = some pass
      ∧ cstr pass = cstr ((data.drop 29).take (min 29 (peek data 28))) := by
  obtain ⟨h0, h29, hn⟩ := switch_count_of_nonneg env (peek data 28) h
  have hpeek : peek data 28 % 256 = peek data 28 := by simp [peek]
  have hle : MIN 29 (char_val env (peek data 28)) ≤ ((calloc 30).length : Int) := by
    simp only [calloc, List.length_replicate]; omega
  refine ⟨strncpy (calloc 30) (data.drop 29) (MIN 29 (char_val env (peek data 28))).toNat, ?_, ?_⟩
  · simp only [strncpy_checked]
    rw [if_pos ⟨h0, hle⟩]
  · rw [cstr_strncpy_calloc 30 _ _ (by rw [hn]; omega), hn, hpeek]

theorem get_player_by_public_id_id (s : server) (id : Nat) (p : player)
    (h : get_player_by_public_id s id = some p) : p.public_id = id := by
  have := List.find?_some h
  simpa using this

/-- The admission test of `c_req_switch_channel`, as a proposition. -/
theorem switch_admitted_iff (env : Env) (s : server) (pl : Nat) (dst : channel) (pass : Bytes) :
    switch_admitted env s pl dst pass = true
      ↔ (dst.flags &&& env.CHANNEL_FLAG_PASSWORD = 0
          ∨ env.player_has_privilege s pl privilege.SP_CHA_JOIN_WO_PASS (some dst) = true
          ∨ cstr pass = cstr dst.password) := by
  simp [switch_admitted, strcmp_eq, or_assoc]

/-- `c_req_switch_channel` for an existing target, once `pass` is filled. -/
theorem switch_eq (env : Env) (data : Bytes) (len pl : Nat) (w : World) (dst : channel)
    (pass : Bytes)
    (hd : get_channel_by_id w.s (rd32 data 24) = some dst)
    (hpass : strncpy_checked (calloc 30) (data.drop 29) (MIN 29 (char_val env (peek data 28)))
      = some pass) :
    c_req_switch_channel env data len pl w
      = if switch_admitted env w.s pl dst pass then
          match move_player w.s pl dst.id with
          | some s1 => Except.ok (s_notify_switch_channel env
              { s := s1, log := w.log ++ [Event.ack pl] } pl
              (match get_player_by_public_id w.s pl with
                | some p => p.in_chan
                | none => 0) dst.id)
          | none => Except.ok (send_acknowledge w pl)
        else Except.ok (send_acknowledge w pl) := by
  simp only [c_req_switch_channel, hd, hpass, send_acknowledge]

theorem switch_channel_template_layout (env : Env) (pl from_id to_id flags : Nat) :
    (switch_channel_template env pl from_id to_id flags).length = 38
    ∧ (switch_channel_template env pl from_id to_id flags).take 4
        = le16 env.PKT_TYPE_CTL ++ le16 env.CTL_SWITCHCHAN
    ∧ (switch_channel_template env pl from_id to_id flags).drop 24
        = le32 pl ++ le32 from_id ++ le32 to_id ++ le16 flags := by
  simp [switch_channel_template, calloc, poke, le16, le32]

/-- What `move_player` leaves of the players and of the target's privilege
records. -/
theorem move_player_spec (s s1 : server) (pl tid : Nat) (p : player) (dst : channel)
    (hp : get_player_by_public_id s pl = some p)
    (hd : get_channel_by_id s tid = some dst)
    (hm : move_player s pl tid = some s1) :
    s1.players = update_player (set_in_chan tid) pl s.players
    ∧ get_player_by_public_id s1 pl = some (set_in_chan tid p)
    ∧ (get_channel_by_id s1 tid).map (fun c => c.pl_privileges) = some dst.pl_privileges := by
  simp only [move_player, hp, hd] at hm
  split at hm
  · exact Option.noConfusion hm
  · have hs := (Option.some.inj hm).symm
    have hpid := get_player_by_public_id_id s pl p hp
    refine ⟨by rw [hs], ?_, ?_⟩
    · rw [hs]
      simp only [get_player_by_public_id, update_player]
      rw [find_update_first (fun p : player => p.public_id) (set_in_chan tid) (fun _ => rfl) pl pl
        s.players]
      have hp2 : s.players.find? (fun p => p.public_id == pl) = some p := hp
      rw [hp2]
      simp [hpid]
    · rw [hs]
      simp only [get_channel_by_id, update_channel]
      rw [find_update_first_proj (fun c : channel => c.id) (member_join pl)
            (fun c : channel => c.pl_privileges)
            (fun _ => rfl) (fun _ => rfl) tid tid,
          find_update_first_proj (fun c : channel => c.id) (member_leave pl)
            (fun c : channel => c.pl_privileges)
            (fun _ => rfl) (fun _ => rfl) p.in_chan tid]
      have hd2 : s.chans.find? (fun c => c.id == tid) = some dst := hd
      rw [hd2]
      rfl

/-- The rights of a player in a channel depend on the player's identity and
registration and on the records of the channel only. -/
theorem player_get_channel_privileges_congr (p q : player) (c d : channel)
    (h1 : q.public_id = p.public_id) (h2 : q.reg = p.reg)
    (h3 : d.pl_privileges = c.pl_privileges) :
    player_get_channel_privileges q d = player_get_channel_privileges p c := by
  have : priv_of_player q = priv_of_player p := by
    funext r
    simp [priv_of_player, h1, h2]
  simp [player_get_channel_privileges, this, h3]

/-- SWITCHCHAN admission where the copy into `pass` is defined: for a request
that names an existing channel and whose length byte is not negative as a
`char`, the handler returns, and: when the target has no PASSWORD
flag, or the player holds SP_CHA_JOIN_WO_PASS in it, or the password supplied
(the first `MIN(29, L)` bytes of the field, up to a NUL) is the channel's, the
outcome is that of `move_player` (the moved state when it succeeds, only the
ACK when it fails); when none of the three holds, the server state is
unchanged (the player's channel, every member set, every counter) and the
log has grown by the ACK only. -/
theorem c_req_switch_channel_admission (env : Env) (data : Bytes) (len pl : Nat) (w : World)
    (dst : channel)
    (hd : get_channel_by_id w.s (rd32 data 24) = some dst)
    (hlen : 0 ≤ char_val env (peek data 28)) :
    ∃ w', c_req_switch_channel env data len pl w = Except.ok w'
      ∧ ((dst.flags &&& env.CHANNEL_FLAG_PASSWORD = 0
            ∨ env.player_has_privilege w.s pl privilege.SP_CHA_JOIN_WO_PASS (some dst) = true
            ∨ cstr ((data.drop 29).take (min 29 (peek data 28))) = cstr dst.password) →
          (∀ s1, move_player w.s pl dst.id = some s1 →
              w'.s = { chans := s1.chans, players := s1.players.map bump })
          ∧ (move_player w.s pl dst.id = none → w' = send_acknowledge w pl))
      ∧ (¬(dst.flags &&& env.CHANNEL_FLAG_PASSWORD = 0
            ∨ env.player_has_privilege w.s pl privilege.SP_CHA_JOIN_WO_PASS (some dst) = true
            ∨ cstr ((data.drop 29).take (min 29 (peek data 28))) = cstr dst.password) →
          w'.s = w.s ∧ w'.log = w.log ++ [Event.ack pl]) := by
  obtain ⟨pass, hpass, hstr⟩ := switch_pass_defined env data hlen
  rw [switch_eq env data len pl w dst pass hd hpass, ← hstr,
    ← switch_admitted_iff env w.s pl dst pass]
  by_cases hadm : switch_admitted env w.s pl dst pass = true
  · rw [if_pos hadm]
    cases hm : move_player w.s pl dst.id with
    | none =>
      exact ⟨_, rfl, fun _ => ⟨fun s1 h => Option.noConfusion h, fun _ => rfl⟩,
        fun h => absurd hadm h⟩
    | some s2 =>
      refine ⟨_, rfl, fun _ => ⟨fun s1 h => ?_, fun h => Option.noConfusion h⟩,
        fun h => absurd hadm h⟩
      cases Option.some.inj h
      rw [s_notify_switch_channel, broadcast_eq env _ _
        (by rw [(switch_channel_template_layout env _ _ _ _).1]; decide)]
  · rw [if_neg hadm]
    exact ⟨_, rfl, fun h => absurd h hadm, fun _ => ⟨rfl, rfl⟩⟩

/-- On the server of the examples Bob (2), without privileges, names "vip" (3)
with the password "nope" and stays where he is. -/
theorem c_req_switch_channel_admission_witness :
    get_channel_by_id sampleWorld.s
        (rd32 (sample_request 42 (le32 3 ++ [4, 110, 111, 112, 101])) 24)
      = some (sample_channel 3 0 4 0 [104, 117, 110, 116, 101, 114, 50] [] [])
    ∧ 0 ≤ char_val (sampleEnv admin_only true)
        (peek (sample_request 42 (le32 3 ++ [4, 110, 111, 112, 101])) 28)
    ∧ ∃ w', c_req_switch_channel (sampleEnv admin_only true)
          (sample_request 42 (le32 3 ++ [4, 110, 111, 112, 101])) 33 2 sampleWorld
        = Except.ok w' ∧ w'.s = sampleWorld.s ∧ w'.log = [Event.ack 2] := by
  refine ⟨by decide, by decide, ?_⟩
  obtain ⟨w', h1, _, h3⟩ := c_req_switch_channel_admission (sampleEnv admin_only true)
    (sample_request 42 (le32 3 ++ [4, 110, 111, 112, 101])) 33 2 sampleWorld
    (sample_channel 3 0 4 0 [104, 117, 110, 116, 101, 114, 50] [] []) (by decide) (by decide)
  exact ⟨w', h1, h3 (by decide)⟩

/-- The packets of a broadcast do not depend on the channel a recipient is
in. -/
theorem sends_after_set_in_chan (env : Env) (data : Bytes) (tid pl : Nat) (ps : List player) :
    (update_player (set_in_chan tid) pl ps).map
        (fun q => Event.send q.public_id (personalise env data q))
      = ps.map (fun q => Event.send q.public_id (personalise env data q)) :=
  map_update_first (fun p : player => p.public_id) (set_in_chan tid)
    (fun q => Event.send q.public_id (personalise env data q)) (fun _ => rfl) pl ps

/-- C7. The SWITCHCHAN notification, for an admitted request of player `p`
naming the existing channel `dst` (length byte not negative as a `char`).
When `move_player` succeeds the log grows by the ACK and by one packet per
connected player, the template of `s_notify_switch_channel` personalised for
the recipient; every such packet is 38 bytes long, carries the SWITCHCHAN
code, and from byte 24 on holds, little-endian, the public id of `p`
(4 bytes), the id of the channel `p` was in (4 bytes), the id of `dst`
(4 bytes) and the rights of `p` in `dst` (2 bytes).  When `move_player` fails
the log grows by the ACK only. -/
theorem c_req_switch_channel_notification (env : Env) (data : Bytes) (len pl : Nat)
    (w : World) (dst : channel) (p : player)
    (hd : get_channel_by_id w.s (rd32 data 24) = some dst)
    (hlen : 0 ≤ char_val env (peek data 28))
    (hp : get_player_by_public_id w.s pl = some p)
    (hadm : dst.flags &&& env.CHANNEL_FLAG_PASSWORD = 0
      ∨ env.player_has_privilege w.s pl privilege.SP_CHA_JOIN_WO_PASS (some dst) = true
      ∨ cstr ((data.drop 29).take (min 29 (peek data 28))) = cstr dst.password) :
    (∀ s1, move_player w.s pl dst.id = some s1 →
        ∃ w', c_req_switch_channel env data len pl w = Except.ok w'
          ∧ w'.log = w.log ++ [Event.ack pl]
              ++ w.s.players.map (fun q => Event.send q.public_id
                  (personalise env (switch_notification env p dst) q)))
    ∧ (∀ q : player,
        (personalise env (switch_notification env p dst) q).length = 38
        ∧ (personalise env (switch_notification env p dst) q).take 4
            = le16 env.PKT_TYPE_CTL ++ le16 env.CTL_SWITCHCHAN
        ∧ (personalise env (switch_notification env p dst) q).drop 24
            = le32 p.public_id ++ le32 p.in_chan ++ le32 dst.id
                ++ le16 (player_get_channel_privileges p dst))
    ∧ (move_player w.s pl dst.id = none →
        c_req_switch_channel env data len pl w = Except.ok (send_acknowledge w pl)) := by
  obtain ⟨pass, hpass, hstr⟩ := switch_pass_defined env data hlen
  have hadm2 : switch_admitted env w.s pl dst pass = true := by
    rw [switch_admitted_iff, hstr]; exact hadm
  have heq := switch_eq env data len pl w dst pass hd hpass
  rw [if_pos hadm2] at heq
  have hlay := switch_channel_template_layout env p.public_id p.in_chan dst.id
    (player_get_channel_privileges p dst)
  have hlen24 : 24 ≤ (switch_notification env p dst).length := by
    rw [switch_notification, hlay.1]; decide
  refine ⟨?_, ?_, ?_⟩
  · intro s1 hm
    have hdid := get_channel_by_id_id w.s _ dst hd
    have hd2 : get_channel_by_id w.s dst.id = some dst := by rw [hdid]; exact hd
    obtain ⟨hpl, hp1, hc1⟩ := move_player_spec w.s s1 pl dst.id p dst hp hd2 hm
    obtain ⟨t1, ht1, hpriv⟩ : ∃ t1, get_channel_by_id s1 dst.id = some t1
        ∧ t1.pl_privileges = dst.pl_privileges := by
      cases ht : get_channel_by_id s1 dst.id with
      | none => rw [ht] at hc1; exact Option.noConfusion hc1
      | some t1 => rw [ht] at hc1; exact ⟨t1, rfl, Option.some.inj hc1⟩
    have hflags : player_get_channel_privileges (set_in_chan dst.id p) t1
        = player_get_channel_privileges p dst :=
      player_get_channel_privileges_congr p (set_in_chan dst.id p) dst t1 rfl rfl hpriv
    have hpid := get_player_by_public_id_id w.s pl p hp
    rw [hm] at heq
    simp only [hp] at heq
    refine ⟨_, heq, ?_⟩
    have htpl : switch_channel_template env pl p.in_chan dst.id
        (player_get_channel_privileges (set_in_chan dst.id p) t1)
        = switch_notification env p dst := by
      rw [hflags, switch_notification, hpid]
    simp only [s_notify_switch_channel, hp1, ht1, htpl]
    rw [broadcast_eq env _ _ hlen24]
    simp only [hpl, sends_after_set_in_chan]
  · intro q
    have hl := personalise_layout env (switch_notification env p dst) q hlen24
    refine ⟨?_, ?_, ?_⟩
    · rw [hl.1, switch_notification, hlay.1]
    · rw [hl.2.1, switch_notification, hlay.2.1]
    · rw [hl.2.2.2, switch_notification, hlay.2.2]
  · intro hm
    rw [hm] at heq
    exact heq

/-- The hypotheses of C7 hold on the server of the examples: Bob (2) names
"vip" (3) with the password "hunter2", is moved, and the three players are
notified. -/
theorem c_req_switch_channel_notification_witness :
    get_channel_by_id sampleWorld.s
        (rd32 (sample_request 42 (le32 3 ++ [7, 104, 117, 110, 116, 101, 114, 50])) 24)
      = some (sample_channel 3 0 4 0 [104, 117, 110, 116, 101, 114, 50] [] [])
    ∧ get_player_by_public_id sampleWorld.s 2 = some (sample_player 2 1002 3 1)
    ∧ (move_player sampleWorld.s 2 3).isSome = true
    ∧ (personalise (sampleEnv admin_only true) (switch_notification (sampleEnv admin_only true)
          (sample_player 2 1002 3 1)
          (sample_channel 3 0 4 0 [104, 117, 110, 116, 101, 114, 50] [] []))
        (sample_player 3 1003 0 2)).drop 24
      = [2, 0, 0, 0, 1, 0, 0, 0, 3, 0, 0, 0, 0, 0] :=
  ⟨by decide, by decide, by decide,
    ((c_req_switch_channel_notification (sampleEnv admin_only true)
      (sample_request 42 (le32 3 ++ [7, 104, 117, 110, 116, 101, 114, 50])) 36 2 sampleWorld
      (sample_channel 3 0 4 0 [104, 117, 110, 116, 101, 114, 50] [] [])
      (sample_player 2 1002 3 1) (by decide) (by decide) (by decide)
      (Or.inr (Or.inr (by decide)))).2.1 (sample_player 3 1003 0 2)).2.2.trans (by decide)⟩

/-! ## Creating a channel -/

/-- C8, counterexample. The admin creates a channel from a request whose
password "a" is encoded as a length byte followed by the bytes (`[1, 97]`),
with the PASSWORD flag; the channel (id 7) stores the string `[1]`.  Bob (2),
without privileges, then supplies the same password in the same encoding and
is not admitted: the handler stops after the ACK.  The same happens when the
password is sent as a length byte and a 29-byte field. -/
theorem password_round_trip_fails :
    returned (c_req_create_channel (sampleEnv admin_only true)
        (sample_request 42 (le32 0 ++ le16 5 ++ le32 0 ++ [1, 97])) 36 1 sampleWorld) = true
    ∧ ((world_of (c_req_create_channel (sampleEnv admin_only true)
          (sample_request 42 (le32 0 ++ le16 5 ++ le32 0 ++ [1, 97])) 36 1
          sampleWorld)).s.chans.getLast?).map (fun c => (c.id, c.flags, cstr c.password))
        = some (7, 5, [1])
    ∧ c_req_switch_channel (sampleEnv admin_only true)
        (sample_request 43 (le32 7 ++ [1, 97])) 30 2
        (world_of (c_req_create_channel (sampleEnv admin_only true)
          (sample_request 42 (le32 0 ++ le16 5 ++ le32 0 ++ [1, 97])) 36 1 sampleWorld))
      = Except.ok (send_acknowledge (world_of (c_req_create_channel (sampleEnv admin_only true)
          (sample_request 42 (le32 0 ++ le16 5 ++ le32 0 ++ [1, 97])) 36 1 sampleWorld)) 2)
    ∧ ((world_of (c_req_create_channel (sampleEnv admin_only true)
          (sample_request 42 (le32 0 ++ le16 5 ++ le32 0 ++ [1, 97] ++ List.replicate 28 0)) 64 1
          sampleWorld)).s.chans.getLast?).map (fun c => (c.id, c.flags, cstr c.password))
        = some (7, 5, [1, 97])
    ∧ c_req_switch_channel (sampleEnv admin_only true)
        (sample_request 43 (le32 7 ++ [1, 97] ++ List.replicate 28 0)) 58 2
        (world_of (c_req_create_channel (sampleEnv admin_only true)
          (sample_request 42 (le32 0 ++ le16 5 ++ le32 0 ++ [1, 97] ++ List.replicate 28 0)) 64 1
          sampleWorld))
      = Except.ok (send_acknowledge (world_of (c_req_create_channel (sampleEnv admin_only true)
          (sample_request 42 (le32 0 ++ le16 5 ++ le32 0 ++ [1, 97] ++ List.replicate 28 0)) 64 1
          sampleWorld)) 2) := by
  decide

theorem cstr_of_no_nul (P : Bytes) (h : ∀ b ∈ P, b ≠ 0) : cstr P = P := by
  have := cstr_append_zeros P 0 h
  simpa using this

/-- The accepted creation of a root channel (`parent_id == 0`): the channel is
stored last in the collection, registered when it lacks the UNREGISTERED flag,
and announced. -/
theorem create_channel_accepted_root (env : Env) (w : World) (ch : channel) (pl : Nat)
    (h : ch.parent_id = 0) :
    create_channel_accepted env w ch pl
      = Except.ok (s_notify_channel_created env
          (if ch.flags &&& env.CHANNEL_FLAG_UNREGISTERED = 0 then
            db_do env (add_channel env w ch)
              (db_call.db_register_channel { ch with id := env.add_channel_id w.s ch })
           else add_channel env w ch)
          { ch with id := env.add_channel_id w.s ch } pl) := by
  simp [create_channel_accepted, add_channel, h]

/-- The count `c_req_create_channel` passes to `strncpy` when `n + 1` bytes
follow the descriptor and `n` is at most 29: `n`, on either platform. -/
theorem create_password_count_eq (env : Env) (consumed n : Nat) (h : n ≤ 29) :
    create_password_count env (consumed + n + 1) consumed = n := by
  unfold create_password_count MIN
  split <;> split <;> omega

/-! ## Changing a player's rights -/

theorem get_player_by_public_id_mem (s : server) (id : Nat) (p : player)
    (h : get_player_by_public_id s id = some p) : p ∈ s.players :=
  List.mem_of_find?_eq_some h

theorem player_ch_priv_changed_template_length (env : Env) (pl tgt right on_off : Nat) :
    (player_ch_priv_changed_template env pl tgt right on_off).length = 34 := by
  simp [player_ch_priv_changed_template, calloc, poke, le16, le32]

theorem player_sv_right_changed_template_length (env : Env) (pl : Option Nat)
    (tgt right on_off : Nat) :
    (player_sv_right_changed_template env pl tgt right on_off).length = 34 := by
  cases pl <;> simp [player_sv_right_changed_template, calloc, poke, le16, le32]

/-- `c_req_change_player_ch_priv` once the `switch` has named the privilege
and the target is found. -/
theorem ch_priv_eq (env : Env) (data : Bytes) (len pl : Nat) (w : World) (t : player)
    (X : privilege)
    (hX : ch_priv_required env (shl1 env (peek data 29)) (peek data 28) = some X)
    (ht : get_player_by_public_id w.s (rd32 data 24) = some t) :
    c_req_change_player_ch_priv env data len pl w
      = if env.player_has_privilege w.s pl X (get_channel_by_id w.s t.in_chan) then
          s_notify_player_ch_priv_changed env
            { s := if peek data 28 = 2 then
                     player_clr_channel_privilege w.s t t.in_chan (shl1 env (peek data 29))
                   else if peek data 28 = 0 then
                     player_set_channel_privilege w.s t t.in_chan (shl1 env (peek data 29))
                   else w.s,
              log := w.log ++ [Event.ack pl] } pl t.public_id (peek data 29) (peek data 28)
        else send_acknowledge w pl := by
  have hs : (send_acknowledge w pl).s = w.s := rfl
  simp only [c_req_change_player_ch_priv, hs, hX, ht]
  rfl

/-- Setting or clearing a channel right leaves the players alone. -/
theorem ch_priv_state_players (s : server) (t : player) (on_off bit : Nat) :
    (if on_off = 2 then player_clr_channel_privilege s t t.in_chan bit
      else if on_off = 0 then player_set_channel_privilege s t t.in_chan bit
      else s).players = s.players := by
  split
  · rfl
  · split <;> rfl

/-- C9. The channel-right table. Let the case labels of the `switch` be
pairwise distinct, let the right offset of a CHANGE_PL_CHPRIV request select
the right of a row of the specification's table, and let the target exist.
Then the privilege the `switch` yields is the grant op of the row when
`on_off` is 0 and its revoke op when `on_off` is 2, and the handler stops
after the ACK exactly when the privilege engine denies the requester that op
in the target's current channel. -/
theorem c_req_change_player_ch_priv_table (env : Env) (data : Bytes) (len pl : Nat)
    (w : World) (t : player) (row : Nat × privilege × privilege)
    (hnd : [env.CHANNEL_PRIV_CHANADMIN, env.CHANNEL_PRIV_OP, env.CHANNEL_PRIV_VOICE,
      env.CHANNEL_PRIV_AUTOOP, env.CHANNEL_PRIV_AUTOVOICE].Nodup)
    (hrow : row ∈ spec_channel_right_ops env)
    (hbit : shl1 env (peek data 29) = row.1)
    (ht : get_player_by_public_id w.s (rd32 data 24) = some t) :
    (peek data 28 = 0 →
        ch_priv_required env (shl1 env (peek data 29)) (peek data 28) = some row.2.1
        ∧ ((c_req_change_player_ch_priv env data len pl w).log = w.log ++ [Event.ack pl]
            ↔ env.player_has_privilege w.s pl row.2.1 (get_channel_by_id w.s t.in_chan)
                = false))
    ∧ (peek data 28 = 2 →
        ch_priv_required env (shl1 env (peek data 29)) (peek data 28) = some row.2.2
        ∧ ((c_req_change_player_ch_priv env data len pl w).log = w.log ++ [Event.ack pl]
            ↔ env.player_has_privilege w.s pl row.2.2 (get_channel_by_id w.s t.in_chan)
                = false)) := by
  have hobs : ∀ X : privilege,
      ch_priv_required env (shl1 env (peek data 29)) (peek data 28) = some X →
      ((c_req_change_player_ch_priv env data len pl w).log = w.log ++ [Event.ack pl]
        ↔ env.player_has_privilege w.s pl X (get_channel_by_id w.s t.in_chan) = false) := by
    intro X hX
    rw [ch_priv_eq env data len pl w t X hX ht]
    cases hp : env.player_has_privilege w.s pl X (get_channel_by_id w.s t.in_chan) with
    | false => simp [send_acknowledge]
    | true =>
      simp only [if_true, s_notify_player_ch_priv_changed]
      rw [broadcast_eq env _ _
        (by rw [player_ch_priv_changed_template_length]; decide)]
      have hpl := ch_priv_state_players w.s t (peek data 28) (shl1 env (peek data 29))
      have hne : w.s.players ≠ [] := List.ne_nil_of_mem (get_player_by_public_id_mem _ _ _ ht)
      simp [hpl, hne]
  simp only [List.nodup_cons, List.mem_cons, List.mem_singleton, not_or, List.not_mem_nil,
    not_false_eq_true, List.nodup_nil, and_true] at hnd
  obtain ⟨⟨h12, h13, h14, h15⟩, ⟨h23, h24, h25⟩, ⟨h34, h35⟩, h45⟩ := hnd
  have hreq : (peek data 28 = 0 →
        ch_priv_required env (shl1 env (peek data 29)) (peek data 28) = some row.2.1)
      ∧ (peek data 28 = 2 →
        ch_priv_required env (shl1 env (peek data 29)) (peek data 28) = some row.2.2) := by
    simp only [spec_channel_right_ops, List.mem_cons, List.mem_singleton, List.not_mem_nil,
      or_false] at hrow
    rcases hrow with rfl | rfl | rfl | rfl | rfl
    · constructor <;> intro h0 <;> simp [ch_priv_required, hbit, h0]
    · constructor <;> intro h0 <;> simp [ch_priv_required, hbit, h0, Ne.symm h12]
    · constructor <;> intro h0 <;>
        simp [ch_priv_required, hbit, h0, Ne.symm h13, Ne.symm h23]
    · constructor <;> intro h0 <;>
        simp [ch_priv_required, hbit, h0, Ne.symm h14, Ne.symm h24, Ne.symm h34]
    · constructor <;> intro h0 <;>
        simp [ch_priv_required, hbit, h0, Ne.symm h15, Ne.symm h25, Ne.symm h35, Ne.symm h45]
  exact ⟨fun h0 => ⟨hreq.1 h0, hobs _ (hreq.1 h0)⟩, fun h2 => ⟨hreq.2 h2, hobs _ (hreq.2 h2)⟩⟩

/-- The hypotheses of C9 hold on the server of the examples: Bob (2), without
privileges, asks to grant Carol (3) the right OP (offset 1); the `switch`
yields SP_PL_GRANT_OP, the engine denies it, and only the ACK is sent. -/
theorem c_req_change_player_ch_priv_table_witness :
    ((2, privilege.SP_PL_GRANT_OP, privilege.SP_PL_REVOKE_OP) : Nat × privilege × privilege)
        ∈ spec_channel_right_ops (sampleEnv admin_only true)
    ∧ shl1 (sampleEnv admin_only true) (peek (sample_request 42 (le32 3 ++ [0, 1])) 29) = 2
    ∧ get_player_by_public_id sampleWorld.s (rd32 (sample_request 42 (le32 3 ++ [0, 1])) 24)
        = some (sample_player 3 1003 0 2)
    ∧ ch_priv_required (sampleEnv admin_only true)
        (shl1 (sampleEnv admin_only true) (peek (sample_request 42 (le32 3 ++ [0, 1])) 29))
        (peek (sample_request 42 (le32 3 ++ [0, 1])) 28) = some privilege.SP_PL_GRANT_OP
    ∧ (c_req_change_player_ch_priv (sampleEnv admin_only true)
        (sample_request 42 (le32 3 ++ [0, 1])) 30 2 sampleWorld).log = [Event.ack 2] := by
  have h := (c_req_change_player_ch_priv_table (sampleEnv admin_only true)
    (sample_request 42 (le32 3 ++ [0, 1])) 30 2 sampleWorld (sample_player 3 1003 0 2)
    (2, privilege.SP_PL_GRANT_OP, privilege.SP_PL_REVOKE_OP) (by decide) (by decide)
    (by decide) (by decide)).1 (by decide)
  exact ⟨by decide, by decide, by decide, h.1, h.2.mpr (by decide)⟩

/-- C10, counterexample. On the server of the examples the admin sends
CHANGE_PL_CHPRIV and CHANGE_PL_SVPRIV for Bob (2) with `on_off = 1`: each
request is answered by a notification to the three players, and their
counters advance from 7, 3, 0 to 8, 4, 1. -/
theorem on_off_one_is_broadcast :
    peek (sample_request 42 (le32 2 ++ [1, 1])) 28 = 1
    ∧ (c_req_change_player_ch_priv (sampleEnv admin_only true)
        (sample_request 42 (le32 2 ++ [1, 1])) 30 1 sampleWorld).log
      = [Event.ack 1,
         Event.send 1 [240, 190, 106, 0, 233, 3, 0, 0, 1, 0, 0, 0, 7, 0, 0, 0, 0, 0, 0, 0,
           17, 3, 0, 0, 2, 0, 0, 0, 1, 1, 1, 0, 0, 0],
         Event.send 2 [240, 190, 106, 0, 234, 3, 0, 0, 2, 0, 0, 0, 3, 0, 0, 0, 0, 0, 0, 0,
           15, 3, 0, 0, 2, 0, 0, 0, 1, 1, 1, 0, 0, 0],
         Event.send 3 [240, 190, 106, 0, 235, 3, 0, 0, 3, 0, 0, 0, 0, 0, 0, 0, 0, 0, 0, 0,
           14, 3, 0, 0, 2, 0, 0, 0, 1, 1, 1, 0, 0, 0]]
    ∧ sampleWorld.s.players.map (fun p => p.f0_s_counter) = [7, 3, 0]
    ∧ (c_req_change_player_ch_priv (sampleEnv admin_only true)
        (sample_request 42 (le32 2 ++ [1, 1])) 30 1 sampleWorld).s.players.map
          (fun p => p.f0_s_counter) = [8, 4, 1]
    ∧ (c_req_change_player_sv_right (sampleEnv admin_only true)
        (sample_request 42 (le32 2 ++ [1, 0])) 30 1 sampleWorld).log
      = [Event.ack 1,
         Event.send 1 [240, 190, 107, 0, 233, 3, 0, 0, 1, 0, 0, 0, 7, 0, 0, 0, 0, 0, 0, 0,
           17, 3, 0, 0, 2, 0, 0, 0, 1, 0, 1, 0, 0, 0],
         Event.send 2 [240, 190, 107, 0, 234, 3, 0, 0, 2, 0, 0, 0, 3, 0, 0, 0, 0, 0, 0, 0,
           15, 3, 0, 0, 2, 0, 0, 0, 1, 0, 1, 0, 0, 0],
         Event.send 3 [240, 190, 107, 0, 235, 3, 0, 0, 3, 0, 0, 0, 0, 0, 0, 0, 0, 0, 0, 0,
           14, 3, 0, 0, 2, 0, 0, 0, 1, 0, 1, 0, 0, 0]]
    ∧ (c_req_change_player_sv_right (sampleEnv admin_only true)
        (sample_request 42 (le32 2 ++ [1, 0])) 30 1 sampleWorld).s.players.map
          (fun p => p.f0_s_counter) = [8, 4, 1] := by
  decide

/-- `c_req_change_player_sv_right` once the `switch` has named the privilege
and the target is found. -/
theorem sv_right_eq (env : Env) (data : Bytes) (len pl : Nat) (w : World) (t : player)
    (X : privilege)
    (hX : sv_priv_required env (shl1 env (peek data 29)) (peek data 28) = some X)
    (ht : get_player_by_public_id w.s (rd32 data 24) = some t) :
    c_req_change_player_sv_right env data len pl w
      = if env.player_has_privilege w.s pl X (get_channel_by_id w.s t.in_chan) then
          s_notify_player_sv_right_changed env
            (sv_right_apply env (send_acknowledge w pl) t (shl1 env (peek data 29))
              (peek data 28))
            (some pl) t.public_id (peek data 29) (peek data 28)
        else send_acknowledge w pl := by
  have hs : (send_acknowledge w pl).s = w.s := rfl
  simp only [c_req_change_player_sv_right, hs, hX, ht]

/-- For an operation byte other than 0 the `switch` of either handler yields
what it yields for 2, the revoke op. -/
theorem priv_required_of_ne_zero (env : Env) (bit on_off : Nat) (h0 : on_off ≠ 0) :
    ch_priv_required env bit on_off = ch_priv_required env bit 2
    ∧ sv_priv_required env bit on_off = sv_priv_required env bit 2 := by
  simp [ch_priv_required, sv_priv_required, h0]

/-- C10, as the code has it. For a CHANGE_PL_CHPRIV or CHANGE_PL_SVPRIV
request whose operation byte is neither 0 nor 2, whatever the requester's
privileges: no channel changes (so no privilege record does), no player
changes in any field but the counter (so no global flags do), and either the
handler stops after the ACK, or the target exists, the privilege engine
grants the requester the revoke op of the right in the target's channel, and
the log grows by the ACK and the notification to every connected player. -/
theorem change_player_right_other_op (env : Env) (data : Bytes) (len pl : Nat) (w : World)
    (h0 : peek data 28 ≠ 0) (h2 : peek data 28 ≠ 2) :
    ((c_req_change_player_ch_priv env data len pl w).s.chans = w.s.chans
      ∧ (c_req_change_player_ch_priv env data len pl w).s.players.map forget_counter
          = w.s.players.map forget_counter
      ∧ (c_req_change_player_ch_priv env data len pl w = send_acknowledge w pl
          ∨ ∃ t X, get_player_by_public_id w.s (rd32 data 24) = some t
              ∧ ch_priv_required env (shl1 env (peek data 29)) 2 = some X
              ∧ env.player_has_privilege w.s pl X (get_channel_by_id w.s t.in_chan) = true
              ∧ (c_req_change_player_ch_priv env data len pl w).log
                  = w.log ++ [Event.ack pl]
                    ++ w.s.players.map (fun q => Event.send q.public_id (personalise env
                        (player_ch_priv_changed_template env pl t.public_id (peek data 29)
                          (peek data 28)) q))))
    ∧ ((c_req_change_player_sv_right env data len pl w).s.chans = w.s.chans
      ∧ (c_req_change_player_sv_right env data len pl w).s.players.map forget_counter
          = w.s.players.map forget_counter
      ∧ (c_req_change_player_sv_right env data len pl w = send_acknowledge w pl
          ∨ ∃ t X, get_player_by_public_id w.s (rd32 data 24) = some t
              ∧ sv_priv_required env (shl1 env (peek data 29)) 2 = some X
              ∧ env.player_has_privilege w.s pl X (get_channel_by_id w.s t.in_chan) = true
              ∧ (c_req_change_player_sv_right env data len pl w).log
                  = w.log ++ [Event.ack pl]
                    ++ w.s.players.map (fun q => Event.send q.public_id (personalise env
                        (player_sv_right_changed_template env (some pl) t.public_id
                          (peek data 29) (peek data 28)) q)))) := by
  have hs : (send_acknowledge w pl).s = w.s := rfl
  obtain ⟨hch, hsv⟩ := priv_required_of_ne_zero env (shl1 env (peek data 29)) (peek data 28) h0
  constructor
  · cases hX : ch_priv_required env (shl1 env (peek data 29)) (peek data 28) with
    | none =>
      have e : c_req_change_player_ch_priv env data len pl w = send_acknowledge w pl := by
        simp only [c_req_change_player_ch_priv, hX]
      rw [e]; exact ⟨rfl, rfl, Or.inl rfl⟩
    | some X =>
      cases ht : get_player_by_public_id w.s (rd32 data 24) with
      | none =>
        have e : c_req_change_player_ch_priv env data len pl w = send_acknowledge w pl := by
          simp only [c_req_change_player_ch_priv, hX, hs, ht]
        rw [e]; exact ⟨rfl, rfl, Or.inl rfl⟩
      | some t =>
        rw [ch_priv_eq env data len pl w t X hX ht]
        cases hp : env.player_has_privilege w.s pl X (get_channel_by_id w.s t.in_chan) with
        | false => exact ⟨rfl, rfl, Or.inl (by simp)⟩
        | true =>
          simp only [if_true, if_neg h0, if_neg h2, s_notify_player_ch_priv_changed]
          rw [broadcast_eq env _ _
            (by rw [player_ch_priv_changed_template_length]; decide)]
          refine ⟨rfl, map_forget_counter_bump _, Or.inr ⟨t, X, rfl, ?_, hp, rfl⟩⟩
          rw [← hch]; exact hX
  · cases hX : sv_priv_required env (shl1 env (peek data 29)) (peek data 28) with
    | none =>
      have e : c_req_change_player_sv_right env data len pl w = send_acknowledge w pl := by
        simp only [c_req_change_player_sv_right, hX]
      rw [e]; exact ⟨rfl, rfl, Or.inl rfl⟩
    | some X =>
      cases ht : get_player_by_public_id w.s (rd32 data 24) with
      | none =>
        have e : c_req_change_player_sv_right env data len pl w = send_acknowledge w pl := by
          simp only [c_req_change_player_sv_right, hX, hs, ht]
        rw [e]; exact ⟨rfl, rfl, Or.inl rfl⟩
      | some t =>
        rw [sv_right_eq env data len pl w t X hX ht]
        cases hp : env.player_has_privilege w.s pl X (get_channel_by_id w.s t.in_chan) with
        | false => exact ⟨rfl, rfl, Or.inl (by simp)⟩
        | true =>
          have happ : sv_right_apply env (send_acknowledge w pl) t (shl1 env (peek data 29))
              (peek data 28) = send_acknowledge w pl := by
            simp only [sv_right_apply, if_neg h0, if_neg h2]
          simp only [if_true, happ, s_notify_player_sv_right_changed]
          rw [broadcast_eq env _ _
            (by rw [player_sv_right_changed_template_length]; decide)]
          refine ⟨rfl, map_forget_counter_bump _, Or.inr ⟨t, X, rfl, ?_, hp, ?_⟩⟩
          · rw [← hsv]; exact hX
          · simp [send_acknowledge]

/-- The hypotheses of the amended C10 hold for the requests of the
counterexample (operation byte 1): no channel of the server of the examples
changes. -/
theorem change_player_right_other_op_witness :
    peek (sample_request 42 (le32 2 ++ [1, 1])) 28 ≠ 0
    ∧ peek (sample_request 42 (le32 2 ++ [1, 1])) 28 ≠ 2
    ∧ (c_req_change_player_ch_priv (sampleEnv admin_only true)
        (sample_request 42 (le32 2 ++ [1, 1])) 30 1 sampleWorld).s.chans = sampleWorld.s.chans
    ∧ (c_req_change_player_sv_right (sampleEnv admin_only true)
        (sample_request 42 (le32 2 ++ [1, 1])) 30 1 sampleWorld).s.chans
        = sampleWorld.s.chans :=
  ⟨by decide, by decide,
    (change_player_right_other_op (sampleEnv admin_only true)
      (sample_request 42 (le32 2 ++ [1, 1])) 30 1 sampleWorld (by decide) (by decide)).1.1,
    (change_player_right_other_op (sampleEnv admin_only true)
      (sample_request 42 (le32 2 ++ [1, 1])) 30 1 sampleWorld (by decide) (by decide)).2.1⟩

/-! ## Acknowledgements -/

theorem acked_once_start (pl : Nat) (w : World) :
    acked_once pl w.log (send_acknowledge w pl).log :=
  ⟨[], rfl, fun _ h => absurd h (List.not_mem_nil _)⟩

theorem acked_once_extend (pl : Nat) (before log more : List Event)
    (h : acked_once pl before log) (hm : ∀ e ∈ more, is_ack e = false) :
    acked_once pl before (log ++ more) := by
  obtain ⟨rest, hlog, hrest⟩ := h
  refine ⟨rest ++ more, by rw [hlog]; simp, ?_⟩
  intro e he
  rcases List.mem_append.mp he with h1 | h1
  · exact hrest e h1
  · exact hm e h1

theorem notify_each_no_ack (env : Env) (ps : List player) :
    ∀ data : Bytes, ∀ e ∈ (notify_each env data ps).2, is_ack e = false := by
  induction ps with
  | nil => intro data e he; simp [notify_each] at he
  | cons p ps ih =>
    intro data e he
    simp only [notify_each, List.mem_cons] at he
    rcases he with rfl | he
    · rfl
    · exact ih _ e he

theorem acked_once_broadcast (env : Env) (pl : Nat) (before : List Event) (w : World)
    (data : Bytes) (h : acked_once pl before w.log) :
    acked_once pl before (broadcast env w data).log :=
  acked_once_extend pl before w.log _ h (notify_each_no_ack env w.s.players data)

theorem acked_once_db_do (env : Env) (pl : Nat) (before : List Event) (w : World)
    (call : db_call) (h : acked_once pl before w.log) :
    acked_once pl before (db_do env w call).log :=
  acked_once_extend pl before w.log _ h (by
    intro e he
    simp only [List.mem_singleton] at he
    rw [he]; rfl)

theorem acked_once_cannot_delete (env : Env) (pl : Nat) (before : List Event) (w : World)
    (cnt : Nat) (h : acked_once pl before w.log) :
    acked_once pl before (s_resp_cannot_delete_channel env w pl cnt).log := by
  unfold s_resp_cannot_delete_channel
  split
  · exact h
  · exact acked_once_extend pl before w.log _ h (by
      intro e he
      simp only [List.mem_singleton] at he
      rw [he]; rfl)

/-- `c_req_delete_channel` acknowledges every request once, first. -/
theorem c_req_delete_channel_acked (env : Env) (data : Bytes) (len pl : Nat) (w : World) :
    acked_once pl w.log (c_req_delete_channel env data len pl w).log := by
  have h0 := acked_once_start pl w
  unfold c_req_delete_channel
  simp only []
  split
  · split
    · exact acked_once_cannot_delete env pl _ _ _ h0
    · split
      · exact acked_once_cannot_delete env pl _ _ _ h0
      · simp only [destroy_channel_by_id, s_notify_channel_deleted]
        apply acked_once_broadcast
        split
        · exact acked_once_db_do env pl _ _ _ h0
        · exact h0
  · exact h0

/-- `c_req_change_player_ch_priv` acknowledges every request once, first. -/
theorem c_req_change_player_ch_priv_acked (env : Env) (data : Bytes) (len pl : Nat)
    (w : World) :
    acked_once pl w.log (c_req_change_player_ch_priv env data len pl w).log := by
  have h0 := acked_once_start pl w
  unfold c_req_change_player_ch_priv
  simp only []
  split
  · exact h0
  · split
    · exact h0
    · split
      · exact acked_once_broadcast env pl _ _ _ h0
      · exact h0

theorem sv_right_apply_log (env : Env) (pl : Nat) (before : List Event) (w : World)
    (t : player) (bit on_off : Nat) (h : acked_once pl before w.log) :
    acked_once pl before (sv_right_apply env w t bit on_off).log := by
  unfold sv_right_apply
  split
  · simp only []
    split
    · exact acked_once_db_do env pl before _ _ h
    · exact h
  · split
    · exact h
    · exact h

/-- `c_req_change_player_sv_right` acknowledges every request once, first. -/
theorem c_req_change_player_sv_right_acked (env : Env) (data : Bytes) (len pl : Nat)
    (w : World) :
    acked_once pl w.log (c_req_change_player_sv_right env data len pl w).log := by
  have h0 := acked_once_start pl w
  unfold c_req_change_player_sv_right
  simp only []
  split
  · exact h0
  · split
    · exact h0
    · split
      · exact acked_once_broadcast env pl _ _ _ (sv_right_apply_log env pl _ _ _ _ _ h0)
      · exact h0

/-- `c_req_change_player_attr` acknowledges every request once, first. -/
theorem c_req_change_player_attr_acked (env : Env) (data : Bytes) (len pl : Nat) (w : World) :
    acked_once pl w.log (c_req_change_player_attr env data len pl w).log :=
  acked_once_broadcast env pl _ _ _ (acked_once_start pl w)

theorem create_channel_accepted_acked (env : Env) (pl : Nat) (before : List Event)
    (w : World) (ch : channel) (h : acked_once pl before w.log) :
    acked_once pl before (world_of (create_channel_accepted env w ch pl)).log := by
  unfold create_channel_accepted
  simp only []
  split
  · rename_i e hstep
    split at hstep
    · split at hstep
      · cases hstep; exact h
      · split at hstep <;> exact Except.noConfusion hstep
    · exact Except.noConfusion hstep
  · rename_i w2 hstep
    have hw2 : acked_once pl before w2.log := by
      split at hstep
      · split at hstep
        · exact Except.noConfusion hstep
        · split at hstep
          · cases hstep
            exact acked_once_db_do env pl before _ _ h
          · cases hstep; exact h
      · cases hstep; exact h
    simp only [world_of, s_notify_channel_created]
    apply acked_once_broadcast
    split
    · exact acked_once_db_do env pl before _ _ hw2
    · exact hw2

/-- `c_req_create_channel` acknowledges every request once, first, also when
it leaves defined behaviour afterwards. -/
theorem c_req_create_channel_acked (env : Env) (data : Bytes) (len pl : Nat) (w : World) :
    acked_once pl w.log (world_of (c_req_create_channel env data len pl w)).log := by
  have h0 := acked_once_start pl w
  unfold c_req_create_channel
  simp only []
  split
  · exact h0
  · split
    · exact create_channel_accepted_acked env pl _ _ _ h0
    · exact h0

/-- `c_req_switch_channel` acknowledges once, first, when the request names an
existing channel and the copy into `pass` stays inside it. -/
theorem c_req_switch_channel_acked (env : Env) (data : Bytes) (len pl : Nat) (w : World)
    (dst : channel)
    (hd : get_channel_by_id w.s (rd32 data 24) = some dst)
    (hlen : 0 ≤ char_val env (peek data 28)) :
    acked_once pl w.log (world_of (c_req_switch_channel env data len pl w)).log := by
  have h0 := acked_once_start pl w
  obtain ⟨pass, hpass, _⟩ := switch_pass_defined env data hlen
  rw [switch_eq env data len pl w dst pass hd hpass]
  split
  · split
    · exact acked_once_broadcast env pl _ _ _ h0
    · exact h0
  · exact h0

/-! ## Granting and revoking a channel right -/

/-- Whether a record is the one of a player does not depend on its flags. -/
theorem priv_of_player_set_flags (p : player) (r : player_channel_privilege) (v : Nat) :
    priv_of_player p { r with flags := v } = priv_of_player p r := by
  cases r with
  | mk reg pl_or_reg flags => cases reg <;> rfl

/-- The record `modify_priv` creates for a player is the player's. -/
theorem priv_of_player_fresh (p : player) (v : Nat) :
    ∀ r ∈ modify_priv (fun _ => v) p [], priv_of_player p r = true := by
  intro r hr
  unfold modify_priv at hr
  cases hreg : p.reg with
  | none =>
    simp only [hreg, List.mem_singleton] at hr
    rw [hr]; simp [priv_of_player]
  | some x =>
    simp only [hreg, List.mem_singleton] at hr
    rw [hr]; simp [priv_of_player, hreg]

/-- After `modify_priv f`, the flags of the player's record are `f` of what
they were (of no bits when there was no record). -/
theorem find_modify_priv (f : Nat → Nat) (p : player) (rs : List player_channel_privilege) :
    ((modify_priv f p rs).find? (priv_of_player p)).map (fun r => r.flags)
      = some (f (match rs.find? (priv_of_player p) with
                  | some r => r.flags
                  | none => 0)) := by
  induction rs with
  | nil =>
    cases hreg : p.reg with
    | none => simp [modify_priv, hreg, priv_of_player]
    | some x => simp [modify_priv, hreg, priv_of_player]
  | cons r rs ih =>
    by_cases h : priv_of_player p r = true
    · have h2 : priv_of_player p { r with flags := f r.flags } = true := by
        rw [priv_of_player_set_flags]; exact h
      simp only [modify_priv, h, if_true, List.find?_cons, h2, Option.map_some']
    · have h3 : priv_of_player p r = false := by simpa using h
      rw [modify_priv, if_neg h, List.find?_cons, List.find?_cons]
      simp only [h3]
      exact ih

/-- `modify_priv` leaves the records of everyone else as they are. -/
theorem filter_modify_priv (f : Nat → Nat) (p : player) (rs : List player_channel_privilege) :
    (modify_priv f p rs).filter (fun r => !priv_of_player p r)
      = rs.filter (fun r => !priv_of_player p r) := by
  induction rs with
  | nil =>
    cases hreg : p.reg with
    | none => simp [modify_priv, hreg, priv_of_player]
    | some x => simp [modify_priv, hreg, priv_of_player]
  | cons r rs ih =>
    by_cases h : priv_of_player p r = true
    · have h2 : priv_of_player p { r with flags := f r.flags } = true := by
        rw [priv_of_player_set_flags]; exact h
      simp [modify_priv, h, List.filter_cons, h2]
    · have h3 : priv_of_player p r = false := by simpa using h
      simp [modify_priv, h3, List.filter_cons, ih]

/-- The rights of a player in a channel whose records went through
`modify_priv f`. -/
theorem player_get_channel_privileges_modify (f : Nat → Nat) (p : player) (c : channel) :
    player_get_channel_privileges p { c with pl_privileges := modify_priv f p c.pl_privileges }
      = f (player_get_channel_privileges p c) := by
  have h := find_modify_priv f p c.pl_privileges
  simp only [player_get_channel_privileges]
  cases hq : (modify_priv f p c.pl_privileges).find? (priv_of_player p) with
  | none => rw [hq] at h; exact Option.noConfusion h
  | some r =>
    rw [hq] at h
    exact Option.some.inj h

/-- Looking up the updated key after an update that keeps the keys. -/
theorem find_update_first_same {α : Type} (key : α → Nat) (f : α → α)
    (hf : ∀ x, key (f x) = key x) (id : Nat) (xs : List α) :
    (update_first key f id xs).find? (fun x => key x == id)
      = (xs.find? (fun x => key x == id)).map f := by
  rw [find_update_first key f hf id id xs]
  cases hq : xs.find? (fun x => key x == id) with
  | none => rfl
  | some q =>
    have hk : key q = id := by simpa using List.find?_some hq
    simp [hk]

/-- Looking up another key after an update that keeps the keys. -/
theorem find_update_first_other {α : Type} (key : α → Nat) (f : α → α)
    (hf : ∀ x, key (f x) = key x) (id k : Nat) (hk : k ≠ id) (xs : List α) :
    (update_first key f id xs).find? (fun x => key x == k)
      = xs.find? (fun x => key x == k) := by
  rw [find_update_first key f hf id k xs]
  cases hq : xs.find? (fun x => key x == k) with
  | none => rfl
  | some q =>
    have hkq : key q = k := by simpa using List.find?_some hq
    have : key q ≠ id := by rw [hkq]; exact hk
    simp [this]

theorem or_and_self_bit (x bit : Nat) : (x ||| bit) &&& bit = bit := by
  apply Nat.eq_of_testBit_eq
  intro i
  simp only [Nat.testBit_and, Nat.testBit_or]
  cases x.testBit i <;> cases bit.testBit i <;> rfl

theorem xor_and_self_bit (x bit : Nat) : (x ^^^ (x &&& bit)) &&& bit = 0 := by
  apply Nat.eq_of_testBit_eq
  intro i
  simp only [Nat.testBit_and, Nat.testBit_xor, Nat.zero_testBit]
  cases x.testBit i <;> cases bit.testBit i <;> rfl

theorem or_other_bits (x bit i : Nat) (h : bit.testBit i = false) :
    (x ||| bit).testBit i = x.testBit i := by
  simp [Nat.testBit_or, h]

theorem xor_other_bits (x bit i : Nat) (h : bit.testBit i = false) :
    (x ^^^ (x &&& bit)).testBit i = x.testBit i := by
  simp [Nat.testBit_xor, Nat.testBit_and, h]

/-- The state after the flags of the record of player `t` in channel
`t.in_chan` went through `f`: the rights of `t` there are `f` of the old ones,
the records of everyone else in that channel, every other channel and
everything but the records in any channel are as before. -/
theorem with_priv_spec (f : Nat → Nat) (s : server) (t : player) (c : channel)
    (hc : get_channel_by_id s t.in_chan = some c) :
    get_channel_by_id { s with chans := update_channel (with_priv f t) t.in_chan s.chans }
        t.in_chan = some (with_priv f t c)
    ∧ player_get_channel_privileges t (with_priv f t c) = f (player_get_channel_privileges t c)
    ∧ (with_priv f t c).pl_privileges.filter (fun r => !priv_of_player t r)
        = c.pl_privileges.filter (fun r => !priv_of_player t r)
    ∧ (∀ k, k ≠ t.in_chan →
        get_channel_by_id { s with chans := update_channel (with_priv f t) t.in_chan s.chans } k
          = get_channel_by_id s k)
    ∧ (update_channel (with_priv f t) t.in_chan s.chans).map forget_privileges
        = s.chans.map forget_privileges := by
  refine ⟨?_, player_get_channel_privileges_modify f t c, filter_modify_priv f t _, ?_, ?_⟩
  · simp only [get_channel_by_id, update_channel]
    rw [find_update_first_same (fun c : channel => c.id) (with_priv f t) (fun _ => rfl)]
    have hc2 : s.chans.find? (fun c => c.id == t.in_chan) = some c := hc
    rw [hc2]; rfl
  · intro k hk
    simp only [get_channel_by_id, update_channel]
    exact find_update_first_other (fun c : channel => c.id) (with_priv f t) (fun _ => rfl)
      t.in_chan k hk s.chans
  · exact map_update_first (fun c : channel => c.id) (with_priv f t) forget_privileges
      (fun _ => rfl) t.in_chan s.chans

theorem player_set_channel_privilege_eq (s : server) (t : player) (ch bit : Nat) :
    player_set_channel_privilege s t ch bit
      = { s with chans := update_channel (with_priv (fun x => x ||| bit) t) ch s.chans } := rfl

theorem player_clr_channel_privilege_eq (s : server) (t : player) (ch bit : Nat) :
    player_clr_channel_privilege s t ch bit
      = { s with chans :=
            update_channel (with_priv (fun x => x ^^^ (x &&& bit)) t) ch s.chans } := rfl

theorem player_ch_priv_changed_template_layout (env : Env) (pl tgt right on_off : Nat) :
    (player_ch_priv_changed_template env pl tgt right on_off).length = 34
    ∧ (player_ch_priv_changed_template env pl tgt right on_off).take 4
        = le16 env.PKT_TYPE_CTL ++ le16 env.CTL_CHANGE_PL_CHPRIV
    ∧ (player_ch_priv_changed_template env pl tgt right on_off).drop 24
        = le32 tgt ++ [on_off % 256, right % 256] ++ le32 pl := by
  simp [player_ch_priv_changed_template, calloc, poke, le16, le32]

/-- C11. Grant and revoke of a channel right. Let the `switch` accept the
right offset, the target `t` exist and sit in the existing channel `c`, and
the privilege engine grant the requester the required op there.  After
`c_req_change_player_ch_priv` the rights of `t` in its channel have the bit
`1 << right` set when `on_off` is 0 and cleared when `on_off` is 2, every
other bit is as before, the records of everyone else in that channel and all
other channels are unchanged, nothing but privilege records changes in any
channel and nothing but counters in any player; the log grows by the ACK and
one packet per connected player, each 34 bytes long with the CHANGE_PL_CHPRIV
code and, from byte 24 on, the target's public id (4 bytes), `on_off`,
`right` and the requester's public id (4 bytes). -/
theorem c_req_change_player_ch_priv_applied (env : Env) (data : Bytes) (len pl : Nat)
    (w : World) (t : player) (c : channel) (X : privilege)
    (hX : ch_priv_required env (shl1 env (peek data 29)) (peek data 28) = some X)
    (ht : get_player_by_public_id w.s (rd32 data 24) = some t)
    (hc : get_channel_by_id w.s t.in_chan = some c)
    (hpriv : env.player_has_privilege w.s pl X (some c) = true) :
    (∃ c', get_channel_by_id (c_req_change_player_ch_priv env data len pl w).s t.in_chan
          = some c'
        ∧ (peek data 28 = 0 →
            player_get_channel_privileges t c' &&& shl1 env (peek data 29)
              = shl1 env (peek data 29))
        ∧ (peek data 28 = 2 →
            player_get_channel_privileges t c' &&& shl1 env (peek data 29) = 0)
        ∧ (∀ i, (shl1 env (peek data 29)).testBit i = false →
            (player_get_channel_privileges t c').testBit i
              = (player_get_channel_privileges t c).testBit i)
        ∧ c'.pl_privileges.filter (fun r => !priv_of_player t r)
            = c.pl_privileges.filter (fun r => !priv_of_player t r))
    ∧ (∀ k, k ≠ t.in_chan →
        get_channel_by_id (c_req_change_player_ch_priv env data len pl w).s k
          = get_channel_by_id w.s k)
    ∧ (c_req_change_player_ch_priv env data len pl w).s.chans.map forget_privileges
        = w.s.chans.map forget_privileges
    ∧ (c_req_change_player_ch_priv env data len pl w).s.players.map forget_counter
        = w.s.players.map forget_counter
    ∧ (c_req_change_player_ch_priv env data len pl w).log
        = w.log ++ [Event.ack pl]
          ++ w.s.players.map (fun q => Event.send q.public_id (personalise env
              (player_ch_priv_changed_template env pl t.public_id (peek data 29)
                (peek data 28)) q))
    ∧ ∀ q : player,
        (personalise env (player_ch_priv_changed_template env pl t.public_id (peek data 29)
            (peek data 28)) q).length = 34
        ∧ (personalise env (player_ch_priv_changed_template env pl t.public_id (peek data 29)
            (peek data 28)) q).take 4 = le16 env.PKT_TYPE_CTL ++ le16 env.CTL_CHANGE_PL_CHPRIV
        ∧ (personalise env (player_ch_priv_changed_template env pl t.public_id (peek data 29)
            (peek data 28)) q).drop 24
            = le32 t.public_id ++ [peek data 28, peek data 29] ++ le32 pl := by
  have hlay := player_ch_priv_changed_template_layout env pl t.public_id (peek data 29)
    (peek data 28)
  have hlen24 : 24 ≤ (player_ch_priv_changed_template env pl t.public_id (peek data 29)
      (peek data 28)).length := by rw [hlay.1]; decide
  have hpriv2 : env.player_has_privilege w.s pl X (get_channel_by_id w.s t.in_chan) = true := by
    rw [hc]; exact hpriv
  rw [ch_priv_eq env data len pl w t X hX ht, if_pos hpriv2, s_notify_player_ch_priv_changed,
    broadcast_eq env _ _ hlen24]
  have hplayers := ch_priv_state_players w.s t (peek data 28) (shl1 env (peek data 29))
  refine ⟨?_, ?_, ?_, ?_, ?_, ?_⟩
  · by_cases h2 : peek data 28 = 2
    · obtain ⟨g1, g2, g3, _, _⟩ :=
        with_priv_spec (fun x => x ^^^ (x &&& shl1 env (peek data 29))) w.s t c hc
      refine ⟨_, ?_, ?_, ?_, ?_, g3⟩
      · simp only [if_pos h2, player_clr_channel_privilege_eq]; exact g1
      · intro h0; rw [h2] at h0; exact absurd h0 (by decide)
      · intro _; rw [g2]; exact xor_and_self_bit _ _
      · intro i hi; rw [g2]; exact xor_other_bits _ _ i hi
    · by_cases h0 : peek data 28 = 0
      · obtain ⟨g1, g2, g3, _, _⟩ :=
          with_priv_spec (fun x => x ||| shl1 env (peek data 29)) w.s t c hc
        refine ⟨_, ?_, ?_, ?_, ?_, g3⟩
        · simp only [if_neg h2, if_pos h0, player_set_channel_privilege_eq]; exact g1
        · intro _; rw [g2]; exact or_and_self_bit _ _
        · intro h; exact absurd h h2
        · intro i hi; rw [g2]; exact or_other_bits _ _ i hi
      · refine ⟨c, ?_, fun h => absurd h h0, fun h => absurd h h2, fun _ _ => rfl, rfl⟩
        simp only [if_neg h2, if_neg h0]; exact hc
  · intro k hk
    by_cases h2 : peek data 28 = 2
    · simp only [if_pos h2, player_clr_channel_privilege_eq]
      exact (with_priv_spec _ w.s t c hc).2.2.2.1 k hk
    · by_cases h0 : peek data 28 = 0
      · simp only [if_neg h2, if_pos h0, player_set_channel_privilege_eq]
        exact (with_priv_spec _ w.s t c hc).2.2.2.1 k hk
      · simp only [if_neg h2, if_neg h0]
        rfl
  · by_cases h2 : peek data 28 = 2
    · simp only [if_pos h2, player_clr_channel_privilege_eq]
      exact (with_priv_spec _ w.s t c hc).2.2.2.2
    · by_cases h0 : peek data 28 = 0
      · simp only [if_neg h2, if_pos h0, player_set_channel_privilege_eq]
        exact (with_priv_spec _ w.s t c hc).2.2.2.2
      · simp only [if_neg h2, if_neg h0]
  · simp only [hplayers]
    exact map_forget_counter_bump _
  · simp only [hplayers]
  · intro q
    have hl := personalise_layout env _ q hlen24
    refine ⟨by rw [hl.1, hlay.1], by rw [hl.2.1, hlay.2.1], ?_⟩
    rw [hl.2.2.2, hlay.2.2]
    simp [peek]

/-- The hypotheses of C11 hold on the server of the examples: the admin grants
Bob (2), who sits in channel 1, the right OP (offset 1), and Bob's rights in
channel 1 then have the bit 2 set. -/
theorem c_req_change_player_ch_priv_applied_witness :
    ch_priv_required (sampleEnv admin_only true)
        (shl1 (sampleEnv admin_only true) (peek (sample_request 42 (le32 2 ++ [0, 1])) 29))
        (peek (sample_request 42 (le32 2 ++ [0, 1])) 28) = some privilege.SP_PL_GRANT_OP
    ∧ get_player_by_public_id sampleWorld.s (rd32 (sample_request 42 (le32 2 ++ [0, 1])) 24)
        = some (sample_player 2 1002 3 1)
    ∧ get_channel_by_id sampleWorld.s (sample_player 2 1002 3 1).in_chan
        = some (sample_channel 1 0 16 0 [] [1, 2] [])
    ∧ ∃ c', get_channel_by_id (c_req_change_player_ch_priv (sampleEnv admin_only true)
          (sample_request 42 (le32 2 ++ [0, 1])) 30 1 sampleWorld).s
          (sample_player 2 1002 3 1).in_chan = some c'
        ∧ player_get_channel_privileges (sample_player 2 1002 3 1) c'
            &&& shl1 (sampleEnv admin_only true)
              (peek (sample_request 42 (le32 2 ++ [0, 1])) 29)
          = shl1 (sampleEnv admin_only true)
              (peek (sample_request 42 (le32 2 ++ [0, 1])) 29) := by
  obtain ⟨c', h1, h2, _⟩ := (c_req_change_player_ch_priv_applied (sampleEnv admin_only true)
    (sample_request 42 (le32 2 ++ [0, 1])) 30 1 sampleWorld (sample_player 2 1002 3 1)
    (sample_channel 1 0 16 0 [] [1, 2] []) privilege.SP_PL_GRANT_OP
    (by decide) (by decide) (by decide) (by decide)).1
  exact ⟨by decide, by decide, by decide, c', h1, h2 (by decide)⟩

/-- C12. Privilege denial is a no-op. When the target of a CHANGE_PL_CHPRIV or
CHANGE_PL_SVPRIV request exists and the privilege engine denies the requester
the op the `switch` asks for in the target's channel, the server state is
unchanged (privilege records, global flags, registration references and
counters with it) and the log grows by the ACK only. -/
theorem change_player_right_denied (env : Env) (data : Bytes) (len pl : Nat) (w : World)
    (t : player)
    (ht : get_player_by_public_id w.s (rd32 data 24) = some t) :
    (∀ X, ch_priv_required env (shl1 env (peek data 29)) (peek data 28) = some X →
        env.player_has_privilege w.s pl X (get_channel_by_id w.s t.in_chan) = false →
        (c_req_change_player_ch_priv env data len pl w).s = w.s
        ∧ (c_req_change_player_ch_priv env data len pl w).log = w.log ++ [Event.ack pl])
    ∧ (∀ X, sv_priv_required env (shl1 env (peek data 29)) (peek data 28) = some X →
        env.player_has_privilege w.s pl X (get_channel_by_id w.s t.in_chan) = false →
        (c_req_change_player_sv_right env data len pl w).s = w.s
        ∧ (c_req_change_player_sv_right env data len pl w).log = w.log ++ [Event.ack pl]) := by
  constructor
  · intro X hX hden
    rw [ch_priv_eq env data len pl w t X hX ht, hden]
    exact ⟨rfl, rfl⟩
  · intro X hX hden
    rw [sv_right_eq env data len pl w t X hX ht, hden]
    exact ⟨rfl, rfl⟩

/-- The hypothesis of C12 holds on the server of the examples: Bob (2), whom
the engine denies everything, asks to grant Carol (3) the right OP and to
make her server admin; nothing changes. -/
theorem change_player_right_denied_witness :
    get_player_by_public_id sampleWorld.s (rd32 (sample_request 42 (le32 3 ++ [0, 1])) 24)
        = some (sample_player 3 1003 0 2)
    ∧ (c_req_change_player_ch_priv (sampleEnv admin_only true)
        (sample_request 42 (le32 3 ++ [0, 1])) 30 2 sampleWorld).s = sampleWorld.s
    ∧ (c_req_change_player_sv_right (sampleEnv admin_only true)
        (sample_request 42 (le32 3 ++ [0, 1])) 30 2 sampleWorld).log
      = sampleWorld.log ++ [Event.ack 2] :=
  ⟨by decide,
    ((change_player_right_denied (sampleEnv admin_only true)
      (sample_request 42 (le32 3 ++ [0, 1])) 30 2 sampleWorld (sample_player 3 1003 0 2)
      (by decide)).1 privilege.SP_PL_GRANT_OP (by decide) (by decide)).1,
    ((change_player_right_denied (sampleEnv admin_only true)
      (sample_request 42 (le32 3 ++ [0, 1])) 30 2 sampleWorld (sample_player 3 1003 0 2)
      (by decide)).2 privilege.SP_PL_GRANT_ALLOWREG (by decide) (by decide)).2⟩

/-! ## Changing a player's global flags -/

/-- The loops of `c_req_change_player_sv_right` do what the specification
says of the rebinding, for a target bound to the registration `R`. -/
theorem rebind_privileges_eq (t : player) (R : Nat) (hR : t.reg = some R)
    (chans : List channel) :
    rebind_privileges t chans
      = chans.map (fun c =>
          { c with pl_privileges := c.pl_privileges.map (spec_rebind R t.public_id) }) := by
  unfold rebind_privileges
  apply List.map_congr_left
  intro c _
  congr 1
  apply List.map_congr_left
  intro r _
  simp only [spec_rebind, hR, Option.some.injEq]
  by_cases h : r.reg = priv_binding.PL_CH_PRIV_REGISTERED ∧ R = r.pl_or_reg
  · rw [if_pos h, if_pos ⟨h.1, h.2.symm⟩]
  · rw [if_neg h, if_neg (fun h2 => h ⟨h2.1, h2.2.symm⟩)]

/-- After `flags &= (0xFF ^ bit)` on 8-bit flags no bit of `bit` is set. -/
theorem clear_global_flag_bit (x bit : Nat) :
    ((x &&& (0xFF ^^^ bit)) % 256) &&& bit = 0 := by
  apply Nat.eq_of_testBit_eq
  intro i
  have h256 : (256 : Nat) = 2 ^ 8 := by decide
  have h255 : (0xFF : Nat) = 2 ^ 8 - 1 := by decide
  rw [h256, h255]
  simp only [Nat.testBit_and, Nat.testBit_mod_two_pow, Nat.testBit_xor,
    Nat.testBit_two_pow_sub_one, Nat.zero_testBit]
  by_cases hi : i < 8
  · simp [hi]
  · simp [hi]

/-- The body of `c_req_change_player_sv_right` for a revoke of the REGISTERED
flag. -/
theorem sv_right_apply_unregister (env : Env) (w : World) (t : player) :
    sv_right_apply env w t env.GLOBAL_FLAG_REGISTERED 2
      = { s := { chans := rebind_privileges t w.s.chans,
                 players := update_player drop_registration t.public_id
                   (update_player (clear_global_flag env.GLOBAL_FLAG_REGISTERED) t.public_id
                     w.s.players) },
          log := w.log ++ [Event.db (db_call.db_del_registration t.reg)
            (env.db_status
              (with_players w (update_player (clear_global_flag env.GLOBAL_FLAG_REGISTERED)
                t.public_id w.s.players))
              (db_call.db_del_registration t.reg))] } := by
  simp only [sv_right_apply, db_do, if_true]
  rfl

theorem find_map_bump (ps : List player) (k : Nat) :
    (ps.map bump).find? (fun p => p.public_id == k)
      = (ps.find? (fun p => p.public_id == k)).map bump := by
  rw [List.find?_map]
  rfl

theorem player_sv_right_changed_template_layout (env : Env) (pl tgt right on_off : Nat) :
    (player_sv_right_changed_template env (some pl) tgt right on_off).length = 34
    ∧ (player_sv_right_changed_template env (some pl) tgt right on_off).take 4
        = le16 env.PKT_TYPE_CTL ++ le16 env.CTL_CHANGE_PL_SVPRIV
    ∧ (player_sv_right_changed_template env (some pl) tgt right on_off).drop 24
        = le32 tgt ++ [on_off % 256, right % 256] ++ le32 pl := by
  simp [player_sv_right_changed_template, calloc, poke, le16, le32]

/-- The packets of a broadcast do not depend on the global flags or the
registration of a recipient. -/
theorem sends_after_unregister (env : Env) (data : Bytes) (bit id : Nat) (ps : List player) :
    (update_player drop_registration id (update_player (clear_global_flag bit) id ps)).map
        (fun q => Event.send q.public_id (personalise env data q))
      = ps.map (fun q => Event.send q.public_id (personalise env data q)) := by
  rw [update_player, map_update_first (fun p : player => p.public_id) drop_registration
      (fun q => Event.send q.public_id (personalise env data q)) (fun _ => rfl),
    update_player, map_update_first (fun p : player => p.public_id) (clear_global_flag bit)
      (fun q => Event.send q.public_id (personalise env data q)) (fun _ => rfl)]

/-- C13. Loss of Registered status. Let an accepted CHANGE_PL_SVPRIV request
revoke (`on_off = 2`) the REGISTERED flag of a target `t` bound to the
registration `R`.  After `c_req_change_player_sv_right` the privilege records
of every channel are those of before with every record bound to `R` bound to
the live player `t` (discriminant UNREGISTERED, same bits) and every other
record unchanged; nothing else changes in any channel; no record bound to `R`
remains; the target's registration reference is empty and its REGISTERED bit
is cleared; the log has grown by the ACK, the call of `db_del_registration`
for `R` and the notification to every connected player. -/
theorem c_req_change_player_sv_right_unregister (env : Env) (data : Bytes) (len pl : Nat)
    (w : World) (t : player) (R : Nat) (X : privilege)
    (hop : peek data 28 = 2)
    (hbit : shl1 env (peek data 29) = env.GLOBAL_FLAG_REGISTERED)
    (hX : sv_priv_required env (shl1 env (peek data 29)) (peek data 28) = some X)
    (ht : get_player_by_public_id w.s (rd32 data 24) = some t)
    (hR : t.reg = some R)
    (hpriv : env.player_has_privilege w.s pl X (get_channel_by_id w.s t.in_chan) = true) :
    (c_req_change_player_sv_right env data len pl w).s.chans.map (fun c => c.pl_privileges)
        = w.s.chans.map (fun c => c.pl_privileges.map (spec_rebind R t.public_id))
    ∧ (c_req_change_player_sv_right env data len pl w).s.chans.map forget_privileges
        = w.s.chans.map forget_privileges
    ∧ (∀ c ∈ (c_req_change_player_sv_right env data len pl w).s.chans,
        ∀ r ∈ c.pl_privileges,
          ¬(r.reg = priv_binding.PL_CH_PRIV_REGISTERED ∧ r.pl_or_reg = R))
    ∧ (∃ t', get_player_by_public_id (c_req_change_player_sv_right env data len pl w).s
          t.public_id = some t'
        ∧ t'.reg = none
        ∧ t'.global_flags &&& env.GLOBAL_FLAG_REGISTERED = 0)
    ∧ ∃ ok, (c_req_change_player_sv_right env data len pl w).log
        = w.log ++ [Event.ack pl, Event.db (db_call.db_del_registration (some R)) ok]
          ++ w.s.players.map (fun q => Event.send q.public_id (personalise env
              (player_sv_right_changed_template env (some pl) t.public_id (peek data 29)
                (peek data 28)) q)) := by
  have hlen24 : 24 ≤ (player_sv_right_changed_template env (some pl) t.public_id (peek data 29)
      (peek data 28)).length := by
    rw [player_sv_right_changed_template_length]; decide
  have hid := get_player_by_public_id_id w.s _ t ht
  have ht2 : w.s.players.find? (fun p => p.public_id == t.public_id) = some t := by
    rw [hid]; exact ht
  rw [sv_right_eq env data len pl w t X hX ht, if_pos hpriv, hbit, hop,
    sv_right_apply_unregister, s_notify_player_sv_right_changed, broadcast_eq env _ _ (by
      rw [← hop]; exact hlen24)]
  have hchans := rebind_privileges_eq t R hR w.s.chans
  refine ⟨?_, ?_, ?_, ?_, ?_⟩
  · show (rebind_privileges t w.s.chans).map (fun c => c.pl_privileges) = _
    rw [hchans, List.map_map]
    rfl
  · show (rebind_privileges t w.s.chans).map forget_privileges = _
    rw [hchans, List.map_map]
    rfl
  · show ∀ c ∈ rebind_privileges t w.s.chans, _
    rw [hchans]
    intro c hcmem r hr hbound
    obtain ⟨c0, _, rfl⟩ := List.mem_map.mp hcmem
    obtain ⟨r0, _, rfl⟩ := List.mem_map.mp hr
    unfold spec_rebind at hbound
    by_cases h : r0.reg = priv_binding.PL_CH_PRIV_REGISTERED ∧ r0.pl_or_reg = R
    · rw [if_pos h] at hbound
      exact priv_binding.noConfusion hbound.1
    · rw [if_neg h] at hbound
      exact h hbound
  · refine ⟨bump (drop_registration (clear_global_flag env.GLOBAL_FLAG_REGISTERED t)), ?_, rfl,
      clear_global_flag_bit _ _⟩
    show ((update_player drop_registration t.public_id
        (update_player (clear_global_flag env.GLOBAL_FLAG_REGISTERED) t.public_id
          w.s.players)).map bump).find? (fun p => p.public_id == t.public_id) = _
    rw [find_map_bump, update_player,
      find_update_first_same (fun p : player => p.public_id) drop_registration (fun _ => rfl),
      update_player,
      find_update_first_same (fun p : player => p.public_id)
        (clear_global_flag env.GLOBAL_FLAG_REGISTERED) (fun _ => rfl), ht2]
    rfl
  · refine ⟨env.db_status (with_players (send_acknowledge w pl)
        (update_player (clear_global_flag env.GLOBAL_FLAG_REGISTERED) t.public_id
          (send_acknowledge w pl).s.players)) (db_call.db_del_registration t.reg), ?_⟩
    simp only [sends_after_unregister, hR]
    simp [send_acknowledge]

/-- The hypotheses of C13 hold on the second server of the examples: the admin
revokes the REGISTERED flag (offset 2) of Dave (4), bound to registration 77;
the two records bound to 77 are bound to the live player 4, the record of
registration 88 and that of player 2 stay. -/
theorem c_req_change_player_sv_right_unregister_witness :
    peek (sample_request 42 (le32 4 ++ [2, 2])) 28 = 2
    ∧ shl1 (sampleEnv admin_only true) (peek (sample_request 42 (le32 4 ++ [2, 2])) 29)
        = (sampleEnv admin_only true).GLOBAL_FLAG_REGISTERED
    ∧ sv_priv_required (sampleEnv admin_only true)
        (shl1 (sampleEnv admin_only true) (peek (sample_request 42 (le32 4 ++ [2, 2])) 29))
        (peek (sample_request 42 (le32 4 ++ [2, 2])) 28)
        = some privilege.SP_PL_DEL_REGISTRATION
    ∧ get_player_by_public_id sampleWorldReg.s (rd32 (sample_request 42 (le32 4 ++ [2, 2])) 24)
        = some sample_dave
    ∧ sample_dave.reg = some 77
    ∧ (c_req_change_player_sv_right (sampleEnv admin_only true)
        (sample_request 42 (le32 4 ++ [2, 2])) 30 1 sampleWorldReg).s.chans.map
          (fun c => c.pl_privileges)
      = [[{ reg := priv_binding.PL_CH_PRIV_UNREGISTERED, pl_or_reg := 4, flags := 2 },
          { reg := priv_binding.PL_CH_PRIV_UNREGISTERED, pl_or_reg := 2, flags := 4 },
          { reg := priv_binding.PL_CH_PRIV_REGISTERED, pl_or_reg := 88, flags := 1 }],
         [{ reg := priv_binding.PL_CH_PRIV_UNREGISTERED, pl_or_reg := 4, flags := 8 }]] :=
  ⟨by decide, by decide, by decide, by decide, by decide,
    (c_req_change_player_sv_right_unregister (sampleEnv admin_only true)
      (sample_request 42 (le32 4 ++ [2, 2])) 30 1 sampleWorldReg sample_dave 77
      privilege.SP_PL_DEL_REGISTRATION (by decide) (by decide) (by decide) (by decide)
      (by decide) (by decide)).1.trans (by decide)⟩

/-! ## Creating a channel: privileges and parent -/

theorem create_first_check (c : Prop) [Decidable c] (has : privilege → Bool)
    (U R : privilege) :
    (if c then (if has U then 0 else 1) else (if has R then 0 else 1)) = 0
      ↔ ∀ X ∈ [if c then U else R], has X = true := by
  by_cases h : c <;> cases hU : has U <;> cases hR : has R <;> simp [h, hU, hR]

theorem create_flag_check (c : Prop) [Decidable c] (has : privilege → Bool) (D : privilege) :
    (if c ∧ has D = false then 1 else 0) = 0
      ↔ ∀ X ∈ (if c then [D] else []), has X = true := by
  by_cases h : c <;> cases hD : has D <;> simp [h, hD]

/-- The count of missing privileges is zero exactly when the creator holds
every privilege the specification asks for. -/
theorem create_priv_nok_eq_zero_iff (env : Env) (s : server) (pl : Nat) (flags : Nat) :
    create_priv_nok env s pl flags = 0
      ↔ ∀ X ∈ spec_create_required env flags, env.player_has_privilege s pl X none = true := by
  unfold create_priv_nok spec_create_required
  simp only [Nat.add_eq_zero_iff, List.forall_mem_append]
  rw [create_first_check _ (fun X => env.player_has_privilege s pl X none),
    create_flag_check _ (fun X => env.player_has_privilege s pl X none),
    create_flag_check _ (fun X => env.player_has_privilege s pl X none),
    create_flag_check _ (fun X => env.player_has_privilege s pl X none)]

theorem add_channel_chans (env : Env) (w : World) (ch : channel) :
    (add_channel env w ch).s.chans = w.s.chans ++ [stored_channel env w ch] := rfl

theorem channel_add_subchannel_forget (w : World) (parent child : Nat) :
    (channel_add_subchannel w parent child).s.chans.map forget_subchannels
      = w.s.chans.map forget_subchannels :=
  map_update_first (fun c : channel => c.id)
    (fun c => { c with subchannels := c.subchannels ++ [child] }) forget_subchannels
    (fun _ => rfl) parent w.s.chans

/-- Whatever path the accepted creation takes, the collection afterwards is the
old one with the stored channel added, up to child sets. -/
theorem create_channel_accepted_chans (env : Env) (w : World) (ch : channel) (pl : Nat) :
    (world_of (create_channel_accepted env w ch pl)).s.chans.map forget_subchannels
      = (w.s.chans ++ [stored_channel env w ch]).map forget_subchannels := by
  have h0 : (add_channel env w ch).s.chans.map forget_subchannels
      = (w.s.chans ++ [stored_channel env w ch]).map forget_subchannels := by
    rw [add_channel_chans]
  unfold create_channel_accepted
  simp only []
  split
  · rename_i e hstep
    split at hstep
    · split at hstep
      · cases hstep; exact h0
      · split at hstep <;> exact Except.noConfusion hstep
    · exact Except.noConfusion hstep
  · rename_i w2 hstep
    have hw2 : w2.s.chans.map forget_subchannels
        = (w.s.chans ++ [stored_channel env w ch]).map forget_subchannels := by
      split at hstep
      · split at hstep
        · exact Except.noConfusion hstep
        · split at hstep
          · cases hstep
            exact (channel_add_subchannel_forget _ _ _).trans h0
          · cases hstep
            exact (channel_add_subchannel_forget _ _ _).trans h0
      · cases hstep; exact h0
    simp only [world_of, s_notify_channel_created, broadcast]
    split
    · exact hw2
    · exact hw2

/-- `c_req_create_channel` once the descriptor is read and the password
copied. -/
theorem create_eq (env : Env) (data : Bytes) (len pl : Nat) (w : World) (ch0 : channel)
    (n : Nat) (pw : Bytes)
    (hcodec : env.channel_from_data (data.drop 24) ((len : Int) - 24) = (ch0, n))
    (hcopy : strncpy_checked ch0.password (data.drop (24 + n))
      (create_password_count env len (24 + n)) = some pw) :
    c_req_create_channel env data len pl w
      = if create_priv_nok env w.s pl ch0.flags = 0 then
          create_channel_accepted env (send_acknowledge w pl) { ch0 with password := pw } pl
        else Except.ok (send_acknowledge w pl) := by
  have hs : (send_acknowledge w pl).s = w.s := rfl
  simp only [c_req_create_channel, hcodec, hcopy, hs]

/-- The privilege check of CREATE_CH where the password copy is defined: for a
request whose descriptor the codec reads as `ch0` and whose password copy
stays inside the field.  When the
requester holds every privilege the specification lists for the flags of
`ch0`, the channel collection afterwards is the old one with the stored
channel added (up to child sets, which attaching to a parent changes).  When
one of them is missing, the handler returns with the server state unchanged
(collection and counters) and the log grown by the ACK only: no call of the
store, no notification. -/
theorem c_req_create_channel_privileges (env : Env) (data : Bytes) (len pl : Nat) (w : World)
    (ch0 : channel) (n : Nat) (pw : Bytes)
    (hcodec : env.channel_from_data (data.drop 24) ((len : Int) - 24) = (ch0, n))
    (hcopy : strncpy_checked ch0.password (data.drop (24 + n))
      (create_password_count env len (24 + n)) = some pw) :
    ((∀ X ∈ spec_create_required env ch0.flags,
          env.player_has_privilege w.s pl X none = true) →
        (world_of (c_req_create_channel env data len pl w)).s.chans.map forget_subchannels
          = (w.s.chans ++ [stored_channel env w { ch0 with password := pw }]).map
              forget_subchannels)
    ∧ (¬(∀ X ∈ spec_create_required env ch0.flags,
          env.player_has_privilege w.s pl X none = true) →
        c_req_create_channel env data len pl w
          = Except.ok { s := w.s, log := w.log ++ [Event.ack pl] }) := by
  rw [create_eq env data len pl w ch0 n pw hcodec hcopy,
    ← create_priv_nok_eq_zero_iff env w.s pl ch0.flags]
  constructor
  · intro h
    rw [if_pos h]
    exact create_channel_accepted_chans env (send_acknowledge w pl) _ pl
  · intro h
    rw [if_neg h]
    rfl

/-- On the server of the examples Bob (2), whom the engine denies everything,
asks to create a channel; only the ACK is sent. -/
theorem c_req_create_channel_privileges_witness :
    (sampleEnv admin_only true).channel_from_data
        ((sample_request 42 (le32 0 ++ le16 5 ++ le32 0 ++ [97, 0])).drop 24) ((36 : Nat) - 24)
      = (sample_channel 0 0 5 0 [] [] [], 10)
    ∧ strncpy_checked (sample_channel 0 0 5 0 [] [] []).password
        ((sample_request 42 (le32 0 ++ le16 5 ++ le32 0 ++ [97, 0])).drop (24 + 10))
        (create_password_count (sampleEnv admin_only true) 36 (24 + 10))
      = some (97 :: List.replicate 29 0)
    ∧ c_req_create_channel (sampleEnv admin_only true)
        (sample_request 42 (le32 0 ++ le16 5 ++ le32 0 ++ [97, 0])) 36 2 sampleWorld
      = Except.ok { s := sampleWorld.s, log := sampleWorld.log ++ [Event.ack 2] } :=
  ⟨by decide, by decide,
    (c_req_create_channel_privileges (sampleEnv admin_only true)
      (sample_request 42 (le32 0 ++ le16 5 ++ le32 0 ++ [97, 0])) 36 2 sampleWorld
      (sample_channel 0 0 5 0 [] [] []) 10 (97 :: List.replicate 29 0)
      (by decide) (by decide)).2 (by decide)⟩

theorem update_first_append_of_find {α : Type} (key : α → Nat) (f : α → α) (id : Nat)
    (xs ys : List α) (x : α) (h : xs.find? (fun a => key a == id) = some x) :
    update_first key f id (xs ++ ys) = update_first key f id xs ++ ys := by
  induction xs with
  | nil => simp at h
  | cons a xs ih =>
    by_cases ha : key a = id
    · simp [update_first, ha]
    · have ha2 : (key a == id) = false := by simpa using ha
      rw [List.find?_cons] at h
      simp only [ha2] at h
      rw [List.cons_append, update_first, if_neg ha, update_first, if_neg ha, List.cons_append,
        ih h]

theorem get_channel_by_id_append (s : server) (extra : List channel) (id : Nat) (c : channel)
    (h : get_channel_by_id s id = some c) :
    get_channel_by_id { s with chans := s.chans ++ extra } id = some c := by
  have h2 : s.chans.find? (fun c => c.id == id) = some c := h
  simp [get_channel_by_id, List.find?_append, h2]

/-- The accepted creation of a channel whose parent id names a channel of the
collection: the stored channel joins the parent's child set,
`db_register_channel` is called for it when the parent lacks the UNREGISTERED
flag and once more when its own flags lack it, and the creation is
announced. -/
theorem create_channel_accepted_parent (env : Env) (w : World) (ch : channel) (pl : Nat)
    (parent : channel)
    (hpid : ch.parent_id ≠ 0)
    (hparent : get_channel_by_id w.s ch.parent_id = some parent) :
    ∃ w', create_channel_accepted env w ch pl = Except.ok w'
      ∧ w'.s.chans
          = update_channel (with_child (stored_channel env w ch).id) parent.id w.s.chans
            ++ [stored_channel env w ch]
      ∧ w'.s.players = w.s.players.map bump
      ∧ ∃ st1 st2, w'.log = w.log
          ++ (if parent.flags &&& env.CHANNEL_FLAG_UNREGISTERED = 0 then
                [Event.db (db_call.db_register_channel (stored_channel env w ch)) st1]
              else [])
          ++ (if ch.flags &&& env.CHANNEL_FLAG_UNREGISTERED = 0 then
                [Event.db (db_call.db_register_channel (stored_channel env w ch)) st2]
              else [])
          ++ w.s.players.map (fun q => Event.send q.public_id (personalise env
              (channel_created_template env (stored_channel env w ch) pl) q)) := by
  have e1 : ((add_channel env w ch).s.chans.getLast?).getD ch = stored_channel env w ch := by
    simp [add_channel_chans]
  have e2 : get_channel_by_id (add_channel env w ch).s (stored_channel env w ch).parent_id
      = some parent := get_channel_by_id_append w.s _ _ parent hparent
  have hpid2 : (stored_channel env w ch).parent_id ≠ 0 := hpid
  have hpfind : w.s.chans.find? (fun c => c.id == parent.id) = some parent := by
    have := get_channel_by_id_id w.s _ parent hparent
    rw [this]; exact hparent
  have e3 : (channel_add_subchannel (add_channel env w ch) parent.id
      (stored_channel env w ch).id).s.chans
      = update_channel (with_child (stored_channel env w ch).id) parent.id w.s.chans
            ++ [stored_channel env w ch] := by
    show update_first (fun c : channel => c.id) (with_child (stored_channel env w ch).id)
        parent.id (w.s.chans ++ [stored_channel env w ch])
      = update_first (fun c : channel => c.id) (with_child (stored_channel env w ch).id)
        parent.id w.s.chans ++ [stored_channel env w ch]
    exact update_first_append_of_find (fun c : channel => c.id) _ parent.id w.s.chans _ parent
      hpfind
  have e4 : ((channel_add_subchannel (add_channel env w ch) parent.id
      (stored_channel env w ch).id).s.chans.getLast?).getD (stored_channel env w ch)
      = stored_channel env w ch := by
    rw [e3]; simp
  have hlen : 24 ≤ (channel_created_template env (stored_channel env w ch) pl).length := by
    simp [channel_created_template, calloc, poke, le16, le32]
    omega
  have hdb : ∀ (v : World) (call : db_call), (db_do env v call).s = v.s := fun _ _ => rfl
  have hflags : (stored_channel env w ch).flags = ch.flags := rfl
  unfold create_channel_accepted
  simp only [e1, hpid2, ne_eq, not_false_eq_true, if_true, e2, e4]
  by_cases hp : parent.flags &&& env.CHANNEL_FLAG_UNREGISTERED = 0
  · by_cases hc : ch.flags &&& env.CHANNEL_FLAG_UNREGISTERED = 0
    · simp only [hp, if_true, hdb, e4, hflags, hc, s_notify_channel_created]
      rw [broadcast_eq env _ _ hlen]
      exact ⟨_, rfl, by simp only [hdb, e3], rfl, _, _, rfl⟩
    · simp only [hp, if_true, hdb, e4, hflags, hc, if_false, s_notify_channel_created]
      rw [broadcast_eq env _ _ hlen]
      exact ⟨_, rfl, by simp only [hdb, e3], rfl, _, true, by rw [List.append_nil]; rfl⟩
  · by_cases hc : ch.flags &&& env.CHANNEL_FLAG_UNREGISTERED = 0
    · simp only [hp, if_false, hdb, e4, hflags, hc, if_true, s_notify_channel_created]
      rw [broadcast_eq env _ _ hlen]
      exact ⟨_, rfl, by simp only [hdb, e3], rfl, true, _, by rw [List.append_nil]; rfl⟩
    · simp only [hp, if_false, hdb, e4, hflags, hc, s_notify_channel_created]
      rw [broadcast_eq env _ _ hlen]
      exact ⟨_, rfl, by simp only [e3], rfl, true, true, by
        rw [List.append_nil, List.append_nil]; rfl⟩

/-- The accepted creation of a channel whose parent id names no channel, the
one just stored included: the stored channel stays in the collection and the
code goes on with a NULL parent. -/
theorem create_channel_accepted_missing_parent (env : Env) (w : World) (ch : channel)
    (pl : Nat) (hpid : ch.parent_id ≠ 0)
    (hnone : get_channel_by_id (add_channel env w ch).s ch.parent_id = none) :
    create_channel_accepted env w ch pl = Except.error (add_channel env w ch) := by
  have e1 : ((add_channel env w ch).s.chans.getLast?).getD ch = stored_channel env w ch := by
    simp [add_channel_chans]
  have hpid2 : (stored_channel env w ch).parent_id ≠ 0 := hpid
  have e2 : get_channel_by_id (add_channel env w ch).s (stored_channel env w ch).parent_id
      = none := hnone
  unfold create_channel_accepted
  simp only [e1, hpid2, ne_eq, not_false_eq_true, if_true, e2]

/-- The failing request of C16 evaluated. The admin asks to create a channel
whose parent id 99 names no channel: `c_req_create_channel` has stored the
channel (as channel 7) before it looks the parent up, and then goes on with a
NULL parent; it does not return normally. -/
theorem c_req_create_channel_missing_parent :
    get_channel_by_id sampleWorld.s 99 = none
    ∧ sampleWorld.s.chans.map (fun c => c.id) = [1, 2, 3, 4, 5, 6]
    ∧ returned (c_req_create_channel (sampleEnv admin_only true)
        (sample_request 42 (le32 0 ++ le16 1 ++ le32 99 ++ [0])) 35 1 sampleWorld) = false
    ∧ (world_of (c_req_create_channel (sampleEnv admin_only true)
        (sample_request 42 (le32 0 ++ le16 1 ++ le32 99 ++ [0])) 35 1 sampleWorld)).s.chans.map
          (fun c => (c.id, c.parent_id))
      = [(1, 0), (2, 0), (3, 0), (4, 0), (5, 4), (6, 0), (7, 99)] := by
  decide

/-- C16, as the code has it. For every accepted CREATE_CH request (descriptor
read as `ch0`, password copy inside the field, every required privilege held)
whose non-zero parent id names neither a channel of the collection nor the
channel just stored, `c_req_create_channel` does not return normally: it goes
on with a NULL parent, and the channel collection it leaves is the old one
with the new channel added. -/
theorem create_missing_parent_adds (env : Env) (data : Bytes) (len pl : Nat) (w : World)
    (ch0 : channel) (n : Nat) (pw : Bytes)
    (hcodec : env.channel_from_data (data.drop 24) ((len : Int) - 24) = (ch0, n))
    (hcopy : strncpy_checked ch0.password (data.drop (24 + n))
      (create_password_count env len (24 + n)) = some pw)
    (hpriv : ∀ X ∈ spec_create_required env ch0.flags,
      env.player_has_privilege w.s pl X none = true)
    (hpid : ch0.parent_id ≠ 0)
    (hnone : get_channel_by_id w.s ch0.parent_id = none)
    (hnew : env.add_channel_id w.s { ch0 with password := pw } ≠ ch0.parent_id) :
    returned (c_req_create_channel env data len pl w) = false
    ∧ (world_of (c_req_create_channel env data len pl w)).s.chans
        = w.s.chans ++ [stored_channel env w { ch0 with password := pw }] := by
  have hnok := (create_priv_nok_eq_zero_iff env w.s pl ch0.flags).mpr hpriv
  have hn2 : w.s.chans.find? (fun c => c.id == ch0.parent_id) = none := hnone
  have hlook : get_channel_by_id
      (add_channel env (send_acknowledge w pl) { ch0 with password := pw }).s
      ({ ch0 with password := pw } : channel).parent_id = none := by
    show (w.s.chans ++ [stored_channel env w { ch0 with password := pw }]).find?
      (fun c => c.id == ch0.parent_id) = none
    rw [List.find?_append, hn2]
    have : (stored_channel env w { ch0 with password := pw }).id ≠ ch0.parent_id := hnew
    simp [this]
  have hacc := create_channel_accepted_missing_parent env (send_acknowledge w pl)
    { ch0 with password := pw } pl hpid hlook
  rw [create_eq env data len pl w ch0 n pw hcodec hcopy, if_pos hnok, hacc]
  exact ⟨rfl, rfl⟩

/-- The hypotheses of C16 hold for the admin's request on the server of the
examples whose parent id is 99. -/
theorem create_missing_parent_adds_witness :
    (sampleEnv admin_only true).channel_from_data
        ((sample_request 42 (le32 0 ++ le16 1 ++ le32 99 ++ [0])).drop 24) ((35 : Nat) - 24)
      = (sample_channel 0 99 1 0 [] [] [], 10)
    ∧ strncpy_checked (sample_channel 0 99 1 0 [] [] []).password
        ((sample_request 42 (le32 0 ++ le16 1 ++ le32 99 ++ [0])).drop (24 + 10))
        (create_password_count (sampleEnv admin_only true) 35 (24 + 10))
      = some (List.replicate 30 0)
    ∧ get_channel_by_id sampleWorld.s (sample_channel 0 99 1 0 [] [] []).parent_id = none
    ∧ returned (c_req_create_channel (sampleEnv admin_only true)
        (sample_request 42 (le32 0 ++ le16 1 ++ le32 99 ++ [0])) 35 1 sampleWorld) = false
    ∧ (world_of (c_req_create_channel (sampleEnv admin_only true)
        (sample_request 42 (le32 0 ++ le16 1 ++ le32 99 ++ [0])) 35 1 sampleWorld)).s.chans
      = sampleWorld.s.chans ++ [stored_channel (sampleEnv admin_only true) sampleWorld
          { sample_channel 0 99 1 0 [] [] [] with password := List.replicate 30 0 }] :=
  ⟨by decide, by decide, by decide,
    create_missing_parent_adds (sampleEnv admin_only true)
      (sample_request 42 (le32 0 ++ le16 1 ++ le32 99 ++ [0])) 35 1 sampleWorld
      (sample_channel 0 99 1 0 [] [] []) 10 (List.replicate 30 0)
      (by decide) (by decide) (by decide) (by decide) (by decide) (by decide)⟩

/-! ## Unknown entities -/

theorem player_attr_changed_template_layout (env : Env) (pl new_attr : Nat) :
    (player_attr_changed_template env pl new_attr).length = 30
    ∧ (player_attr_changed_template env pl new_attr).take 4
        = le16 env.PKT_TYPE_CTL ++ le16 env.CTL_CHANGE_PL_STATUS
    ∧ (player_attr_changed_template env pl new_attr).drop 24 = le32 pl ++ le16 new_attr := by
  simp [player_attr_changed_template, calloc, poke, le16, le32]

/-- C18. CHANGE_PL_STATUS targets only the sender. For a request of the
connected player `p`, after `c_req_change_player_attr` the player found under
the requester's id is `p` with the 16-bit value read at bytes 24 and 25 as
attributes (and the counter advanced); the player found under any other id is
the one of before with the counter advanced; no player changes in any field
but attributes and counter; the channels are unchanged; the log grows by the
ACK and one packet per connected player, each 30 bytes long with the
CHANGE_PL_STATUS code and, from byte 24 on, the requester's public id
(4 bytes) and the new attributes (2 bytes). -/
theorem c_req_change_player_attr_spec (env : Env) (data : Bytes) (len pl : Nat) (w : World)
    (p : player)
    (hp : get_player_by_public_id w.s pl = some p) :
    get_player_by_public_id (c_req_change_player_attr env data len pl w).s pl
        = some (bump (set_attributes (rd16 data 24) p))
    ∧ (∀ k, k ≠ pl →
        get_player_by_public_id (c_req_change_player_attr env data len pl w).s k
          = (get_player_by_public_id w.s k).map bump)
    ∧ (c_req_change_player_attr env data len pl w).s.players.map forget_attributes
        = w.s.players.map forget_attributes
    ∧ (c_req_change_player_attr env data len pl w).s.chans = w.s.chans
    ∧ (c_req_change_player_attr env data len pl w).log
        = w.log ++ [Event.ack pl]
          ++ w.s.players.map (fun q => Event.send q.public_id (personalise env
              (player_attr_changed_template env pl (rd16 data 24)) q))
    ∧ ∀ q : player,
        (personalise env (player_attr_changed_template env pl (rd16 data 24)) q).length = 30
        ∧ (personalise env (player_attr_changed_template env pl (rd16 data 24)) q).take 4
            = le16 env.PKT_TYPE_CTL ++ le16 env.CTL_CHANGE_PL_STATUS
        ∧ (personalise env (player_attr_changed_template env pl (rd16 data 24)) q).drop 24
            = le32 p.public_id ++ le16 (rd16 data 24) := by
  have hlay := player_attr_changed_template_layout env pl (rd16 data 24)
  have hlen24 : 24 ≤ (player_attr_changed_template env pl (rd16 data 24)).length := by
    rw [hlay.1]; decide
  have hpid := get_player_by_public_id_id w.s pl p hp
  have hp2 : w.s.players.find? (fun q => q.public_id == pl) = some p := hp
  have hw : c_req_change_player_attr env data len pl w
      = { s := { chans := w.s.chans,
                 players := (update_player (set_attributes (rd16 data 24)) pl w.s.players).map
                   bump },
          log := w.log ++ [Event.ack pl]
            ++ (update_player (set_attributes (rd16 data 24)) pl w.s.players).map
                (fun q => Event.send q.public_id (personalise env
                  (player_attr_changed_template env pl (rd16 data 24)) q)) } := by
    unfold c_req_change_player_attr
    simp only [s_notify_player_attr_changed]
    rw [broadcast_eq env _ _ hlen24]
    rfl
  rw [hw]
  refine ⟨?_, ?_, ?_, rfl, ?_, ?_⟩
  · show ((update_player (set_attributes (rd16 data 24)) pl w.s.players).map bump).find?
      (fun q => q.public_id == pl) = _
    rw [find_map_bump, update_player,
      find_update_first_same (fun q : player => q.public_id) (set_attributes (rd16 data 24))
        (fun _ => rfl), hp2]
    rfl
  · intro k hk
    show ((update_player (set_attributes (rd16 data 24)) pl w.s.players).map bump).find?
      (fun q => q.public_id == k) = _
    rw [find_map_bump, update_player,
      find_update_first_other (fun q : player => q.public_id) (set_attributes (rd16 data 24))
        (fun _ => rfl) pl k hk]
    rfl
  · show ((update_player (set_attributes (rd16 data 24)) pl w.s.players).map bump).map
      forget_attributes = _
    rw [List.map_map, update_player,
      map_update_first (fun q : player => q.public_id) (set_attributes (rd16 data 24))
        (forget_attributes ∘ bump) (fun _ => rfl)]
    apply List.map_congr_left
    intro q _
    rfl
  · show w.log ++ [Event.ack pl]
      ++ (update_player (set_attributes (rd16 data 24)) pl w.s.players).map _ = _
    rw [update_player,
      map_update_first (fun q : player => q.public_id) (set_attributes (rd16 data 24))
        (fun q => Event.send q.public_id (personalise env
          (player_attr_changed_template env pl (rd16 data 24)) q)) (fun _ => rfl)]
  · intro q
    have hl := personalise_layout env _ q hlen24
    refine ⟨by rw [hl.1, hlay.1], by rw [hl.2.1, hlay.2.1], ?_⟩
    rw [hl.2.2.2, hlay.2.2, hpid]

/-- The hypothesis of C18 holds on the server of the examples: Bob (2) sets
his attributes to 0x0105; the admin and Carol keep theirs. -/
theorem c_req_change_player_attr_spec_witness :
    get_player_by_public_id sampleWorld.s 2 = some (sample_player 2 1002 3 1)
    ∧ (c_req_change_player_attr (sampleEnv admin_only true) (sample_request 42 [5, 1]) 26 2
        sampleWorld).s.players.map (fun q => (q.public_id, q.player_attributes))
      = [(1, 0), (2, 261), (3, 0)]
    ∧ get_player_by_public_id (c_req_change_player_attr (sampleEnv admin_only true)
        (sample_request 42 [5, 1]) 26 2 sampleWorld).s 2
      = some (bump (set_attributes (rd16 (sample_request 42 [5, 1]) 24)
          (sample_player 2 1002 3 1))) :=
  ⟨by decide, by decide,
    (c_req_change_player_attr_spec (sampleEnv admin_only true) (sample_request 42 [5, 1]) 26 2
      sampleWorld (sample_player 2 1002 3 1) (by decide)).1⟩

/-! ## The notification loop: recipients and counters -/

theorem channel_created_template_length (env : Env) (ch : channel) (creator : Nat) :
    24 ≤ (channel_created_template env ch creator).length := by
  simp [channel_created_template, calloc, poke, le16, le32]
  omega

theorem broadcast_personalised (env : Env) (w : World) (T : Bytes) (h : 24 ≤ T.length) :
    personalised_for_all env w (broadcast env w T) T := by
  refine ⟨?_, fun p => (personalise_layout env T p h).2.2.1⟩
  rw [broadcast_eq env w T h]

/-- The players a notification loop leaves, whatever the buffer. -/
theorem notify_each_players (env : Env) (ps : List player) :
    ∀ data : Bytes, (notify_each env data ps).1 = ps.map bump := by
  induction ps with
  | nil => intro data; rfl
  | cons p ps ih =>
    intro data
    simp only [notify_each, List.map_cons, ih]

theorem broadcast_counters (env : Env) (w : World) (T : Bytes) :
    counters_advanced w (broadcast env w T) := by
  simp only [counters_advanced, broadcast, notify_each_players]

/-- C19. Broadcast personalisation. Each of the six notification routines
extends the log by exactly one packet per connected player, in the order of
the player list and addressed to that player, and nothing else; the packet for
player P is one template personalised for P, and its bytes 4 to 15 are the
little-endian 32-bit encodings of P's private id, P's public id and the value
P's counter had before the broadcast. -/
theorem broadcast_personalisation (env : Env) (w : World) :
    (∀ pl from_id to_id, ∃ T,
      personalised_for_all env w (s_notify_switch_channel env w pl from_id to_id) T)
    ∧ (∀ pl tgt right on_off, ∃ T,
      personalised_for_all env w (s_notify_player_ch_priv_changed env w pl tgt right on_off) T)
    ∧ (∀ pl tgt right on_off, ∃ T,
      personalised_for_all env w (s_notify_player_sv_right_changed env w pl tgt right on_off) T)
    ∧ (∀ pl new_attr, ∃ T,
      personalised_for_all env w (s_notify_player_attr_changed env w pl new_attr) T)
    ∧ (∀ del_id, ∃ T,
      personalised_for_all env w (s_notify_channel_deleted env w del_id) T)
    ∧ (∀ ch creator, ∃ T,
      personalised_for_all env w (s_notify_channel_created env w ch creator) T) := by
  refine ⟨?_, ?_, ?_, ?_, ?_, ?_⟩
  · intro pl from_id to_id
    exact ⟨_, broadcast_personalised env w _
      (by rw [(switch_channel_template_layout env _ _ _ _).1]; decide)⟩
  · intro pl tgt right on_off
    exact ⟨_, broadcast_personalised env w _
      (by rw [player_ch_priv_changed_template_length]; decide)⟩
  · intro pl tgt right on_off
    exact ⟨_, broadcast_personalised env w _
      (by rw [player_sv_right_changed_template_length]; decide)⟩
  · intro pl new_attr
    exact ⟨_, broadcast_personalised env w _
      (by rw [(player_attr_changed_template_layout env _ _).1]; decide)⟩
  · intro del_id
    exact ⟨_, broadcast_personalised env w _
      (by rw [channel_deleted_template_length]; decide)⟩
  · intro ch creator
    exact ⟨_, broadcast_personalised env w _ (channel_created_template_length env ch creator)⟩

/-- C20, as the specification states it, fails: a player whose counter is
4294967295 receives two successive channel-deleted broadcasts; its counter is
0 after the first, which is not greater than 4294967295, and the two packets
it received carry the counters 4294967295 and 0. -/
theorem broadcast_counter_wraps :
    (with_players sampleWorld [sample_player 1 1001 4294967295 1]).s.players.map
        (fun p => p.f0_s_counter) = [4294967295]
    ∧ (s_notify_channel_deleted (sampleEnv admin_only true)
        (with_players sampleWorld [sample_player 1 1001 4294967295 1]) 5).s.players.map
        (fun p => p.f0_s_counter) = [0]
    ∧ ¬ (4294967295 < 0)
    ∧ sent_counters (s_notify_channel_deleted (sampleEnv admin_only true)
        (s_notify_channel_deleted (sampleEnv admin_only true)
          (with_players sampleWorld [sample_player 1 1001 4294967295 1]) 5) 4).log 1
      = [4294967295, 0] := by
  decide

/-- C20, amended. After a broadcast by any of the six notification routines
the players are the ones of before with the counter incremented modulo 2^32:
the new counter is strictly greater than the old one when the old one is below
4294967295, and it is 0 when the old one is 4294967295. -/
theorem broadcast_counters_advance (env : Env) (w : World) :
    (∀ pl from_id to_id,
      counters_advanced w (s_notify_switch_channel env w pl from_id to_id))
    ∧ (∀ pl tgt right on_off,
      counters_advanced w (s_notify_player_ch_priv_changed env w pl tgt right on_off))
    ∧ (∀ pl tgt right on_off,
      counters_advanced w (s_notify_player_sv_right_changed env w pl tgt right on_off))
    ∧ (∀ pl new_attr, counters_advanced w (s_notify_player_attr_changed env w pl new_attr))
    ∧ (∀ del_id, counters_advanced w (s_notify_channel_deleted env w del_id))
    ∧ (∀ ch creator, counters_advanced w (s_notify_channel_created env w ch creator))
    ∧ ∀ p : player,
        (bump p).f0_s_counter = (p.f0_s_counter + 1) % 4294967296
        ∧ forget_counter (bump p) = forget_counter p
        ∧ (p.f0_s_counter < 4294967295 → p.f0_s_counter < (bump p).f0_s_counter)
        ∧ (p.f0_s_counter = 4294967295 → (bump p).f0_s_counter = 0) := by
  refine ⟨fun _ _ _ => broadcast_counters env w _, fun _ _ _ _ => broadcast_counters env w _,
    fun _ _ _ _ => broadcast_counters env w _, fun _ _ => broadcast_counters env w _,
    fun _ => broadcast_counters env w _, fun _ _ => broadcast_counters env w _, ?_⟩
  intro p
  refine ⟨rfl, rfl, ?_, ?_⟩
  · intro h
    show p.f0_s_counter < (p.f0_s_counter + 1) % 4294967296
    rw [Nat.mod_eq_of_lt (by omega)]
    omega
  · intro h
    show (p.f0_s_counter + 1) % 4294967296 = 0
    rw [h]

/-! ## One event, seen alike by all -/

/-- Two recipients of one template get packets that differ in the ids, the
counter and the checksum only. -/
theorem personalise_same_outside_header (env : Env) (T : Bytes) (p q : player)
    (h : 24 ≤ T.length) :
    same_outside_header (personalise env T p) (personalise env T q) := by
  obtain ⟨a0, a1, a2, a3, b0, b1, b2, b3, c0, c1, c2, c3, d0, d1, d2, d3, e0, e1, e2, e3,
    f0, f1, f2, f3, rest, rfl⟩ := header_split T h
  simp [same_outside_header, personalise, packet_add_crc_d, poke, le32]

theorem broadcast_identical_to_all (env : Env) (w : World) (T : Bytes) (h : 24 ≤ T.length) :
    identical_to_all w (broadcast env w T) := by
  refine ⟨w.s.players.map (fun p => Event.send p.public_id (personalise env T p)), ?_, ?_, ?_⟩
  · rw [broadcast_eq env w T h]
  · intro e he
    obtain ⟨p, _, rfl⟩ := List.mem_map.mp he
    exact ⟨_, _, rfl⟩
  · intro k1 d1 k2 d2 h1 h2
    obtain ⟨p, _, hp⟩ := List.mem_map.mp h1
    obtain ⟨q, _, hq⟩ := List.mem_map.mp h2
    cases hp
    cases hq
    exact personalise_same_outside_header env T p q h

/-- C21. A single logical event appears identically to all. For each of the
six notification routines, every server state and every argument, the log
grows by packets only, and any two packets of the broadcast have the same
length and the same bytes at offsets 0 to 3 (class and command code), 16 to 19
and from 24 on (the payload): they differ at most in the offsets 4 to 15 and
20 to 23. -/
theorem broadcast_same_event (env : Env) (w : World) :
    (∀ pl from_id to_id,
      identical_to_all w (s_notify_switch_channel env w pl from_id to_id))
    ∧ (∀ pl tgt right on_off,
      identical_to_all w (s_notify_player_ch_priv_changed env w pl tgt right on_off))
    ∧ (∀ pl tgt right on_off,
      identical_to_all w (s_notify_player_sv_right_changed env w pl tgt right on_off))
    ∧ (∀ pl new_attr, identical_to_all w (s_notify_player_attr_changed env w pl new_attr))
    ∧ (∀ del_id, identical_to_all w (s_notify_channel_deleted env w del_id))
    ∧ (∀ ch creator, identical_to_all w (s_notify_channel_created env w ch creator)) := by
  refine ⟨?_, ?_, ?_, ?_, ?_, ?_⟩
  · intro pl from_id to_id
    exact broadcast_identical_to_all env w _
      (by rw [(switch_channel_template_layout env _ _ _ _).1]; decide)
  · intro pl tgt right on_off
    exact broadcast_identical_to_all env w _
      (by rw [player_ch_priv_changed_template_length]; decide)
  · intro pl tgt right on_off
    exact broadcast_identical_to_all env w _
      (by rw [player_sv_right_changed_template_length]; decide)
  · intro pl new_attr
    exact broadcast_identical_to_all env w _
      (by rw [(player_attr_changed_template_layout env _ _).1]; decide)
  · intro del_id
    exact broadcast_identical_to_all env w _
      (by rw [channel_deleted_template_length]; decide)
  · intro ch creator
    exact broadcast_identical_to_all env w _ (channel_created_template_length env ch creator)

/-! ## The layout of the channel-deleted notification -/

/-- C22. The CHANDELETE notification. For every id `d` the buffer
`s_notify_channel_deleted` builds is 30 bytes long; after the 32-bit store of
`d` at offset 24 and the 32-bit store of 1 at offset 26, the bytes 24 and 25
are the low 16 bits of `d`, low byte first, and the bytes 26 to 29 encode 1;
the buffer is the one built for `d mod 2^16`, so two ids that agree modulo
2^16 give the same buffer; and every packet of the broadcast carries these six
bytes from offset 24 on. -/
theorem channel_deleted_template_layout (env : Env) (d : Nat) :
    (channel_deleted_template env d).length = 30
    ∧ (channel_deleted_template env d).take 4 = le16 env.PKT_TYPE_CTL ++ le16 env.CTL_CHANDELETE
    ∧ (channel_deleted_template env d).drop 24 = [d % 256, d / 256 % 256, 1, 0, 0, 0]
    ∧ (channel_deleted_template env d).drop 24 = le16 (d % 65536) ++ le32 1
    ∧ channel_deleted_template env d = channel_deleted_template env (d % 65536)
    ∧ (∀ d2, d % 65536 = d2 % 65536 →
        channel_deleted_template env d = channel_deleted_template env d2)
    ∧ ∀ p : player, (personalise env (channel_deleted_template env d) p).drop 24
        = [d % 256, d / 256 % 256, 1, 0, 0, 0] := by
  have h1 : d % 65536 % 256 = d % 256 := by omega
  have h2 : d % 65536 / 256 % 256 = d / 256 % 256 := by omega
  have hT : ∀ x, channel_deleted_template env x
      = le16 env.PKT_TYPE_CTL ++ le16 env.CTL_CHANDELETE ++ List.replicate 20 0
        ++ [x % 256, x / 256 % 256, 1, 0, 0, 0] := by
    intro x
    simp [channel_deleted_template, calloc, poke, le16, le32, List.replicate]
  have hmod : channel_deleted_template env d = channel_deleted_template env (d % 65536) := by
    rw [hT d, hT (d % 65536), h1, h2]
  have hdrop : (channel_deleted_template env d).drop 24 = [d % 256, d / 256 % 256, 1, 0, 0, 0] := by
    rw [hT d]
    simp [le16, List.replicate]
  refine ⟨channel_deleted_template_length env d, ?_, hdrop, ?_, hmod, ?_, ?_⟩
  · rw [hT d]
    simp [le16]
  · rw [hdrop]
    simp [le16, le32, h1, h2]
  · intro d2 hd
    have hmod2 : channel_deleted_template env d2 = channel_deleted_template env (d2 % 65536) := by
      have g1 : d2 % 65536 % 256 = d2 % 256 := by omega
      have g2 : d2 % 65536 / 256 % 256 = d2 / 256 % 256 := by omega
      rw [hT d2, hT (d2 % 65536), g1, g2]
    rw [hmod, hmod2, hd]
  · intro p
    rw [(personalise_layout env _ p (by rw [channel_deleted_template_length]; decide)).2.2.2,
      hdrop]

/-! ## How often a created channel is registered -/

theorem channel_created_template_layout (env : Env) (ch : channel) (creator : Nat) :
    (channel_created_template env ch creator).take 4
        = le16 env.PKT_TYPE_CTL ++ le16 env.CTL_CREATE_CH
    ∧ (channel_created_template env ch creator).drop 24
        = le32 creator ++ env.channel_to_data ch := by
  have hrep : ∀ n : Nat, List.replicate (24 + 4 + n) (0 : Nat)
      = [0, 0, 0, 0] ++ List.replicate 20 0 ++ [0, 0, 0, 0] ++ List.replicate n 0 := by
    intro n
    rw [show 24 + 4 + n = 4 + (20 + (4 + n)) by omega, List.replicate_add, List.replicate_add,
      List.replicate_add]
    simp [List.replicate]
  simp [channel_created_template, calloc, hrep, poke, le16, le32]
  omega

theorem register_calls_sends (f : player → Bytes) (ps : List player) :
    register_calls (ps.map (fun q => Event.send q.public_id (f q))) = 0 := by
  induction ps with
  | nil => rfl
  | cons p ps ih =>
    simp only [register_calls] at ih
    simp [register_calls, is_register, ih]

/-- The accepted creation of a root channel: `db_register_channel` is called
for the stored channel when its flags lack UNREGISTERED, and the creation is
announced. -/
theorem create_channel_accepted_root_log (env : Env) (w : World) (ch : channel) (pl : Nat)
    (hroot : ch.parent_id = 0) :
    ∃ w1 st, create_channel_accepted env w ch pl = Except.ok w1
      ∧ w1.log = w.log
          ++ (if ch.flags &&& env.CHANNEL_FLAG_UNREGISTERED = 0 then
                [Event.db (db_call.db_register_channel (stored_channel env w ch)) st]
              else [])
          ++ w.s.players.map (fun q => Event.send q.public_id (personalise env
              (channel_created_template env (stored_channel env w ch) pl) q)) := by
  rw [create_channel_accepted_root env w ch pl hroot]
  by_cases hown : ch.flags &&& env.CHANNEL_FLAG_UNREGISTERED = 0
  · refine ⟨_, env.db_status (add_channel env w ch)
      (db_call.db_register_channel (stored_channel env w ch)), rfl, ?_⟩
    rw [if_pos hown, if_pos hown]
    unfold s_notify_channel_created
    rw [broadcast_eq env _ _ (channel_created_template_length env _ pl)]
    simp [db_do, add_channel, stored_channel]
  · refine ⟨_, true, rfl, ?_⟩
    rw [if_neg hown, if_neg hown]
    unfold s_notify_channel_created
    rw [broadcast_eq env _ _ (channel_created_template_length env _ pl)]
    simp [add_channel, stored_channel]

/-- C23, as the code has it. Let a CREATE_CH request be accepted (descriptor
read as `ch0`, password copy inside the field, every required privilege held).
For a root channel `c_req_create_channel` returns after one call of
`db_register_channel` when the channel's flags lack UNREGISTERED and none
otherwise.  For a channel whose parent id names the channel `parent` it
returns after one call when the parent lacks UNREGISTERED plus one call when
the channel's own flags lack it: two calls for a registered channel under a
registered parent.  In both cases the log ends with one packet per connected
player, carrying the CREATE_CH code and, from byte 24 on, the creator's public
id and the descriptor of the stored channel. -/
theorem c_req_create_channel_register_calls (env : Env) (data : Bytes) (len pl : Nat)
    (w : World) (ch0 : channel) (n : Nat) (pw : Bytes)
    (hcodec : env.channel_from_data (data.drop 24) ((len : Int) - 24) = (ch0, n))
    (hcopy : strncpy_checked ch0.password (data.drop (24 + n))
      (create_password_count env len (24 + n)) = some pw)
    (hpriv : ∀ X ∈ spec_create_required env ch0.flags,
      env.player_has_privilege w.s pl X none = true) :
    (ch0.parent_id = 0 →
      ∃ w1 calls, c_req_create_channel env data len pl w = Except.ok w1
        ∧ w1.log = w.log ++ [Event.ack pl] ++ calls
            ++ w.s.players.map (fun q => Event.send q.public_id (personalise env
                (channel_created_template env
                  (stored_channel env w { ch0 with password := pw }) pl) q))
        ∧ (∀ e ∈ calls, ∃ st, e = Event.db (db_call.db_register_channel
            (stored_channel env w { ch0 with password := pw })) st)
        ∧ calls.length = (if ch0.flags &&& env.CHANNEL_FLAG_UNREGISTERED = 0 then 1 else 0)
        ∧ register_calls w1.log = register_calls w.log + calls.length)
    ∧ (∀ parent, ch0.parent_id ≠ 0 → get_channel_by_id w.s ch0.parent_id = some parent →
      ∃ w1 calls, c_req_create_channel env data len pl w = Except.ok w1
        ∧ w1.log = w.log ++ [Event.ack pl] ++ calls
            ++ w.s.players.map (fun q => Event.send q.public_id (personalise env
                (channel_created_template env
                  (stored_channel env w { ch0 with password := pw }) pl) q))
        ∧ (∀ e ∈ calls, ∃ st, e = Event.db (db_call.db_register_channel
            (stored_channel env w { ch0 with password := pw })) st)
        ∧ calls.length = (if parent.flags &&& env.CHANNEL_FLAG_UNREGISTERED = 0 then 1 else 0)
            + (if ch0.flags &&& env.CHANNEL_FLAG_UNREGISTERED = 0 then 1 else 0)
        ∧ register_calls w1.log = register_calls w.log + calls.length)
    ∧ ∀ q : player,
        (personalise env (channel_created_template env
            (stored_channel env w { ch0 with password := pw }) pl) q).take 4
          = le16 env.PKT_TYPE_CTL ++ le16 env.CTL_CREATE_CH
        ∧ (personalise env (channel_created_template env
            (stored_channel env w { ch0 with password := pw }) pl) q).drop 24
          = le32 pl ++ env.channel_to_data (stored_channel env w { ch0 with password := pw }) := by
  have hnok := (create_priv_nok_eq_zero_iff env w.s pl ch0.flags).mpr hpriv
  have hceq := create_eq env data len pl w ch0 n pw hcodec hcopy
  rw [if_pos hnok] at hceq
  have hst : stored_channel env (send_acknowledge w pl) { ch0 with password := pw }
      = stored_channel env w { ch0 with password := pw } := rfl
  have hcount : ∀ calls : List Event,
      (∀ e ∈ calls, ∃ st, e = Event.db (db_call.db_register_channel
        (stored_channel env w { ch0 with password := pw })) st) →
      register_calls (w.log ++ [Event.ack pl] ++ calls
        ++ w.s.players.map (fun q => Event.send q.public_id (personalise env
            (channel_created_template env
              (stored_channel env w { ch0 with password := pw }) pl) q)))
        = register_calls w.log + calls.length := by
    intro calls hc
    have h1 := register_calls_sends (fun q => personalise env
      (channel_created_template env (stored_channel env w { ch0 with password := pw }) pl) q)
      w.s.players
    have h2 : List.countP is_register calls = calls.length := by
      rw [List.countP_eq_length]
      intro e he
      obtain ⟨st, rfl⟩ := hc e he
      rfl
    simp only [register_calls] at h1 ⊢
    rw [List.countP_append, List.countP_append, List.countP_append, h1, h2]
    simp [is_register]
  refine ⟨?_, ?_, ?_⟩
  · intro hroot
    obtain ⟨w1, st, hok, hlog⟩ := create_channel_accepted_root_log env (send_acknowledge w pl)
      { ch0 with password := pw } pl hroot
    rw [hst] at hlog
    have hflags : ({ ch0 with password := pw } : channel).flags = ch0.flags := rfl
    rw [hflags] at hlog
    have hcalls : ∀ e ∈ (if ch0.flags &&& env.CHANNEL_FLAG_UNREGISTERED = 0 then
          [Event.db (db_call.db_register_channel
            (stored_channel env w { ch0 with password := pw })) st]
        else []), ∃ st, e = Event.db (db_call.db_register_channel
          (stored_channel env w { ch0 with password := pw })) st := by
      intro e he
      split at he
      · exact ⟨st, List.mem_singleton.mp he⟩
      · cases he
    have hlog2 : w1.log = w.log ++ [Event.ack pl]
        ++ (if ch0.flags &&& env.CHANNEL_FLAG_UNREGISTERED = 0 then
              [Event.db (db_call.db_register_channel
                (stored_channel env w { ch0 with password := pw })) st]
            else [])
        ++ w.s.players.map (fun q => Event.send q.public_id (personalise env
            (channel_created_template env
              (stored_channel env w { ch0 with password := pw }) pl) q)) := by
      rw [hlog]; rfl
    refine ⟨w1, _, by rw [hceq, hok], hlog2, hcalls, ?_, ?_⟩
    · split <;> rfl
    · rw [hlog2]
      exact hcount _ hcalls
  · intro parent hpid hparent
    obtain ⟨w1, hok, _, _, st1, st2, hlog⟩ := create_channel_accepted_parent env
      (send_acknowledge w pl) { ch0 with password := pw } pl parent hpid hparent
    rw [hst] at hlog
    have hflags : ({ ch0 with password := pw } : channel).flags = ch0.flags := rfl
    rw [hflags] at hlog
    have hcalls : ∀ e ∈ (if parent.flags &&& env.CHANNEL_FLAG_UNREGISTERED = 0 then
          [Event.db (db_call.db_register_channel
            (stored_channel env w { ch0 with password := pw })) st1]
        else [])
        ++ (if ch0.flags &&& env.CHANNEL_FLAG_UNREGISTERED = 0 then
          [Event.db (db_call.db_register_channel
            (stored_channel env w { ch0 with password := pw })) st2]
        else []), ∃ st, e = Event.db (db_call.db_register_channel
          (stored_channel env w { ch0 with password := pw })) st := by
      intro e he
      rcases List.mem_append.mp he with he | he
      · split at he
        · exact ⟨st1, List.mem_singleton.mp he⟩
        · cases he
      · split at he
        · exact ⟨st2, List.mem_singleton.mp he⟩
        · cases he
    have hlog2 : w1.log = w.log ++ [Event.ack pl]
        ++ ((if parent.flags &&& env.CHANNEL_FLAG_UNREGISTERED = 0 then
              [Event.db (db_call.db_register_channel
                (stored_channel env w { ch0 with password := pw })) st1]
            else [])
          ++ (if ch0.flags &&& env.CHANNEL_FLAG_UNREGISTERED = 0 then
              [Event.db (db_call.db_register_channel
                (stored_channel env w { ch0 with password := pw })) st2]
            else []))
        ++ w.s.players.map (fun q => Event.send q.public_id (personalise env
            (channel_created_template env
              (stored_channel env w { ch0 with password := pw }) pl) q)) := by
      rw [hlog]
      simp [send_acknowledge]
    refine ⟨w1, _, by rw [hceq, hok], hlog2, hcalls, ?_, ?_⟩
    · rw [List.length_append]
      split <;> split <;> rfl
    · rw [hlog2]
      exact hcount _ hcalls
  · intro q
    have hT : 24 ≤ (channel_created_template env
        (stored_channel env w { ch0 with password := pw }) pl).length :=
      channel_created_template_length env _ pl
    have hl := personalise_layout env _ q hT
    have hlay := channel_created_template_layout env
      (stored_channel env w { ch0 with password := pw }) pl
    exact ⟨by rw [hl.2.1, hlay.1], by rw [hl.2.2.2, hlay.2]⟩

/-- The hypotheses of C23 hold for the failing request: the admin creates a
channel whose flags lack UNREGISTERED (flags 0) under the registered channel
6; the handler returns and `db_register_channel` has been called twice. -/
theorem c_req_create_channel_register_calls_witness :
    (sampleEnv admin_only true).channel_from_data
        ((sample_request 42 (le32 0 ++ le16 0 ++ le32 6 ++ [0])).drop 24) ((35 : Nat) - 24)
      = (sample_channel 0 6 0 0 [] [] [], 10)
    ∧ strncpy_checked (sample_channel 0 6 0 0 [] [] []).password
        ((sample_request 42 (le32 0 ++ le16 0 ++ le32 6 ++ [0])).drop (24 + 10))
        (create_password_count (sampleEnv admin_only true) 35 (24 + 10))
      = some (List.replicate 30 0)
    ∧ get_channel_by_id sampleWorld.s (sample_channel 0 6 0 0 [] [] []).parent_id
        = some (sample_channel 6 0 0 0 [] [] [])
    ∧ returned (c_req_create_channel (sampleEnv admin_only true)
        (sample_request 42 (le32 0 ++ le16 0 ++ le32 6 ++ [0])) 35 1 sampleWorld) = true
    ∧ register_calls (world_of (c_req_create_channel (sampleEnv admin_only true)
        (sample_request 42 (le32 0 ++ le16 0 ++ le32 6 ++ [0])) 35 1 sampleWorld)).log = 2 := by
  obtain ⟨w1, calls, hok, _, _, hlen, hcnt⟩ :=
    (c_req_create_channel_register_calls (sampleEnv admin_only true)
      (sample_request 42 (le32 0 ++ le16 0 ++ le32 6 ++ [0])) 35 1 sampleWorld
      (sample_channel 0 6 0 0 [] [] []) 10 (List.replicate 30 0)
      (by decide) (by decide) (by decide)).2.1 (sample_channel 6 0 0 0 [] [] [])
      (by decide) (by decide)
  refine ⟨by decide, by decide, by decide, ?_, ?_⟩
  · rw [hok]; rfl
  · rw [hok]
    show register_calls w1.log = 2
    rw [hcnt, hlen]
    decide

/-- The failing request of C23 evaluated: the log of the handler holds the
ACK, two calls of `db_register_channel` for the new channel 7, and the three
notifications. -/
theorem registered_subchannel_registered_twice :
    (world_of (c_req_create_channel (sampleEnv admin_only true)
        (sample_request 42 (le32 0 ++ le16 0 ++ le32 6 ++ [0])) 35 1 sampleWorld)).log.take 3
      = [Event.ack 1,
         Event.db (db_call.db_register_channel (sample_channel 7 6 0 0 [] [] [])) true,
         Event.db (db_call.db_register_channel (sample_channel 7 6 0 0 [] [] [])) true]
    ∧ (world_of (c_req_create_channel (sampleEnv admin_only true)
        (sample_request 42 (le32 0 ++ le16 0 ++ le32 6 ++ [0])) 35 1 sampleWorld)).log.length
      = 6 := by
  decide

/-! ## Changing a global flag: what changes, and for whom -/

theorem update_first_update_first {α : Type} (key : α → Nat) (f g : α → α)
    (hf : ∀ x, key (f x) = key x) (id : Nat) (xs : List α) :
    update_first key g id (update_first key f id xs)
      = update_first key (fun x => g (f x)) id xs := by
  induction xs with
  | nil => rfl
  | cons x xs ih =>
    by_cases h : key x = id
    · have h2 : key (f x) = id := by rw [hf]; exact h
      rw [update_first, if_pos h, update_first, if_pos h2, update_first, if_pos h]
    · rw [update_first, if_neg h, update_first, if_neg h, update_first, if_neg h, ih]

theorem update_first_self {α : Type} (key : α → Nat) (f : α → α)
    (hf : ∀ x, f x = x) (id : Nat) (xs : List α) :
    update_first key f id xs = xs := by
  induction xs with
  | nil => rfl
  | cons x xs ih =>
    by_cases h : key x = id
    · rw [update_first, if_pos h, hf]
    · rw [update_first, if_neg h, ih]

theorem map_update_first_congr {α β : Type} (key : α → Nat) (f1 f2 : α → α) (g : α → β)
    (hg : ∀ x, g (f1 x) = g (f2 x)) (id : Nat) (xs : List α) :
    (update_first key f1 id xs).map g = (update_first key f2 id xs).map g := by
  induction xs with
  | nil => rfl
  | cons x xs ih =>
    by_cases h : key x = id
    · rw [update_first, if_pos h, update_first, if_pos h, List.map_cons, List.map_cons, hg]
    · rw [update_first, if_neg h, update_first, if_neg h, List.map_cons, List.map_cons, ih]

/-- The players `sv_right_apply` leaves: the target changed, nobody else. -/
theorem sv_right_apply_players (env : Env) (w : World) (t : player) (bit on_off : Nat) :
    (sv_right_apply env w t bit on_off).s.players
      = update_player (sv_right_change env bit on_off) t.public_id w.s.players := by
  unfold sv_right_apply
  by_cases h2 : on_off = 2
  · subst h2
    by_cases hb : bit = env.GLOBAL_FLAG_REGISTERED
    · simp only [if_true, if_pos hb, db_do]
      show update_first (fun p : player => p.public_id) drop_registration t.public_id
        (update_first (fun p : player => p.public_id) (clear_global_flag bit) t.public_id
          w.s.players) = _
      rw [update_first_update_first (fun p : player => p.public_id) (clear_global_flag bit)
        drop_registration (fun _ => rfl)]
      have hfun : sv_right_change env bit 2
          = fun (x : player) => drop_registration (clear_global_flag bit x) := by
        funext x
        simp [sv_right_change, hb, clear_global_flag, with_global_flags, sv_flags_after]
      rw [hfun]
      rfl
    · simp only [if_true, if_neg hb]
      have hfun : sv_right_change env bit 2 = fun (x : player) =>
          ({ x with global_flags := (x.global_flags &&& (0xFF ^^^ bit)) % 256 } : player) := by
        funext x
        simp [sv_right_change, hb, with_global_flags, sv_flags_after]
      rw [hfun]
  · by_cases h0 : on_off = 0
    · subst h0
      simp only [if_neg h2, if_true]
      have hfun : sv_right_change env bit 0 = fun (x : player) =>
          ({ x with global_flags := (x.global_flags ||| bit) % 256 } : player) := by
        funext x
        simp [sv_right_change, with_global_flags, sv_flags_after]
      rw [hfun]
    · simp only [if_neg h2, if_neg h0]
      have hfun : ∀ x : player, sv_right_change env bit on_off x = x := by
        intro x
        simp [sv_right_change, h2, h0, with_global_flags, sv_flags_after]
      unfold update_player
      rw [update_first_self _ _ hfun]

theorem sv_right_change_flags (env : Env) (bit on_off : Nat) (q : player) :
    (sv_right_change env bit on_off q).global_flags = sv_flags_after bit on_off q.global_flags
    ∧ (sv_right_change env bit on_off q).public_id = q.public_id := by
  unfold sv_right_change
  split <;> exact ⟨rfl, rfl⟩

/-- The bits of 8-bit flags after a grant and after a revoke. -/
theorem sv_flags_after_bits (bit old : Nat) :
    (∀ i, (sv_flags_after bit 0 old).testBit i
        = (decide (i < 8) && (old.testBit i || bit.testBit i)))
    ∧ (∀ i, (sv_flags_after bit 2 old).testBit i
        = (decide (i < 8) && (old.testBit i && !bit.testBit i))) := by
  have h256 : (256 : Nat) = 2 ^ 8 := by decide
  have h255 : (0xFF : Nat) = 2 ^ 8 - 1 := by decide
  constructor
  · intro i
    simp only [sv_flags_after, if_true, if_neg (by decide : ¬((0 : Nat) = 2))]
    rw [h256, Nat.testBit_mod_two_pow, Nat.testBit_or]
  · intro i
    simp only [sv_flags_after, if_true]
    rw [h256, h255, Nat.testBit_mod_two_pow, Nat.testBit_and, Nat.testBit_xor,
      Nat.testBit_two_pow_sub_one]
    by_cases hi : i < 8 <;> simp [hi]

/-- C24. CHANGE_PL_SVPRIV touches one flag of one player. Let the `switch` of
`c_req_change_player_sv_right` yield the op `X` for the request, the target
`t` exist and the privilege engine grant `X`.  Then `1 << right` is a flag of
the specification's list and `X` is its grant op for `on_off = 0` and its
revoke op otherwise; afterwards the global flags of the players are those of
before, but for the target (the first player carrying the id), whose flags are
`old | bit` for a grant and `old & (0xFF ^ bit)` for a revoke, both within 8
bits: bit `i` of the new flags is set exactly when `i < 8` and it was set or
is a bit of the flag (grant), or when `i < 8` and it was set and is no bit of
the flag (revoke).  For a request whose right offset the `switch` does not
know, the handler stops after the ACK: nothing changes, nothing is
broadcast. -/
theorem c_req_change_player_sv_right_flags (env : Env) (data : Bytes) (len pl : Nat)
    (w : World) (t : player) (X : privilege)
    (hX : sv_priv_required env (shl1 env (peek data 29)) (peek data 28) = some X)
    (ht : get_player_by_public_id w.s (rd32 data 24) = some t)
    (hpriv : env.player_has_privilege w.s pl X (get_channel_by_id w.s t.in_chan) = true) :
    (∃ row ∈ spec_global_flag_ops env, row.1 = shl1 env (peek data 29)
        ∧ X = if peek data 28 = 0 then row.2.1 else row.2.2)
    ∧ (c_req_change_player_sv_right env data len pl w).s.players.map (fun q => q.global_flags)
        = (update_player
            (with_global_flags (sv_flags_after (shl1 env (peek data 29)) (peek data 28)))
            t.public_id w.s.players).map (fun q => q.global_flags)
    ∧ (get_player_by_public_id (c_req_change_player_sv_right env data len pl w).s
          t.public_id).map (fun q => q.global_flags)
        = some (sv_flags_after (shl1 env (peek data 29)) (peek data 28) t.global_flags)
    ∧ (∀ k, k ≠ t.public_id →
        (get_player_by_public_id (c_req_change_player_sv_right env data len pl w).s k).map
            (fun q => q.global_flags)
          = (get_player_by_public_id w.s k).map (fun q => q.global_flags))
    ∧ (peek data 28 = 0 → ∀ i,
        (sv_flags_after (shl1 env (peek data 29)) (peek data 28) t.global_flags).testBit i
          = (decide (i < 8)
              && (t.global_flags.testBit i || (shl1 env (peek data 29)).testBit i)))
    ∧ (peek data 28 = 2 → ∀ i,
        (sv_flags_after (shl1 env (peek data 29)) (peek data 28) t.global_flags).testBit i
          = (decide (i < 8)
              && (t.global_flags.testBit i && !(shl1 env (peek data 29)).testBit i)))
    ∧ (peek data 28 ≠ 0 → peek data 28 ≠ 2 →
        sv_flags_after (shl1 env (peek data 29)) (peek data 28) t.global_flags = t.global_flags)
    ∧ ∀ data2 : Bytes,
        sv_priv_required env (shl1 env (peek data2 29)) (peek data2 28) = none →
        c_req_change_player_sv_right env data2 len pl w
          = { s := w.s, log := w.log ++ [Event.ack pl] } := by
  have hpid := get_player_by_public_id_id w.s _ t ht
  have hfind : w.s.players.find? (fun q => q.public_id == t.public_id) = some t := by
    rw [hpid]; exact ht
  have hw : (c_req_change_player_sv_right env data len pl w).s.players
      = (update_player (sv_right_change env (shl1 env (peek data 29)) (peek data 28))
          t.public_id w.s.players).map bump := by
    rw [sv_right_eq env data len pl w t X hX ht, if_pos hpriv]
    unfold s_notify_player_sv_right_changed
    rw [broadcast_eq env _ _ (by rw [player_sv_right_changed_template_length]; decide)]
    show ((sv_right_apply env (send_acknowledge w pl) t _ _).s.players).map bump = _
    rw [sv_right_apply_players]
    rfl
  have hgf : ∀ q : player, (bump q).global_flags = q.global_flags := fun _ => rfl
  refine ⟨?_, ?_, ?_, ?_, ?_, ?_, ?_, ?_⟩
  · unfold sv_priv_required at hX
    simp only [spec_global_flag_ops, List.mem_cons, List.mem_singleton, List.not_mem_nil,
      or_false, exists_eq_or_imp, exists_eq_left]
    split at hX
    · rename_i hb
      left
      refine ⟨hb.symm, ?_⟩
      cases hX
      rfl
    · split at hX
      · rename_i hb
        right; left
        refine ⟨hb.symm, ?_⟩
        cases hX
        rfl
      · split at hX
        · rename_i hb
          right; right
          refine ⟨hb.symm, ?_⟩
          cases hX
          rfl
        · cases hX
  · rw [hw, List.map_map]
    have h1 : ((fun q : player => q.global_flags) ∘ bump) = fun q : player => q.global_flags := by
      funext q; rfl
    rw [h1]
    unfold update_player
    exact map_update_first_congr (fun p : player => p.public_id) _ _
      (fun q : player => q.global_flags)
      (fun x => (sv_right_change_flags env _ _ x).1) t.public_id w.s.players
  · show (((c_req_change_player_sv_right env data len pl w).s.players).find?
      (fun q => q.public_id == t.public_id)).map (fun q => q.global_flags) = _
    rw [hw, find_map_bump, update_player,
      find_update_first_same (fun p : player => p.public_id)
        (sv_right_change env (shl1 env (peek data 29)) (peek data 28))
        (fun x => (sv_right_change_flags env _ _ x).2), hfind]
    simp only [Option.map_some']
    rw [hgf, (sv_right_change_flags env _ _ t).1]
  · intro k hk
    show (((c_req_change_player_sv_right env data len pl w).s.players).find?
      (fun q => q.public_id == k)).map (fun q => q.global_flags) = _
    rw [hw, find_map_bump, update_player,
      find_update_first_other (fun p : player => p.public_id)
        (sv_right_change env (shl1 env (peek data 29)) (peek data 28))
        (fun x => (sv_right_change_flags env _ _ x).2) t.public_id k hk, Option.map_map]
    rfl
  · intro h0 i
    rw [h0]
    exact (sv_flags_after_bits _ _).1 i
  · intro h2 i
    rw [h2]
    exact (sv_flags_after_bits _ _).2 i
  · intro h0 h2
    simp [sv_flags_after, h0, h2]
  · intro data2 hnone
    simp only [c_req_change_player_sv_right, hnone]
    rfl

/-- The hypotheses of C24 hold on the second server of the examples: the admin
(1) grants Dave (4), whose flags are 4, the flag ALLOWREG (offset 1); Dave's
flags become 6 and the admin's stay 0. -/
theorem c_req_change_player_sv_right_flags_witness :
    sv_priv_required (sampleEnv admin_only true)
        (shl1 (sampleEnv admin_only true) (peek (sample_request 42 (le32 4 ++ [0, 1])) 29))
        (peek (sample_request 42 (le32 4 ++ [0, 1])) 28)
        = some privilege.SP_PL_GRANT_ALLOWREG
    ∧ get_player_by_public_id sampleWorldReg.s (rd32 (sample_request 42 (le32 4 ++ [0, 1])) 24)
        = some sample_dave
    ∧ (c_req_change_player_sv_right (sampleEnv admin_only true)
        (sample_request 42 (le32 4 ++ [0, 1])) 30 1 sampleWorldReg).s.players.map
          (fun q => q.global_flags)
      = [0, 6] :=
  ⟨by decide, by decide,
    (c_req_change_player_sv_right_flags (sampleEnv admin_only true)
      (sample_request 42 (le32 4 ++ [0, 1])) 30 1 sampleWorldReg sample_dave
      privilege.SP_PL_GRANT_ALLOWREG (by decide) (by decide) (by decide)).2.1.trans
      (by decide)⟩

/-! ## The counts of the password copies -/

/-- C25, as the code has it. The count `MIN(29, data[28])` of the copy in
`c_req_switch_channel` lies between 0 and 29, and the copied password is
NUL-terminated within its 30 bytes, when the length byte is not negative as a
`char`, which is always so where `char` is unsigned; where `char` is signed a
length byte of 128 or more gives the negative count `byte - 256`, and the copy
writes outside `pass`.  The count `MIN(29, len - consumed - 1)` of the copy in
`c_req_create_channel` lies between 0 and 29 when the descriptor leaves at
least one byte of the packet, and on every request where `ptrdiff_t` is no
wider than `unsigned int`; where it is wider, a descriptor that consumes the
whole packet (or more) gives the negative count `len - consumed - 1`, and the
copy writes outside the password field. -/
theorem password_copy_counts (env : Env) (data : Bytes) (len pl : Nat) (w : World) :
    (0 ≤ char_val env (peek data 28) →
        0 ≤ MIN 29 (char_val env (peek data 28))
        ∧ MIN 29 (char_val env (peek data 28)) ≤ 29
        ∧ ∃ pass, strncpy_checked (calloc 30) (data.drop 29)
              (MIN 29 (char_val env (peek data 28))) = some pass
            ∧ pass.length = 30
            ∧ (cstr pass).length ≤ 29)
    ∧ (env.char_signed = false → 0 ≤ char_val env (peek data 28))
    ∧ (peek data 28 < 128 → 0 ≤ char_val env (peek data 28))
    ∧ (env.char_signed = true → 128 ≤ peek data 28 →
        MIN 29 (char_val env (peek data 28)) = (peek data 28 : Int) - 256
        ∧ MIN 29 (char_val env (peek data 28)) < 0
        ∧ c_req_switch_channel env data len pl w = Except.error w)
    ∧ (∀ consumed, consumed < len →
        0 ≤ create_password_count env len consumed
        ∧ create_password_count env len consumed ≤ 29)
    ∧ (∀ consumed, env.ptrdiff_wide = false →
        0 ≤ create_password_count env len consumed
        ∧ create_password_count env len consumed ≤ 29)
    ∧ (∀ consumed, env.ptrdiff_wide = true → len ≤ consumed →
        create_password_count env len consumed = (len : Int) - (consumed : Int) - 1
        ∧ create_password_count env len consumed < 0)
    ∧ (env.ptrdiff_wide = true →
        len ≤ 24 + (env.channel_from_data (data.drop 24) ((len : Int) - 24)).2 →
        c_req_create_channel env data len pl w = Except.error (send_acknowledge w pl)) := by
  have hpk : peek data 28 < 256 := by
    unfold peek
    exact Nat.mod_lt _ (by decide)
  have hpm : peek data 28 % 256 = peek data 28 := Nat.mod_eq_of_lt hpk
  refine ⟨?_, ?_, ?_, ?_, ?_, ?_, ?_, ?_⟩
  · intro h
    obtain ⟨h0, h29, hn⟩ := switch_count_of_nonneg env (peek data 28) h
    obtain ⟨pass, hpass, hc⟩ := switch_pass_defined env data h
    refine ⟨h0, h29, pass, hpass, ?_, ?_⟩
    · have hle : MIN 29 (char_val env (peek data 28)) ≤ ((calloc 30).length : Int) := by
        simp only [calloc, List.length_replicate]; omega
      simp only [strncpy_checked] at hpass
      rw [if_pos ⟨h0, hle⟩] at hpass
      cases hpass
      have hl : (cstr ((data.drop 29).take (MIN 29 (char_val env (peek data 28))).toNat)).length
          ≤ (MIN 29 (char_val env (peek data 28))).toNat :=
        le_trans (cstr_length_le _) (by simp)
      have hn29 : (MIN 29 (char_val env (peek data 28))).toNat ≤ 29 := by rw [hn]; omega
      simp only [strncpy, poke, calloc, List.take_zero, List.nil_append, Nat.zero_add,
        List.length_append, List.length_replicate, List.length_drop]
      omega
    · rw [hc]
      refine le_trans (cstr_length_le _) ?_
      rw [List.length_take]
      omega
  · intro hs
    unfold char_val
    rw [if_neg (by simp [hs])]
    omega
  · intro hlt
    unfold char_val
    rw [if_neg (by omega)]
    omega
  · intro hs hb
    have hv : char_val env (peek data 28) = (peek data 28 : Int) - 256 := by
      unfold char_val
      rw [if_pos ⟨hs, by omega⟩]
      omega
    have hm : MIN 29 (char_val env (peek data 28)) = (peek data 28 : Int) - 256 := by
      rw [hv]
      unfold MIN
      rw [if_neg (by omega)]
    refine ⟨hm, by rw [hm]; omega, ?_⟩
    have hnone : strncpy_checked (calloc 30) (data.drop 29)
        (MIN 29 (char_val env (peek data 28))) = none := by
      simp only [strncpy_checked]
      rw [if_neg (by rw [hm]; omega)]
    simp only [c_req_switch_channel, hnone]
  · intro consumed hlt
    unfold create_password_count MIN
    split <;> split <;> omega
  · intro consumed hw
    unfold create_password_count MIN
    rw [if_neg (by simp [hw])]
    split <;> omega
  · intro consumed hw hle
    have hc : create_password_count env len consumed = (len : Int) - (consumed : Int) - 1 := by
      unfold create_password_count MIN
      rw [if_pos hw, if_neg (by omega)]
    exact ⟨hc, by rw [hc]; omega⟩
  · intro hw hle
    have hc : create_password_count env len
        (24 + (env.channel_from_data (data.drop 24) ((len : Int) - 24)).2) < 0 := by
      unfold create_password_count MIN
      rw [if_pos hw]
      split <;> omega
    have hnone : strncpy_checked (env.channel_from_data (data.drop 24) ((len : Int) - 24)).1.password
        (data.drop (24 + (env.channel_from_data (data.drop 24) ((len : Int) - 24)).2))
        (create_password_count env len
          (24 + (env.channel_from_data (data.drop 24) ((len : Int) - 24)).2)) = none := by
      simp only [strncpy_checked]
      rw [if_neg (by omega)]
    simp only [c_req_create_channel, hnone]

/-- The failing requests of C25 on the platform of the examples (signed
`char`, wide `ptrdiff_t`): Bob (2) sends SWITCHCHAN for channel 3 with the
length byte 128, and the admin sends a CREATE_CH that ends with the
descriptor; the counts are -128 and -1 and neither handler returns. -/
theorem password_copy_counts_witness :
    MIN 29 (char_val (sampleEnv admin_only true)
        (peek (sample_request 42 (le32 3 ++ [128, 104])) 28)) = -128
    ∧ c_req_switch_channel (sampleEnv admin_only true)
        (sample_request 42 (le32 3 ++ [128, 104])) 30 2 sampleWorld
      = Except.error sampleWorld
    ∧ create_password_count (sampleEnv admin_only true) 34 34 = -1
    ∧ c_req_create_channel (sampleEnv admin_only true)
        (sample_request 42 (le32 0 ++ le16 1 ++ le32 0)) 34 1 sampleWorld
      = Except.error (send_acknowledge sampleWorld 1) :=
  ⟨(((password_copy_counts (sampleEnv admin_only true)
        (sample_request 42 (le32 3 ++ [128, 104])) 30 2 sampleWorld).2.2.2.1
        rfl (by decide)).1).trans (by decide),
    ((password_copy_counts (sampleEnv admin_only true)
        (sample_request 42 (le32 3 ++ [128, 104])) 30 2 sampleWorld).2.2.2.1
        rfl (by decide)).2.2,
    (((password_copy_counts (sampleEnv admin_only true)
        (sample_request 42 (le32 0 ++ le16 1 ++ le32 0)) 34 1 sampleWorld).2.2.2.2.2.2.1
        34 rfl (by decide)).1).trans (by decide),
    (password_copy_counts (sampleEnv admin_only true)
        (sample_request 42 (le32 0 ++ le16 1 ++ le32 0)) 34 1 sampleWorld).2.2.2.2.2.2.2
        rfl (by decide)⟩

/-! ## compat.h: the byte-swap macros -/

theorem and_byte_mask (x k : Nat) : x &&& (255 <<< k) = ((x >>> k) % 256) <<< k := by
  apply Nat.eq_of_testBit_eq
  intro i
  have h256 : (256 : Nat) = 2 ^ 8 := by decide
  have h255 : (255 : Nat) = 2 ^ 8 - 1 := by decide
  rw [h256, h255]
  simp only [Nat.testBit_and, Nat.testBit_shiftLeft, Nat.testBit_mod_two_pow,
    Nat.testBit_shiftRight, Nat.testBit_two_pow_sub_one]
  by_cases h1 : k ≤ i
  · have e : k + (i - k) = i := by omega
    by_cases h2 : i - k < 8 <;> simp [h1, h2, e]
  · simp [h1]

theorem or_of_bytes (hi lo k : Nat) (h : lo < 2 ^ k) : hi * 2 ^ k ||| lo = hi * 2 ^ k + lo := by
  rw [Nat.mul_comm hi, Nat.mul_add_lt_is_or h]

/-- The 16-bit swap in arithmetic: the low byte becomes the high one. -/
theorem swap16_eq (v : Nat) :
    GUINT16_SWAP_LE_BE_CONSTANT v = (v % 256) * 256 + v / 256 % 256 := by
  unfold GUINT16_SWAP_LE_BE_CONSTANT
  have e1 : (v % 65536) >>> 8 % 65536 = v / 256 % 256 := by
    rw [Nat.shiftRight_eq_div_pow]; omega
  have e2 : (v % 65536) <<< 8 % 65536 = (v % 256) * 2 ^ 8 := by
    rw [Nat.shiftLeft_eq]; omega
  rw [e1, e2, Nat.lor_comm, or_of_bytes _ _ 8 (by omega)]
  omega

/-- The 32-bit swap in arithmetic: the four bytes in reverse order. -/
theorem swap32_eq (v : Nat) :
    GUINT32_SWAP_LE_BE_CONSTANT v
      = (v % 256) * 16777216 + (v / 256 % 256) * 65536 + (v / 65536 % 256) * 256
        + v / 16777216 % 256 := by
  unfold GUINT32_SWAP_LE_BE_CONSTANT
  have t1 : ((v % 4294967296) &&& 0x000000ff) <<< 24 % 4294967296 = (v % 256) * 2 ^ 24 := by
    have h : (0x000000ff : Nat) = 2 ^ 8 - 1 := by decide
    rw [h, Nat.and_pow_two_sub_one_eq_mod, Nat.shiftLeft_eq]
    omega
  have t2 : ((v % 4294967296) &&& 0x0000ff00) <<< 8 % 4294967296
      = (v / 256 % 256) * 2 ^ 16 := by
    have h : (0x0000ff00 : Nat) = 255 <<< 8 := by decide
    rw [h, and_byte_mask, Nat.shiftLeft_eq, Nat.shiftLeft_eq, Nat.shiftRight_eq_div_pow]
    omega
  have t3 : ((v % 4294967296) &&& 0x00ff0000) >>> 8 = (v / 65536 % 256) * 2 ^ 8 := by
    have h : (0x00ff0000 : Nat) = 255 <<< 16 := by decide
    rw [h, and_byte_mask, Nat.shiftLeft_eq, Nat.shiftRight_eq_div_pow, Nat.shiftRight_eq_div_pow]
    omega
  have t4 : ((v % 4294967296) &&& 0xff000000) >>> 24 = v / 16777216 % 256 := by
    have h : (0xff000000 : Nat) = 255 <<< 24 := by decide
    rw [h, and_byte_mask, Nat.shiftLeft_eq, Nat.shiftRight_eq_div_pow, Nat.shiftRight_eq_div_pow]
    omega
  rw [t1, t2, t3, t4, Nat.lor_assoc, Nat.lor_assoc,
    or_of_bytes (v / 65536 % 256) _ 8 (by omega),
    or_of_bytes (v / 256 % 256) _ 16 (by omega),
    or_of_bytes (v % 256) _ 24 (by omega)]
  omega

theorem bytes_of_sum (a b c d : Nat) (ha : a < 256) (hb : b < 256) (hc : c < 256)
    (hd : d < 256) :
    (a * 16777216 + b * 65536 + c * 256 + d) % 256 = d
    ∧ (a * 16777216 + b * 65536 + c * 256 + d) / 256 % 256 = c
    ∧ (a * 16777216 + b * 65536 + c * 256 + d) / 65536 % 256 = b
    ∧ (a * 16777216 + b * 65536 + c * 256 + d) / 16777216 % 256 = a
    ∧ a * 16777216 + b * 65536 + c * 256 + d < 4294967296 := by
  refine ⟨?_, ?_, ?_, ?_, ?_⟩ <;> omega

theorem sum_of_bytes (x : Nat) (hx : x < 4294967296) :
    (x / 16777216 % 256) * 16777216 + (x / 65536 % 256) * 65536 + (x / 256 % 256) * 256
      + x % 256 = x := by
  omega

theorem bytes_of_sum16 (a b : Nat) (ha : a < 256) (hb : b < 256) :
    (a * 256 + b) % 256 = b ∧ (a * 256 + b) / 256 % 256 = a ∧ a * 256 + b < 65536 := by
  refine ⟨?_, ?_, ?_⟩ <;> omega

/-- C26. The byte-swap macros reverse the byte order. For every 32-bit `x`
the four bytes of `GUINT32_SWAP_LE_BE_CONSTANT(x)`, low byte first, are the
four bytes of `x` in reverse order (byte `i` of the one is byte `3 - i` of the
other), and the result is a 32-bit value; for every 16-bit `y` the two bytes
of `GUINT16_SWAP_LE_BE_CONSTANT(y)` are those of `y` exchanged.  Both macros
are involutions, and on either host byte order `GUINT32_FROM_LE` undoes
`GUINT32_TO_LE`, `GUINT32_FROM_BE` undoes `GUINT32_TO_BE`, and likewise for the
16-bit macros. -/
theorem swap_macros_reverse (x y : Nat) (hx : x < 4294967296) (hy : y < 65536) :
    le32 (GUINT32_SWAP_LE_BE_CONSTANT x) = (le32 x).reverse
    ∧ GUINT32_SWAP_LE_BE_CONSTANT x < 4294967296
    ∧ GUINT32_SWAP_LE_BE_CONSTANT x % 256 = x / 16777216 % 256
    ∧ GUINT32_SWAP_LE_BE_CONSTANT x / 256 % 256 = x / 65536 % 256
    ∧ GUINT32_SWAP_LE_BE_CONSTANT x / 65536 % 256 = x / 256 % 256
    ∧ GUINT32_SWAP_LE_BE_CONSTANT x / 16777216 % 256 = x % 256
    ∧ le16 (GUINT16_SWAP_LE_BE_CONSTANT y) = (le16 y).reverse
    ∧ GUINT16_SWAP_LE_BE_CONSTANT y < 65536
    ∧ GUINT32_SWAP_LE_BE_CONSTANT (GUINT32_SWAP_LE_BE_CONSTANT x) = x
    ∧ GUINT16_SWAP_LE_BE_CONSTANT (GUINT16_SWAP_LE_BE_CONSTANT y) = y
    ∧ ∀ little_endian : Bool,
        GUINT32_FROM_LE little_endian (GUINT32_TO_LE little_endian x) = x
        ∧ GUINT32_FROM_BE little_endian (GUINT32_TO_BE little_endian x) = x
        ∧ GUINT16_FROM_LE little_endian (GUINT16_TO_LE little_endian y) = y
        ∧ GUINT16_FROM_BE little_endian (GUINT16_TO_BE little_endian y) = y := by
  have h256 : ∀ n : Nat, n % 256 < 256 := fun n => Nat.mod_lt n (by decide)
  obtain ⟨b0, b1, b2, b3, l32⟩ := bytes_of_sum (x % 256) (x / 256 % 256) (x / 65536 % 256)
    (x / 16777216 % 256) (h256 _) (h256 _) (h256 _) (h256 _)
  rw [← swap32_eq x] at b0 b1 b2 b3 l32
  obtain ⟨c0, c1, l16⟩ := bytes_of_sum16 (y % 256) (y / 256 % 256) (h256 _) (h256 _)
  rw [← swap16_eq y] at c0 c1 l16
  have i32 : GUINT32_SWAP_LE_BE_CONSTANT (GUINT32_SWAP_LE_BE_CONSTANT x) = x := by
    rw [swap32_eq (GUINT32_SWAP_LE_BE_CONSTANT x), b0, b1, b2, b3]
    exact sum_of_bytes x hx
  have i16 : GUINT16_SWAP_LE_BE_CONSTANT (GUINT16_SWAP_LE_BE_CONSTANT y) = y := by
    rw [swap16_eq (GUINT16_SWAP_LE_BE_CONSTANT y), c0, c1]
    omega
  refine ⟨?_, l32, b0, b1, b2, b3, ?_, l16, i32, i16, ?_⟩
  · simp only [le32, List.reverse_cons, List.reverse_nil, List.nil_append, List.cons_append,
      b0, b1, b2, b3]
  · simp only [le16, List.reverse_cons, List.reverse_nil, List.nil_append, List.cons_append,
      c0, c1]
  · intro little_endian
    cases little_endian
    · simp only [GUINT32_FROM_LE, GUINT32_TO_LE, GUINT32_FROM_BE, GUINT32_TO_BE,
        GUINT16_FROM_LE, GUINT16_TO_LE, GUINT16_FROM_BE, GUINT16_TO_BE, GUINT32_SWAP_LE_BE,
        GUINT16_SWAP_LE_BE, Bool.false_eq_true, if_false, i32, i16]
      refine ⟨trivial, ?_, trivial, ?_⟩ <;> omega
    · simp only [GUINT32_FROM_LE, GUINT32_TO_LE, GUINT32_FROM_BE, GUINT32_TO_BE,
        GUINT16_FROM_LE, GUINT16_TO_LE, GUINT16_FROM_BE, GUINT16_TO_BE, GUINT32_SWAP_LE_BE,
        GUINT16_SWAP_LE_BE, if_true, i32, i16]
      refine ⟨?_, trivial, ?_, trivial⟩ <;> omega

/-- The hypotheses of C26 hold for `0x11223344` and `0x1122`, whose swaps are
`0x44332211` and `0x2211`. -/
theorem swap_macros_reverse_witness :
    (287454020 : Nat) < 4294967296 ∧ (4386 : Nat) < 65536
    ∧ GUINT32_SWAP_LE_BE_CONSTANT 287454020 = 1144201745
    ∧ GUINT16_SWAP_LE_BE_CONSTANT 4386 = 8721
    ∧ GUINT32_SWAP_LE_BE_CONSTANT (GUINT32_SWAP_LE_BE_CONSTANT 287454020) = 287454020 :=
  ⟨by decide, by decide, by decide, by decide,
    (swap_macros_reverse 287454020 4386 (by decide) (by decide)).2.2.2.2.2.2.2.2.1⟩

/-! ## The password of a created channel, supplied on a switch -/

/-- The channel an accepted creation stored last: the one handed to
`add_channel`, up to its child set. -/
theorem create_channel_accepted_last (env : Env) (w w1 : World) (ch : channel) (pl : Nat)
    (h : create_channel_accepted env w ch pl = Except.ok w1) :
    ∃ c1, w1.s.chans.getLast? = some c1
      ∧ forget_subchannels c1 = forget_subchannels (stored_channel env w ch) := by
  have hc := create_channel_accepted_chans env w ch pl
  rw [h] at hc
  have hl := congrArg List.getLast? hc
  rw [List.getLast?_map, List.getLast?_map, List.getLast?_concat] at hl
  cases hq : (world_of (Except.ok w1 : Except World World)).s.chans.getLast? with
  | none => rw [hq] at hl; cases hl
  | some c1 =>
    rw [hq] at hl
    exact ⟨c1, hq, Option.some.inj hl⟩

/-- C8, amended. Let a CREATE_CH request of a player who holds the privileges
the flags ask for consist of the 24-byte header, a descriptor with the
PASSWORD flag that the codec reads with a zeroed password field, the bytes of
a password `P` (1 to 29 bytes, none of them zero) and one final byte, with no
length byte, and let `c_req_create_channel` return for it, leaving `w1`.  Then
the channel stored last carries the PASSWORD flag and holds the string `P`,
and for every SWITCHCHAN request that names this channel and carries the
length of `P` at offset 28 and the bytes of `P` from offset 29, by any player:
the copy into `pass` is defined and the comparison with the channel's
password succeeds, so the request is admitted; `c_req_switch_channel` returns
with the outcome of `move_player`; and for a player without
SP_CHA_JOIN_WO_PASS the admission test is the password comparison alone. -/
theorem password_round_trip (env : Env) (data hdr desc P : Bytes) (t : Nat) (pl : Nat)
    (w w1 : World) (ch0 : channel)
    (hdata : data = hdr ++ (desc ++ (P ++ [t])))
    (hhdr : hdr.length = 24)
    (hP1 : 1 ≤ P.length) (hP29 : P.length ≤ 29) (hPnz : ∀ b ∈ P, b ≠ 0)
    (hcodec : env.channel_from_data (data.drop 24) ((data.length : Int) - 24)
      = (ch0, desc.length))
    (hzero : ch0.password = calloc 30)
    (hflag : ch0.flags &&& env.CHANNEL_FLAG_PASSWORD ≠ 0)
    (hpriv : ∀ X ∈ spec_create_required env ch0.flags,
      env.player_has_privilege w.s pl X none = true)
    (hcreated : c_req_create_channel env data data.length pl w = Except.ok w1) :
    ∃ c1, w1.s.chans.getLast? = some c1
      ∧ cstr c1.password = P
      ∧ ch_getflags c1 &&& env.CHANNEL_FLAG_PASSWORD ≠ 0
      ∧ ∀ (data2 : Bytes) (len2 pl2 : Nat),
          get_channel_by_id w1.s (rd32 data2 24) = some c1 →
          peek data2 28 = P.length →
          (data2.drop 29).take P.length = P →
          (∃ pass, strncpy_checked (calloc 30) (data2.drop 29)
                (MIN 29 (char_val env (peek data2 28))) = some pass
              ∧ strcmp_eq pass c1.password = true
              ∧ switch_admitted env w1.s pl2 c1 pass = true)
          ∧ (∃ w2, c_req_switch_channel env data2 len2 pl2 w1 = Except.ok w2
              ∧ (∀ s1, move_player w1.s pl2 c1.id = some s1 →
                  w2.s = { chans := s1.chans, players := s1.players.map bump })
              ∧ (move_player w1.s pl2 c1.id = none → w2 = send_acknowledge w1 pl2))
          ∧ (env.player_has_privilege w1.s pl2 privilege.SP_CHA_JOIN_WO_PASS (some c1) = false →
              ∀ pass2, switch_admitted env w1.s pl2 c1 pass2 = strcmp_eq pass2 c1.password) := by
  have hlen : data.length = (24 + desc.length) + P.length + 1 := by
    rw [hdata]; simp [hhdr]; omega
  have hdrop : data.drop (24 + desc.length) = P ++ [t] := by
    rw [hdata, ← hhdr, ← List.drop_drop]
    simp
  have hcount : create_password_count env data.length (24 + desc.length) = (P.length : Int) := by
    rw [hlen]; exact create_password_count_eq env _ _ hP29
  have hpw : strncpy_checked ch0.password (data.drop (24 + desc.length))
      (create_password_count env data.length (24 + desc.length))
      = some (strncpy (calloc 30) (P ++ [t]) P.length) := by
    rw [hcount, hdrop, hzero]
    simp only [strncpy_checked, calloc, List.length_replicate, Int.toNat_ofNat]
    rw [if_pos]
    constructor <;> omega
  have hstored : cstr (strncpy (calloc 30) (P ++ [t]) P.length) = P := by
    rw [cstr_strncpy_calloc 30 _ _ (by omega)]
    simp [cstr_of_no_nul P hPnz]
  have hnok := (create_priv_nok_eq_zero_iff env w.s pl ch0.flags).mpr hpriv
  have hceq := create_eq env data data.length pl w ch0 desc.length _ hcodec hpw
  rw [if_pos hnok] at hceq
  rw [hceq] at hcreated
  obtain ⟨c1, hlast, hfs⟩ := create_channel_accepted_last env _ w1 _ pl hcreated
  have hpwd : c1.password = strncpy (calloc 30) (P ++ [t]) P.length := by
    have h1 := congrArg (fun c : channel => c.password) hfs
    exact h1
  have hfl : c1.flags = ch0.flags := by
    have h1 := congrArg (fun c : channel => c.flags) hfs
    exact h1
  have hcp : cstr c1.password = P := by rw [hpwd]; exact hstored
  have hcf : ch_getflags c1 &&& env.CHANNEL_FLAG_PASSWORD ≠ 0 := by
    show c1.flags &&& env.CHANNEL_FLAG_PASSWORD ≠ 0
    rw [hfl]; exact hflag
  refine ⟨c1, hlast, hcp, hcf, ?_⟩
  intro data2 len2 pl2 hname hL hfield
  have hchar : 0 ≤ char_val env (peek data2 28) := by
    unfold char_val
    have : peek data2 28 % 256 = P.length := by rw [hL]; omega
    rw [this]
    split
    · rename_i hc; omega
    · omega
  obtain ⟨pass, hpass, hcs⟩ := switch_pass_defined env data2 hchar
  have hmin : min 29 (peek data2 28) = P.length := by rw [hL]; omega
  have hsupplied : cstr ((data2.drop 29).take (min 29 (peek data2 28))) = cstr c1.password := by
    rw [hmin, hfield, cstr_of_no_nul P hPnz, hcp]
  have hcmp : strcmp_eq pass c1.password = true := by
    simp [strcmp_eq, hcs, hsupplied]
  have hadm : switch_admitted env w1.s pl2 c1 pass = true := by
    simp [switch_admitted, hcmp]
  refine ⟨⟨pass, hpass, hcmp, hadm⟩, ?_, ?_⟩
  · obtain ⟨w2, hok, hyes, _⟩ := c_req_switch_channel_admission env data2 len2 pl2 w1 c1 hname
      hchar
    exact ⟨w2, hok, hyes (Or.inr (Or.inr hsupplied))⟩
  · intro hno pass2
    have hne : (c1.flags &&& env.CHANNEL_FLAG_PASSWORD == 0) = false := by
      have : c1.flags &&& env.CHANNEL_FLAG_PASSWORD ≠ 0 := hcf
      simpa using this
    simp [switch_admitted, hne, hno]

/-- The hypotheses of the amended C8 hold on the server of the examples: the
admin creates a channel with the PASSWORD flag under the existing channel 6,
the password "a" sent as `[97, 0]`; the channel is stored as channel 7, and
the SWITCHCHAN request of Bob (2), who has no privileges, carrying `[1, 97]`
moves him there. -/
theorem password_round_trip_witness :
    (sampleEnv admin_only true).channel_from_data
        ((sample_request 42 (le32 0 ++ le16 5 ++ le32 6 ++ [97, 0])).drop 24)
        (((sample_request 42 (le32 0 ++ le16 5 ++ le32 6 ++ [97, 0])).length : Int) - 24)
      = (sample_channel 0 6 5 0 [] [] [], (le32 0 ++ le16 5 ++ le32 6).length)
    ∧ returned (c_req_create_channel (sampleEnv admin_only true)
        (sample_request 42 (le32 0 ++ le16 5 ++ le32 6 ++ [97, 0])) 36 1 sampleWorld) = true
    ∧ ((world_of (c_req_create_channel (sampleEnv admin_only true)
          (sample_request 42 (le32 0 ++ le16 5 ++ le32 6 ++ [97, 0])) 36 1
          sampleWorld)).s.chans.getLast?).map (fun c => (c.id, c.parent_id, c.flags))
        = some (7, 6, 5)
    ∧ ∃ w2, c_req_switch_channel (sampleEnv admin_only true)
          (sample_request 43 (le32 7 ++ [1, 97])) 30 2
          (world_of (c_req_create_channel (sampleEnv admin_only true)
            (sample_request 42 (le32 0 ++ le16 5 ++ le32 6 ++ [97, 0])) 36 1 sampleWorld))
        = Except.ok w2
      ∧ w2.s.players.map (fun q => (q.public_id, q.in_chan)) = [(1, 1), (2, 7), (3, 2)] := by
  obtain ⟨c1, hlast, _, _, hsw⟩ := password_round_trip (sampleEnv admin_only true)
    (sample_request 42 (le32 0 ++ le16 5 ++ le32 6 ++ [97, 0])) (sample_request 42 [])
    (le32 0 ++ le16 5 ++ le32 6) [97] 0 1 sampleWorld
    (world_of (c_req_create_channel (sampleEnv admin_only true)
      (sample_request 42 (le32 0 ++ le16 5 ++ le32 6 ++ [97, 0])) 36 1 sampleWorld))
    (sample_channel 0 6 5 0 [] [] []) (by decide) (by decide) (by decide) (by decide)
    (by decide) (by decide) (by decide) (by decide) (by decide) (by decide)
  have hc1 : c1 = sample_channel 7 6 5 0 [97] [] [] :=
    Option.some.inj (hlast.symm.trans (by decide))
  subst hc1
  obtain ⟨_, ⟨w2, hok, _, _⟩, _⟩ := hsw (sample_request 43 (le32 7 ++ [1, 97])) 30 2
    (by decide) (by decide) (by decide)
  refine ⟨by decide, by decide, by decide, w2, hok, ?_⟩
  have hw2 : w2 = world_of (c_req_switch_channel (sampleEnv admin_only true)
      (sample_request 43 (le32 7 ++ [1, 97])) 30 2
      (world_of (c_req_create_channel (sampleEnv admin_only true)
        (sample_request 42 (le32 0 ++ le16 5 ++ le32 6 ++ [97, 0])) 36 1 sampleWorld))) := by
    rw [hok]; rfl
  rw [hw2]
  decide

/-! ## Admission and creation on the requests whose copy count is negative -/

/-- C6, where the code departs from it. Where `char` is signed, let a
SWITCHCHAN request name the existing channel `dst`, which has no PASSWORD
flag, and carry a length byte of 128 or more.  The admission test would hold
for whatever password is supplied, but `c_req_switch_channel` does not reach
it: the copy into `pass` gets a negative count and writes outside the buffer;
the handler does not return, no ACK is sent and the player is not moved (the
state, the target channel with it, is as before). -/
theorem c_req_switch_channel_negative_length (env : Env) (data : Bytes) (len pl : Nat)
    (w : World) (dst : channel)
    (hs : env.char_signed = true)
    (hb : 128 ≤ peek data 28)
    (hd : get_channel_by_id w.s (rd32 data 24) = some dst)
    (hflag : ch_getflags dst &&& env.CHANNEL_FLAG_PASSWORD = 0) :
    (∀ pass, switch_admitted env w.s pl dst pass = true)
    ∧ MIN 29 (char_val env (peek data 28)) < 0
    ∧ c_req_switch_channel env data len pl w = Except.error w
    ∧ returned (c_req_switch_channel env data len pl w) = false
    ∧ (world_of (c_req_switch_channel env data len pl w)).log = w.log
    ∧ (world_of (c_req_switch_channel env data len pl w)).s = w.s
    ∧ get_channel_by_id (world_of (c_req_switch_channel env data len pl w)).s (rd32 data 24)
        = some dst := by
  have hpk : peek data 28 < 256 := by
    unfold peek
    exact Nat.mod_lt _ (by decide)
  have hv : char_val env (peek data 28) = (peek data 28 : Int) - 256 := by
    unfold char_val
    rw [if_pos ⟨hs, by omega⟩]
    omega
  have hm : MIN 29 (char_val env (peek data 28)) < 0 := by
    rw [hv]
    unfold MIN
    rw [if_neg (by omega)]
    omega
  have hnone : strncpy_checked (calloc 30) (data.drop 29)
      (MIN 29 (char_val env (peek data 28))) = none := by
    simp only [strncpy_checked]
    rw [if_neg (by omega)]
  have herr : c_req_switch_channel env data len pl w = Except.error w := by
    simp only [c_req_switch_channel, hnone]
  refine ⟨?_, hm, herr, ?_, ?_, ?_, ?_⟩
  · intro pass
    have h0 : (ch_getflags dst &&& env.CHANNEL_FLAG_PASSWORD == 0) = true := by
      simpa using hflag
    simp [switch_admitted, h0]
  · rw [herr]; rfl
  · rw [herr]; rfl
  · rw [herr]; rfl
  · rw [herr]; exact hd

/-- The hypotheses hold on the server of the examples (signed `char`): Bob (2)
names the channel 6, which has no password, with the length byte 128; the
handler does not return, and nothing has been sent. -/
theorem c_req_switch_channel_negative_length_witness :
    peek (sample_request 42 (le32 6 ++ [128])) 28 = 128
    ∧ get_channel_by_id sampleWorld.s (rd32 (sample_request 42 (le32 6 ++ [128])) 24)
        = some (sample_channel 6 0 0 0 [] [] [])
    ∧ c_req_switch_channel (sampleEnv admin_only true) (sample_request 42 (le32 6 ++ [128]))
        29 2 sampleWorld
      = Except.error sampleWorld :=
  ⟨by decide, by decide,
    (c_req_switch_channel_negative_length (sampleEnv admin_only true)
      (sample_request 42 (le32 6 ++ [128])) 29 2 sampleWorld
      (sample_channel 6 0 0 0 [] [] []) rfl (by decide) (by decide) (by decide)).2.2.1⟩

/-- C14, where the code departs from it. Where `ptrdiff_t` is wider than
`unsigned int`, let the descriptor of a CREATE_CH request consume the packet
to its end (or beyond), and let the requester hold every privilege the
specification lists for the flags of the channel read.  The privilege check
of the handler would pass (`priv_nok` is 0), but `c_req_create_channel` does
not reach it: the password copy gets a negative count and writes outside the
field; the handler does not return after the ACK, and the channel is not
added. -/
theorem c_req_create_channel_short_packet (env : Env) (data : Bytes) (len pl : Nat)
    (w : World)
    (hw : env.ptrdiff_wide = true)
    (hlen : len ≤ 24 + (env.channel_from_data (data.drop 24) ((len : Int) - 24)).2)
    (hpriv : ∀ X ∈ spec_create_required env
        (env.channel_from_data (data.drop 24) ((len : Int) - 24)).1.flags,
      env.player_has_privilege w.s pl X none = true) :
    create_priv_nok env w.s pl
        (env.channel_from_data (data.drop 24) ((len : Int) - 24)).1.flags = 0
    ∧ create_password_count env len
        (24 + (env.channel_from_data (data.drop 24) ((len : Int) - 24)).2) < 0
    ∧ c_req_create_channel env data len pl w = Except.error (send_acknowledge w pl)
    ∧ returned (c_req_create_channel env data len pl w) = false
    ∧ (world_of (c_req_create_channel env data len pl w)).s = w.s
    ∧ (world_of (c_req_create_channel env data len pl w)).log = w.log ++ [Event.ack pl] := by
  have hc : create_password_count env len
      (24 + (env.channel_from_data (data.drop 24) ((len : Int) - 24)).2) < 0 := by
    unfold create_password_count MIN
    rw [if_pos hw]
    split <;> omega
  have hnone : strncpy_checked
      (env.channel_from_data (data.drop 24) ((len : Int) - 24)).1.password
      (data.drop (24 + (env.channel_from_data (data.drop 24) ((len : Int) - 24)).2))
      (create_password_count env len
        (24 + (env.channel_from_data (data.drop 24) ((len : Int) - 24)).2)) = none := by
    simp only [strncpy_checked]
    rw [if_neg (by omega)]
  have herr : c_req_create_channel env data len pl w
      = Except.error (send_acknowledge w pl) := by
    simp only [c_req_create_channel, hnone]
  refine ⟨(create_priv_nok_eq_zero_iff env w.s pl _).mpr hpriv, hc, herr, ?_, ?_, ?_⟩
  · rw [herr]; rfl
  · rw [herr]; rfl
  · rw [herr]; rfl

/-- The hypotheses hold on the server of the examples (wide `ptrdiff_t`): the
admin, who holds every privilege, sends a CREATE_CH request that ends with
the descriptor; the handler does not return and the channels are the six of
before. -/
theorem c_req_create_channel_short_packet_witness :
    (sampleEnv admin_only true).channel_from_data
        ((sample_request 42 (le32 0 ++ le16 1 ++ le32 0)).drop 24) ((34 : Nat) - 24)
      = (sample_channel 0 0 1 0 [] [] [], 10)
    ∧ returned (c_req_create_channel (sampleEnv admin_only true)
        (sample_request 42 (le32 0 ++ le16 1 ++ le32 0)) 34 1 sampleWorld) = false
    ∧ (world_of (c_req_create_channel (sampleEnv admin_only true)
        (sample_request 42 (le32 0 ++ le16 1 ++ le32 0)) 34 1 sampleWorld)).s = sampleWorld.s :=
  ⟨by decide,
    (c_req_create_channel_short_packet (sampleEnv admin_only true)
      (sample_request 42 (le32 0 ++ le16 1 ++ le32 0)) 34 1 sampleWorld rfl (by decide)
      (by decide)).2.2.2.1,
    (c_req_create_channel_short_packet (sampleEnv admin_only true)
      (sample_request 42 (le32 0 ++ le16 1 ++ le32 0)) 34 1 sampleWorld rfl (by decide)
      (by decide)).2.2.2.2.1⟩

end Soliloque
